import Mathlib

/-!
# infer-frame: backend abstraction layer, registry and status model

A shallow embedding of the C++ sources under `src/src/inference` together with
theorems about them.

* `base/status.h`            : `StatusCode`, `Status`
* `base/types.h`             : `BackendType`, `BackendConfig`, `TensorInfo`
* `backend_interface.h`      : `BackendClass` (the virtual interface),
                               `backendTypeToString`, `stringToBackendType`
* `backends/*.h`             : `ONNXRuntimeBackend`, `TensorRTBackend`
* `backend_factory.h`        : `BackendFactory`
* `backend_registry.cc`      : `REGISTER_BACKEND` expansions, `initializeBackends`

Modelling conventions
* An `enum class` with underlying type `int` is a wrapper around `Int`; its
  enumerators are named constants.  A `switch` becomes an `if` chain.
* `std::map<K, V>` is a list of entries in strictly ascending key order.
* `std::shared_ptr<T>` is `Option Addr` (`none` is `nullptr`); the pointee lives
  in a heap with a use count, and is destroyed when the count drops to zero.
* Calls to the logger are recorded, in order, in the `log` of the `World`.
* The mutex of each shared table is not modelled: every operation is one atomic
  step of the sequential semantics.
-/

namespace InferFrame

/-! ## base/status.h -/

/-- Enumeration `StatusCode` of `base/status.h`. -/
inductive StatusCode where
  | kSuccess
  | kErrorInvalidParam
  | kErrorNotInitialized
  | kErrorAlreadyInitialized
  | kErrorOutOfMemory
  | kErrorFileNotFound
  | kErrorModelLoad
  | kErrorInference
  | kErrorNotImplemented
  | kErrorBackendNotSupported
  | kErrorDeviceNotAvailable
  | kErrorTimeout
  | kErrorUnknown
deriving DecidableEq, Repr

/-- Class `Status` of `base/status.h`: a code and a message. -/
structure Status where
  code_ : StatusCode
  message_ : String
deriving DecidableEq, Repr

namespace Status

/-- Static factory `Status::OK()`. -/
def OK : Status := ⟨StatusCode.kSuccess, "Success"⟩

/-- Static factory `Status::Error(code, message)`. -/
def Error (code : StatusCode) (message : String) : Status := ⟨code, message⟩

/-- Static factory `Status::NotInitialized(message)`. -/
def NotInitialized (message : String) : Status := ⟨StatusCode.kErrorNotInitialized, message⟩

/-- Static factory `Status::NotImplemented(message)`. -/
def NotImplemented (message : String) : Status := ⟨StatusCode.kErrorNotImplemented, message⟩

/-- Member `ok()`: the code is `kSuccess`. -/
def ok (s : Status) : Bool := decide (s.code_ = StatusCode.kSuccess)

/-- Member `code()`. -/
def code (s : Status) : StatusCode := s.code_

/-- Member `message()`. -/
def message (s : Status) : String := s.message_

/-- Constructor `Status()`. -/
def ctor : Status := ⟨StatusCode.kSuccess, ""⟩

/-- Static factory `Status::InvalidParam(message)`. -/
def InvalidParam (message : String) : Status := ⟨StatusCode.kErrorInvalidParam, message⟩

/-- Static factory `Status::ModelLoadError(message)`. -/
def ModelLoadError (message : String) : Status := ⟨StatusCode.kErrorModelLoad, message⟩

/-- Static factory `Status::InferenceError(message)`. -/
def InferenceError (message : String) : Status := ⟨StatusCode.kErrorInference, message⟩

/-- Member `isOk()`. -/
def isOk (s : Status) : Bool := s.ok

/-- Conversion `explicit operator bool()`. -/
def toBool (s : Status) : Bool := s.ok

/-- Static member `codeToString(code)`.  The label `default` of the source (it
returns "UnknownCode") is reached by no enumerator, and the sources cast no
integer to `StatusCode`. -/
def codeToString : StatusCode → String
  | StatusCode.kSuccess => "Success"
  | StatusCode.kErrorInvalidParam => "InvalidParam"
  | StatusCode.kErrorNotInitialized => "NotInitialized"
  | StatusCode.kErrorAlreadyInitialized => "AlreadyInitialized"
  | StatusCode.kErrorOutOfMemory => "OutOfMemory"
  | StatusCode.kErrorFileNotFound => "FileNotFound"
  | StatusCode.kErrorModelLoad => "ModelLoadError"
  | StatusCode.kErrorInference => "InferenceError"
  | StatusCode.kErrorNotImplemented => "NotImplemented"
  | StatusCode.kErrorBackendNotSupported => "BackendNotSupported"
  | StatusCode.kErrorDeviceNotAvailable => "DeviceNotAvailable"
  | StatusCode.kErrorTimeout => "Timeout"
  | StatusCode.kErrorUnknown => "Unknown"

/-- Member `toString()`. -/
def toString (s : Status) : String := "[" ++ codeToString s.code_ ++ "] " ++ s.message_

end Status

/-! ## base/types.h -/

/-- Enumeration `enum class BackendType` of `base/types.h`.  The underlying type
is `int`, and the sources cast arbitrary integers into it, so a value is any
integer; the enumerators are the constants below. -/
structure BackendType where
  val : Int
deriving DecidableEq, Repr

namespace BackendType

def kTensorRT : BackendType := ⟨0⟩
def kONNXRuntime : BackendType := ⟨1⟩
def kOpenVINO : BackendType := ⟨2⟩
def kMNN : BackendType := ⟨3⟩
def kTNN : BackendType := ⟨4⟩
def kNCNN : BackendType := ⟨5⟩
def kCoreML : BackendType := ⟨6⟩
def kRKNN : BackendType := ⟨7⟩
def kAscendCL : BackendType := ⟨8⟩
def kSophon : BackendType := ⟨9⟩
def kPaddleInference : BackendType := ⟨10⟩
def kUnknown : BackendType := ⟨99⟩

/-- The enumerators other than the `kUnknown` sentinel, in declaration order. -/
def knownVariants : List BackendType :=
  [kTensorRT, kONNXRuntime, kOpenVINO, kMNN, kTNN, kNCNN, kCoreML, kRKNN,
   kAscendCL, kSophon, kPaddleInference]

/-- The enumerators for which `backendTypeToString` has a `case` label. -/
def namedVariants : List BackendType :=
  [kTensorRT, kONNXRuntime, kRKNN, kSophon, kOpenVINO, kPaddleInference, kMNN]

end BackendType

/-- Key order of `std::map<BackendType, _>`: the order of the underlying integers. -/
instance : LinearOrder BackendType where
  le a b := a.val ≤ b.val
  lt a b := a.val < b.val
  le_refl a := le_refl a.val
  le_trans a b c := fun h1 h2 => le_trans (a := a.val) h1 h2
  lt_iff_le_not_le a b := lt_iff_le_not_le (a := a.val)
  le_antisymm a b := fun h1 h2 => by
    cases a; cases b
    exact congrArg BackendType.mk (le_antisymm h1 h2)
  le_total a b := le_total a.val b.val
  decidableLE a b := inferInstanceAs (Decidable (a.val ≤ b.val))
  decidableLT a b := inferInstanceAs (Decidable (a.val < b.val))
  decidableEq := inferInstance

/-! ## backend_interface.h : names of backend types -/

open BackendType in
/-- Function `backendTypeToString` of `backend_interface.h`. -/
def backendTypeToString (type : BackendType) : String :=
  if type = kTensorRT then "TensorRT"
  else if type = kONNXRuntime then "ONNXRuntime"
  else if type = kRKNN then "RKNN"
  else if type = kSophon then "Sophon"
  else if type = kOpenVINO then "OpenVINO"
  else if type = kPaddleInference then "PaddleInference"
  else if type = kMNN then "MNN"
  else "Unknown"

open BackendType in
/-- Function `stringToBackendType` of `backend_interface.h`. -/
def stringToBackendType (type_str : String) : BackendType :=
  if type_str = "TensorRT" then kTensorRT
  else if type_str = "ONNXRuntime" then kONNXRuntime
  else if type_str = "RKNN" then kRKNN
  else if type_str = "Sophon" then kSophon
  else if type_str = "OpenVINO" then kOpenVINO
  else if type_str = "PaddleInference" then kPaddleInference
  else if type_str = "MNN" then kMNN
  else kUnknown

/-! ## std::map -/

universe u

/-- Lookup of key `k` in a list of entries: the value of the first entry whose
key equals `k`. -/
def findList {K : Type} {V : Type u} [DecidableEq K] (k : K) : List (K × V) → Option V
  | [] => none
  | e :: rest => if k = e.1 then some e.2 else findList k rest

/-- Insert-or-assign of `(k, v)` into an ascending list of entries: an entry
with key `k` is overwritten in place, otherwise the new entry goes in front of
the first entry with a larger key. -/
def assignList {K : Type} {V : Type u} [LinearOrder K] (k : K) (v : V) :
    List (K × V) → List (K × V)
  | [] => [(k, v)]
  | e :: rest =>
    if k < e.1 then (k, v) :: e :: rest
    else if k = e.1 then (k, v) :: rest
    else e :: assignList k v rest

/-- Removal of the entry with key `k` from a list of entries. -/
def eraseList {K : Type} {V : Type u} [DecidableEq K] (k : K) : List (K × V) → List (K × V)
  | [] => []
  | e :: rest => if k = e.1 then rest else e :: eraseList k rest

/-- Container `std::map<K, V>`: its entries in iteration order, which is strictly
ascending in the key (so keys are unique). -/
structure StdMap (K : Type) (V : Type u) [LinearOrder K] where
  entries : List (K × V)
  sorted : (entries.map Prod.fst).Pairwise (fun a b => a < b)

namespace StdMap

variable {K : Type} {V : Type u} [LinearOrder K]

/-- Two maps are equal when their entries are. -/
instance [DecidableEq V] : DecidableEq (StdMap K V) := fun a b =>
  decidable_of_iff (a.entries = b.entries)
    ⟨fun h => by cases a; cases b; cases h; rfl, fun h => by rw [h]⟩

instance [Repr K] [Repr V] : Repr (StdMap K V) := ⟨fun m n => reprPrec m.entries n⟩

/-- Default-constructed (empty) map. -/
def empty : StdMap K V := ⟨[], by simp⟩

/-- Member `find(k)`, with `none` for `end()`. -/
def find (m : StdMap K V) (k : K) : Option V := findList k m.entries

/-- Expression `find(k) != end()`, also `count(k)` seen as a truth value. -/
def contains (m : StdMap K V) (k : K) : Bool := (m.find k).isSome

/-- Keys in iteration order. -/
def keys (m : StdMap K V) : List K := m.entries.map Prod.fst

/-- Member `size()`. -/
def size (m : StdMap K V) : Nat := m.entries.length

/-- Statement `m[k] = v`. -/
def assign (m : StdMap K V) (k : K) (v : V) : StdMap K V where
  entries := assignList k v m.entries
  sorted := by
    have mem : ∀ (l : List (K × V)) (x : K),
        x ∈ (assignList k v l).map Prod.fst → x = k ∨ x ∈ l.map Prod.fst := by
      intro l
      induction l with
      | nil => intro x hx; simpa [assignList] using hx
      | cons e rest ih =>
        intro x hx
        simp only [assignList] at hx
        split_ifs at hx with h1 h2
        · simpa using hx
        · simp only [List.map_cons, List.mem_cons] at hx ⊢
          rcases hx with hx | hx
          · exact Or.inl hx
          · exact Or.inr (Or.inr hx)
        · simp only [List.map_cons, List.mem_cons] at hx ⊢
          rcases hx with hx | hx
          · exact Or.inr (Or.inl hx)
          · rcases ih x hx with h | h
            · exact Or.inl h
            · exact Or.inr (Or.inr h)
    have key : ∀ l : List (K × V), (l.map Prod.fst).Pairwise (fun a b => a < b) →
        ((assignList k v l).map Prod.fst).Pairwise (fun a b => a < b) := by
      intro l
      induction l with
      | nil => intro _; simp [assignList]
      | cons e rest ih =>
        intro h
        simp only [List.map_cons, List.pairwise_cons] at h
        simp only [assignList]
        split_ifs with h1 h2
        · simp only [List.map_cons, List.pairwise_cons]
          refine ⟨?_, h⟩
          intro a ha
          simp only [List.mem_cons] at ha
          rcases ha with ha | ha
          · rw [ha]; exact h1
          · exact lt_trans h1 (h.1 a ha)
        · simp only [List.map_cons, List.pairwise_cons]
          rw [h2]
          exact h
        · simp only [List.map_cons, List.pairwise_cons]
          refine ⟨?_, ih h.2⟩
          intro a ha
          rcases mem rest a ha with ha | ha
          · rw [ha]; exact lt_of_le_of_ne (not_lt.mp h1) (Ne.symm h2)
          · exact h.1 a ha
    exact key m.entries m.sorted

/-- Member `erase(k)`. -/
def erase (m : StdMap K V) (k : K) : StdMap K V where
  entries := eraseList k m.entries
  sorted := by
    have sub : ∀ l : List (K × V), (eraseList k l).Sublist l := by
      intro l
      induction l with
      | nil => simp [eraseList]
      | cons e rest ih =>
        simp only [eraseList]
        split_ifs with h
        · exact List.sublist_cons_self e rest
        · exact List.Sublist.cons₂ e ih
    exact List.Pairwise.sublist ((sub m.entries).map Prod.fst) m.sorted

/-- Member `clear()`. -/
def clear (_m : StdMap K V) : StdMap K V := empty

end StdMap

/-! ## utils/one_logger.hpp : recorded logger calls -/

/-- Severity of a logger call (`LOG_DEBUG`, `LOG_INFO`, `LOG_WARN`, `LOG_ERROR`). -/
inductive LogLevel where
  | debug
  | info
  | warn
  | err
deriving DecidableEq, Repr

/-- One call of the logger: its severity and the formatted message. -/
structure LogEntry where
  level : LogLevel
  text : String
deriving DecidableEq, Repr

/-! ## base/types.h : descriptors -/

/-- Struct `TensorInfo`; the element type is a type code of the tensor library. -/
structure TensorInfo where
  name : String
  shape : List Int
  dtype : Int
deriving DecidableEq, Repr

/-- Struct `BackendConfig`. -/
structure BackendConfig where
  model_path : String
  backend_type : BackendType
  device_id : Int
  options : StdMap String String
deriving DecidableEq, Repr

/-- A `Tensor*`: the address of a tensor owned by the caller. -/
abbrev TensorPtr := Nat

/-! ## backend_interface.h : the virtual interface -/

/-- Outcome of calling a non-const member function on an object with state `σ`:
the returned value, the state of the object afterwards and the logger calls made
during the call, in order. -/
structure Outcome (σ : Type) (α : Type) where
  ret : α
  self : σ
  logs : List LogEntry

/-- A class implementing `BackendInterface`: the type of its data members and its
overrides of the virtual functions.  `infer` and `inferBatch` also return the
contents of their output parameter.  `dtor` gives the logger calls made by the
destructor.  (`getPerformanceStats` returns floating-point data and is left out.) -/
structure BackendClass where
  State : Type
  init : BackendConfig → State → Outcome State Status
  infer : List TensorPtr → List TensorPtr → State → Outcome State (Status × List TensorPtr)
  inferBatch : List (List TensorPtr) → List (List TensorPtr) → State →
    Outcome State (Status × List (List TensorPtr))
  getInputInfos : State → List TensorInfo
  getOutputInfos : State → List TensorInfo
  deinit : State → Outcome State Status
  getType : State → BackendType
  getName : State → String
  isInitialized : State → Bool
  dtor : State → List LogEntry

/-! ## backends/onnxruntime_backend.h -/

/-- Data members of class `ONNXRuntimeBackend`. -/
structure ONNXRuntimeBackend where
  initialized_ : Bool
  config_ : BackendConfig
  input_infos_ : List TensorInfo
  output_infos_ : List TensorInfo
deriving DecidableEq, Repr

namespace ONNXRuntimeBackend

/-- Constructor `ONNXRuntimeBackend()`.  It sets `initialized_` and
default-initialises the other members; `config_.backend_type` has no initialiser
in the source, so its indeterminate value `indet` is a parameter. -/
def ctor (indet : BackendType) : ONNXRuntimeBackend × List LogEntry :=
  ({ initialized_ := false
     config_ := { model_path := "", backend_type := indet, device_id := 0,
                  options := StdMap.empty }
     input_infos_ := []
     output_infos_ := [] },
   [⟨LogLevel.debug, "ONNXRuntimeBackend constructor"⟩])

/-- Member `init(config)`. -/
def init (config : BackendConfig) (self : ONNXRuntimeBackend) :
    Outcome ONNXRuntimeBackend Status :=
  if self.initialized_ then
    { ret := Status.Error StatusCode.kErrorAlreadyInitialized
               "ONNXRuntime backend already initialized"
      self := self
      logs := [] }
  else
    { ret := Status.OK
      self := { self with config_ := config, initialized_ := true }
      logs := [⟨LogLevel.info, "Initializing ONNXRuntime backend..."⟩,
               ⟨LogLevel.info, "Model path: " ++ config.model_path⟩,
               ⟨LogLevel.info, "Device ID: " ++ toString config.device_id⟩,
               ⟨LogLevel.info, "ONNXRuntime backend initialized successfully"⟩] }

/-- Member `infer(inputs, outputs)`. -/
def infer (inputs outputs : List TensorPtr) (self : ONNXRuntimeBackend) :
    Outcome ONNXRuntimeBackend (Status × List TensorPtr) :=
  if !self.initialized_ then
    { ret := (Status.NotInitialized "ONNXRuntime backend not initialized", outputs)
      self := self
      logs := [] }
  else
    { ret := (Status.OK, outputs)
      self := self
      logs := [⟨LogLevel.debug, "ONNXRuntime infer - inputs: " ++ toString inputs.length ++
                 ", outputs: " ++ toString outputs.length⟩] }

/-- Member `inferBatch(batch_inputs, batch_outputs)`. -/
def inferBatch (_batch_inputs batch_outputs : List (List TensorPtr))
    (self : ONNXRuntimeBackend) :
    Outcome ONNXRuntimeBackend (Status × List (List TensorPtr)) :=
  { ret := (Status.NotImplemented "ONNXRuntime batch inference not implemented yet",
            batch_outputs)
    self := self
    logs := [] }

/-- Member `deinit()`. -/
def deinit (self : ONNXRuntimeBackend) : Outcome ONNXRuntimeBackend Status :=
  if !self.initialized_ then
    { ret := Status.OK, self := self, logs := [] }
  else
    { ret := Status.OK
      self := { self with initialized_ := false }
      logs := [⟨LogLevel.info, "Deinitializing ONNXRuntime backend..."⟩,
               ⟨LogLevel.info, "ONNXRuntime backend deinitialized"⟩] }

/-- Member `getType()`. -/
def getType (_self : ONNXRuntimeBackend) : BackendType := BackendType.kONNXRuntime

/-- Member `getName()`. -/
def getName (_self : ONNXRuntimeBackend) : String := "ONNXRuntime"

/-- Member `isInitialized()`. -/
def isInitialized (self : ONNXRuntimeBackend) : Bool := self.initialized_

/-- The class as an implementation of the interface; the destructor calls
`deinit()`. -/
def cls : BackendClass where
  State := ONNXRuntimeBackend
  init := init
  infer := infer
  inferBatch := inferBatch
  getInputInfos := fun self => self.input_infos_
  getOutputInfos := fun self => self.output_infos_
  deinit := deinit
  getType := getType
  getName := getName
  isInitialized := isInitialized
  dtor := fun self => (deinit self).logs

end ONNXRuntimeBackend

/-! ## backends/tensorrt_backend.h -/

/-- Data members of class `TensorRTBackend`: there are none. -/
structure TensorRTBackend where
deriving DecidableEq, Repr

namespace TensorRTBackend

/-- Constructor `TensorRTBackend()`. -/
def ctor : TensorRTBackend × List LogEntry :=
  ({}, [⟨LogLevel.debug, "TensorRTBackend constructor"⟩])

/-- Member `init(config)`. -/
def init (config : BackendConfig) (self : TensorRTBackend) : Outcome TensorRTBackend Status :=
  { ret := Status.OK
    self := self
    logs := [⟨LogLevel.info, "Initializing TensorRT backend..."⟩,
             ⟨LogLevel.info, "Model path: " ++ config.model_path⟩,
             ⟨LogLevel.info, "TensorRT backend initialized (stub implementation)"⟩,
             ⟨LogLevel.info, "Please use NNDeploy TensorRT API directly"⟩] }

/-- Member `infer(inputs, outputs)`. -/
def infer (_inputs outputs : List TensorPtr) (self : TensorRTBackend) :
    Outcome TensorRTBackend (Status × List TensorPtr) :=
  { ret := (Status.OK, outputs)
    self := self
    logs := [⟨LogLevel.debug, "TensorRT infer called"⟩] }

/-- Member `inferBatch(batch_inputs, batch_outputs)`. -/
def inferBatch (_batch_inputs batch_outputs : List (List TensorPtr)) (self : TensorRTBackend) :
    Outcome TensorRTBackend (Status × List (List TensorPtr)) :=
  { ret := (Status.OK, batch_outputs), self := self, logs := [] }

/-- Member `deinit()`. -/
def deinit (self : TensorRTBackend) : Outcome TensorRTBackend Status :=
  { ret := Status.OK
    self := self
    logs := [⟨LogLevel.info, "TensorRT backend deinitialized"⟩] }

/-- Member `getType()`. -/
def getType (_self : TensorRTBackend) : BackendType := BackendType.kTensorRT

/-- Member `getName()`. -/
def getName (_self : TensorRTBackend) : String := "TensorRT"

/-- Member `isInitialized()`. -/
def isInitialized (_self : TensorRTBackend) : Bool := true

/-- The class as an implementation of the interface; the destructor is defaulted. -/
def cls : BackendClass where
  State := TensorRTBackend
  init := init
  infer := infer
  inferBatch := inferBatch
  getInputInfos := fun _ => []
  getOutputInfos := fun _ => []
  deinit := deinit
  getType := getType
  getName := getName
  isInitialized := isInitialized
  dtor := fun _ => []

end TensorRTBackend

/-! ## Heap of backend instances -/

/-- Address of a heap object. -/
abbrev Addr := Nat

/-- A live backend instance managed by `std::shared_ptr`: its dynamic class, its
data members and the use count of its control block. -/
structure BackendObject where
  cls : BackendClass
  st : cls.State
  refs : Nat

/-- The part of the process state the backend layer acts on: the heap of
backend instances, the next unused address and the recorded logger calls. -/
structure World where
  heap : Addr → Option BackendObject
  next : Addr
  log : List LogEntry

namespace World

/-- Process state with no backend instance and no logger call. -/
def initial : World := { heap := fun _ => none, next := 0, log := [] }

/-- One logger call. -/
def logMsg (w : World) (level : LogLevel) (text : String) : World :=
  { w with log := w.log ++ [⟨level, text⟩] }

/-- Several logger calls, in order. -/
def logAll (w : World) (entries : List LogEntry) : World :=
  { w with log := w.log ++ entries }

/-- Replace the object stored at address `p`. -/
def store (w : World) (p : Addr) (o : Option BackendObject) : World :=
  { w with heap := Function.update w.heap p o }

end World

/-- Expression `std::make_shared<C>()` converted to
`std::shared_ptr<BackendInterface>`: run the constructor (its resulting members
and logger calls are `c`), place the object at a fresh address with use count 1. -/
def makeShared (cls : BackendClass) (c : cls.State × List LogEntry) (w : World) :
    Option Addr × World :=
  (some w.next,
   { heap := Function.update w.heap w.next (some { cls := cls, st := c.1, refs := 1 })
     next := w.next + 1
     log := w.log ++ c.2 })

/-- Destruction of one `shared_ptr` to `p`: the use count drops; at zero the
destructor runs and the object is freed. -/
def release (p : Addr) (w : World) : World :=
  match w.heap p with
  | none => w
  | some o =>
    if o.refs ≤ 1 then (w.logAll (o.cls.dtor o.st)).store p none
    else w.store p (some { o with refs := o.refs - 1 })

/-- Run a non-const member function on the object at `p`; `none` when `p` is not
the address of a live object (the call is undefined in the source). -/
def callMember {α : Type} (p : Addr) (w : World)
    (f : (c : BackendClass) → c.State → Outcome c.State α) : Option (α × World) :=
  match w.heap p with
  | none => none
  | some o =>
    let r := f o.cls o.st
    some (r.ret, (w.logAll r.logs).store p (some { o with st := r.self }))

/-- Run a const member function on the object at `p`. -/
def callConst {α : Type} (p : Addr) (w : World)
    (f : (c : BackendClass) → c.State → α) : Option α :=
  match w.heap p with
  | none => none
  | some o => some (f o.cls o.st)

/-- Call `p->init(config)`. -/
def callInit (p : Addr) (config : BackendConfig) (w : World) : Option (Status × World) :=
  callMember p w (fun c st => c.init config st)

/-- Call `p->infer(inputs, outputs)`. -/
def callInfer (p : Addr) (inputs outputs : List TensorPtr) (w : World) :
    Option ((Status × List TensorPtr) × World) :=
  callMember p w (fun c st => c.infer inputs outputs st)

/-- Call `p->deinit()`. -/
def callDeinit (p : Addr) (w : World) : Option (Status × World) :=
  callMember p w (fun c st => c.deinit st)

/-- Call `p->isInitialized()`. -/
def callIsInitialized (p : Addr) (w : World) : Option Bool :=
  callConst p w (fun c st => c.isInitialized st)

/-- Call `p->getType()`. -/
def callGetType (p : Addr) (w : World) : Option BackendType :=
  callConst p w (fun c st => c.getType st)

/-- Call `p->getName()`. -/
def callGetName (p : Addr) (w : World) : Option String :=
  callConst p w (fun c st => c.getName st)

/-! ## backend_factory.h -/

/-- Type `BackendFactory::BackendCreator`, a
`std::function<std::shared_ptr<BackendInterface>()>` holding a callable: any
computation on the process state that returns a pointer.  (An empty
`std::function` and a callable that throws are not creators in this sense.) -/
abbrev BackendCreator := World → Option Addr × World

/-- Data members of class `BackendFactory` (the mutex apart). -/
structure BackendFactory where
  creators_ : StdMap BackendType BackendCreator

/-- Result of a `createBackend` overload: the returned pointer, the factory
afterwards and the process state afterwards. -/
structure Created where
  backend : Option Addr
  self : BackendFactory
  world : World

namespace BackendFactory

/-- Private constructor `BackendFactory()`, run on the first `getInstance()`. -/
def ctor (w : World) : BackendFactory × World :=
  ({ creators_ := StdMap.empty }, w.logMsg LogLevel.info "BackendFactory initialized")

/-- Member `registerBackend(type, creator)`. -/
def registerBackend (self : BackendFactory) (type : BackendType) (creator : BackendCreator)
    (w : World) : BackendFactory × World :=
  ({ creators_ := self.creators_.assign type creator },
   w.logMsg LogLevel.info ("Registered backend: " ++ backendTypeToString type))

/-- Member `createBackend(BackendType type)`. -/
def createBackend (self : BackendFactory) (type : BackendType) (w : World) : Created :=
  match self.creators_.find type with
  | none =>
    { backend := none
      self := self
      world := w.logMsg LogLevel.err
        ("Backend type not supported: " ++ backendTypeToString type) }
  | some creator =>
    let r := creator (w.logMsg LogLevel.info ("Creating backend: " ++ backendTypeToString type))
    { backend := r.1, self := self, world := r.2 }

/-- Member `createBackend(const BackendConfig& config)`; `none` when the pointer
returned by the creator is not null and does not point to a live object.  On a
failed `init` the local pointer `backend` goes out of scope. -/
def createBackendFromConfig (self : BackendFactory) (config : BackendConfig) (w : World) :
    Option Created :=
  let c := self.createBackend config.backend_type w
  match c.backend with
  | none => some { backend := none, self := c.self, world := c.world }
  | some backend =>
    match callInit backend config c.world with
    | none => none
    | some (status, w2) =>
      if !status.ok then
        some { backend := none
               self := c.self
               world := release backend
                 (w2.logMsg LogLevel.err
                   ("Failed to initialize backend " ++ backendTypeToString config.backend_type ++
                    ": " ++ status.message)) }
      else
        some { backend := some backend, self := c.self, world := w2 }

/-- Member `isBackendSupported(type)`. -/
def isBackendSupported (self : BackendFactory) (type : BackendType) : Bool :=
  self.creators_.contains type

/-- Member `getSupportedBackends()`. -/
def getSupportedBackends (self : BackendFactory) : List BackendType :=
  self.creators_.keys

end BackendFactory

/-! ## backend_registry.cc -/

/-- The creator lambda of `REGISTER_BACKEND(TensorRT, TensorRTBackend)`. -/
def tensorRTCreator : BackendCreator := makeShared TensorRTBackend.cls TensorRTBackend.ctor

/-- The creator lambda of `REGISTER_BACKEND(ONNXRuntime, ONNXRuntimeBackend)`. -/
def onnxRuntimeCreator (indet : BackendType) : BackendCreator :=
  makeShared ONNXRuntimeBackend.cls (ONNXRuntimeBackend.ctor indet)

/-- Static initialisation of `backend_registry.cc`: the first registrar
constructs the factory singleton; the two registrars run in declaration order. -/
def staticRegistration (indet : BackendType) (w : World) : BackendFactory × World :=
  let f0 := BackendFactory.ctor w
  let f1 := f0.1.registerBackend BackendType.kTensorRT tensorRTCreator f0.2
  f1.1.registerBackend BackendType.kONNXRuntime (onnxRuntimeCreator indet) f1.2

/-- Function `initializeBackends()`. -/
def initializeBackends (w : World) : World :=
  w.logMsg LogLevel.info "Backend registry initialized"

/-! ## backend_test.cc : the configurations of the test program -/

/-- Variable `trt_config` of `backend_test.cc`. -/
def trt_config : BackendConfig :=
  { model_path := "/path/to/model.engine", backend_type := BackendType.kTensorRT,
    device_id := 0, options := StdMap.empty }

/-- Variable `onnx_config` of `backend_test.cc`. -/
def onnx_config : BackendConfig :=
  { model_path := "/path/to/model.onnx", backend_type := BackendType.kONNXRuntime,
    device_id := 0, options := StdMap.empty }

/-! ## C++ exceptions and the string conversions of the standard library -/

/-- A thrown C++ exception object: the two classes thrown by the numeric
conversions, any other class derived from `std::exception`, or an object of a
type that is not derived from `std::exception`. -/
inductive Exception where
  | invalid_argument (what : String)
  | out_of_range (what : String)
  | std_exception (what : String)
  | non_std
deriving DecidableEq, Repr

namespace Exception

/-- Whether a handler `catch (const std::exception& e)` catches the exception. -/
def isStdException : Exception → Bool
  | invalid_argument _ => true
  | out_of_range _ => true
  | std_exception _ => true
  | non_std => false

/-- Member `what()` of an exception derived from `std::exception`. -/
def what : Exception → String
  | invalid_argument w => w
  | out_of_range w => w
  | std_exception w => w
  | non_std => ""

end Exception

/-- How a call ends: it returns a value or an exception leaves it. -/
inductive Ret (α : Type) where
  | value (a : α)
  | threw (e : Exception)
deriving DecidableEq, Repr

/-- Function `isspace` in the "C" locale. -/
def isspace (c : Char) : Bool := c.toNat = 32 || (9 ≤ c.toNat && c.toNat ≤ 13)

/-- Function `tolower` on ASCII letters. -/
def tolower (c : Char) : Char :=
  if 65 ≤ c.toNat ∧ c.toNat ≤ 90 then Char.ofNat (c.toNat + 32) else c

/-- Value of `c` as a digit in base 10 or 16, if it is one. -/
def digitValue (base : Nat) (c : Char) : Option Nat :=
  if 48 ≤ c.toNat ∧ c.toNat ≤ 57 then some (c.toNat - 48)
  else if base = 16 ∧ 97 ≤ c.toNat ∧ c.toNat ≤ 102 then some (c.toNat - 87)
  else if base = 16 ∧ 65 ≤ c.toNat ∧ c.toNat ≤ 70 then some (c.toNat - 55)
  else none

/-- Skip leading white space. -/
def skipSpace : List Char → List Char
  | [] => []
  | c :: cs => if isspace c then skipSpace cs else c :: cs

/-- Read an optional sign: whether it was a minus, and the rest. -/
def readSign : List Char → Bool × List Char
  | [] => (false, [])
  | c :: cs => if c = '-' then (true, cs) else if c = '+' then (false, cs) else (false, c :: cs)

/-- Read the longest run of digits: the accumulated value (starting from `acc`),
the number of digits read (starting from `n`) and the rest. -/
def readDigits (base : Nat) : Nat → Nat → List Char → Nat × Nat × List Char
  | acc, n, [] => (acc, n, [])
  | acc, n, c :: cs =>
    match digitValue base c with
    | some d => readDigits base (acc * base + d) (n + 1) cs
    | none => (acc, n, c :: cs)

/-- Constant `INT_MAX` for a 32-bit `int`. -/
def INT_MAX : Int := 2147483647

/-- Constant `INT_MIN` for a 32-bit `int`. -/
def INT_MIN : Int := -2147483648

/-- Function `std::stoi(str)` (base 10, no position output): `strtol` skips
white space, reads an optional sign and the longest run of decimal digits and
ignores what follows; no digit gives `std::invalid_argument`, a value outside
`int` gives `std::out_of_range`. -/
def stoi (str : String) : Ret Int :=
  let s := readSign (skipSpace str.toList)
  let r := readDigits 10 0 0 s.2
  if r.2.1 = 0 then Ret.threw (Exception.invalid_argument "stoi")
  else
    let v : Int := if s.1 then -(r.1 : Int) else (r.1 : Int)
    if v < INT_MIN ∨ INT_MAX < v then Ret.threw (Exception.out_of_range "stoi")
    else Ret.value v

/-- A value of type `float` (IEEE 754 binary32): a signed `mantissa * 2 ^ exponent`
with the mantissa odd (or zero, with exponent zero), an infinity, or a NaN. -/
inductive F32 where
  | finite (negative : Bool) (mantissa : Nat) (exponent : Int)
  | infinite (negative : Bool)
  | nan
deriving DecidableEq, Repr

namespace F32

/-- The rational number a finite `float` denotes. -/
def toRat : F32 → Option ℚ
  | finite neg m e => some ((if neg then -1 else 1) * (m : ℚ) * (2 : ℚ) ^ e)
  | infinite _ => none
  | nan => none

/-- Number of halvings that bring `n` below 2 (the floor of its binary logarithm). -/
def ilog2 : Nat → Nat → Nat
  | 0, _ => 0
  | fuel + 1, n => if n < 2 then 0 else ilog2 fuel (n / 2) + 1

/-- Floor of the binary logarithm of `n / d`, for positive `n` and `d`. -/
def floorLog2 (n d : Nat) : Int :=
  let k : Int := (ilog2 n n : Int) - (ilog2 d d : Int)
  if d * 2 ^ k.toNat ≤ n * 2 ^ (-k).toNat then k else k - 1

/-- Nearest integer to `num / den`, ties to even. -/
def roundHalfEven (num den : Nat) : Nat :=
  let q := num / den
  let r := num % den
  if 2 * r < den then q
  else if den < 2 * r then q + 1
  else if q % 2 = 0 then q else q + 1

/-- Make the mantissa odd by moving factors of two into the exponent. -/
def normalize : Nat → Nat → Int → Nat × Int
  | 0, m, e => (m, e)
  | fuel + 1, m, e =>
    if m = 0 then (0, 0)
    else if m % 2 = 0 then normalize fuel (m / 2) (e + 1) else (m, e)

/-- The `float` nearest to `± n / d` (round to nearest, ties to even; 24-bit
significand, least exponent -126 with gradual underflow, overflow to infinity). -/
def round (negative : Bool) (n d : Nat) : F32 :=
  if n = 0 then finite negative 0 0
  else
    let e := max (floorLog2 n d) (-126)
    let s := e - 23
    let r := roundHalfEven (n * 2 ^ (-s).toNat) (d * 2 ^ s.toNat)
    if 2 ^ 128 ≤ r * 2 ^ s.toNat then infinite negative
    else
      let p := normalize r r s
      finite negative p.1 p.2

/-- Macro `TININESS_AFTER_ROUNDING` of glibc with its value on x86
(`sysdeps/x86/tininess.h`): a magnitude counts as tiny when it is below the
least normal magnitude after it is rounded to 24 significant bits with
unbounded exponent.  (With the value 0 every magnitude below the least normal
one is tiny.) -/
def TININESS_AFTER_ROUNDING : Bool := true

/-- Variable `is_tiny` of `round_and_return` in glibc (`strtod_l.c`) for the
magnitude `n / d`: it is below `2 ^ (-126)`, and, with tininess detected after
rounding, rounding its 24 leading bits to nearest does not carry up to
`2 ^ (-126)`. -/
def isTiny (n d : Nat) : Bool :=
  decide (n * 2 ^ 126 < d) &&
    !(TININESS_AFTER_ROUNDING && decide (roundHalfEven (n * 2 ^ 150) d = 2 ^ 24))

/-- Whether converting the magnitude `n / d` (not zero) to `x` sets `ERANGE`:
the result overflowed, or `n / d` is tiny and the result is not exact.  So a
magnitude just below the least normal one that rounds up to it (as that of
"1.1754943e-38") sets `ERANGE` although the result is normal. -/
def rangeError (n d : Nat) : F32 → Bool
  | finite _ m e =>
    isTiny n d && !decide (m * 2 ^ e.toNat * d = n * 2 ^ (-e).toNat)
  | infinite _ => true
  | nan => false

end F32

/-- Whether `cs` starts with the lower-case word `word`, ignoring case. -/
def startsWithIgnoreCase : List Char → List Char → Bool
  | [], _ => true
  | _ :: _, [] => false
  | w :: ws, c :: cs => tolower c = w && startsWithIgnoreCase ws cs

/-- Read a mantissa in the given base: digits with at most one radix point.
Returns the value of all digits read, their number, the number of them after
the point, and the rest. -/
def readMantissa (base : Nat) (cs : List Char) : Nat × Nat × Nat × List Char :=
  let a := readDigits base 0 0 cs
  match a.2.2 with
  | [] => (a.1, a.2.1, 0, [])
  | c :: rest =>
    if c = '.' then
      let b := readDigits base a.1 0 rest
      (b.1, a.2.1 + b.2.1, b.2.1, b.2.2)
    else (a.1, a.2.1, 0, c :: rest)

/-- Read an exponent part introduced by `marker` (lower case): an optional sign
and decimal digits; an absent or incomplete exponent part counts as 0. -/
def readExponent (marker : Char) : List Char → Int
  | [] => 0
  | c :: rest =>
    if tolower c = marker then
      let s := readSign rest
      let d := readDigits 10 0 0 s.2
      if d.2.1 = 0 then 0 else if s.1 then -(d.1 : Int) else (d.1 : Int)
    else 0

/-- Function `std::stof(str)` (no position output), for `strtof` as in glibc:
white space, an optional sign, then an infinity, a NaN, a hexadecimal or a
decimal floating constant, with what follows ignored.  No conversion gives
`std::invalid_argument`, `ERANGE` gives `std::out_of_range` (overflow, and a
tiny magnitude whose result is not exact).  The result is the nearest `float`. -/
def stof (str : String) : Ret F32 :=
  let s := readSign (skipSpace str.toList)
  if startsWithIgnoreCase ['i', 'n', 'f'] s.2 then Ret.value (F32.infinite s.1)
  else if startsWithIgnoreCase ['n', 'a', 'n'] s.2 then Ret.value F32.nan
  else
    let hex : Bool := startsWithIgnoreCase ['0', 'x'] s.2 &&
      decide ((readMantissa 16 (s.2.drop 2)).2.1 ≠ 0)
    let m := if hex then readMantissa 16 (s.2.drop 2) else readMantissa 10 s.2
    if m.2.1 = 0 then Ret.threw (Exception.invalid_argument "stof")
    else
      let e := readExponent (if hex then 'p' else 'e') m.2.2.2
      let x : Int := if hex then e - 4 * (m.2.2.1 : Int) else e - (m.2.2.1 : Int)
      let b : Nat := if hex then 2 else 10
      let n := m.1 * b ^ x.toNat
      let d := b ^ (-x).toNat
      let r := F32.round s.1 n d
      if n ≠ 0 ∧ F32.rangeError n d r = true then Ret.threw (Exception.out_of_range "stof")
      else Ret.value r

/-! ## plugin/algo_plugin_base.h -/

/-- Enumeration `enum class AlgoType` of `algo_plugin_base.h`. -/
inductive AlgoType where
  | kUnknown
  | kDetection
  | kSegmentation
  | kClassification
  | kOCR
  | kTracking
  | kPose
  | kCustom
deriving DecidableEq, Repr

/-- Struct `AlgoInfo` of `algo_plugin_base.h`. -/
structure AlgoInfo where
  name : String
  version : String
  type : AlgoType
  description : String
  supported_backends : List BackendType
  author : String
deriving DecidableEq, Repr

/-- Constructor `AlgoInfo()`. -/
def AlgoInfo.ctor : AlgoInfo :=
  { name := "Unknown", version := "0.0.0", type := AlgoType.kUnknown, description := "",
    supported_backends := [], author := "" }

/-- What the code of a plugin acts on besides the members of the plugin object:
the backend layer (instances and log) and the `BackendFactory` singleton. -/
structure Env where
  world : World
  factory : BackendFactory

/-- One logger call. -/
def Env.logMsg (env : Env) (level : LogLevel) (text : String) : Env :=
  { env with world := env.world.logMsg level text }

/-- Outcome of calling a member function of a plugin object with state `σ`: how
the call ended, the object afterwards and the environment afterwards. -/
structure PluginOutcome (σ : Type) (α : Type) where
  ret : Ret α
  self : σ
  env : Env

/-- A class implementing `AlgoPluginBase`: the type of its data members and its
overrides.  A member function gives `none` where the source dereferences a
pointer to no live object.  `infer` and `inferBatch` return the contents of
their output parameter with the status.  `dtor` is the destructor. -/
structure PluginClass where
  State : Type
  getInfo : State → Ret AlgoInfo
  init : String → BackendConfig → StdMap String String → State → Env →
    Option (PluginOutcome State Status)
  infer : List TensorPtr → List TensorPtr → State → Env →
    Option (PluginOutcome State (Status × List TensorPtr))
  inferBatch : List (List TensorPtr) → List (List TensorPtr) → State → Env →
    Option (PluginOutcome State (Status × List (List TensorPtr)))
  deinit : State → Env → Option (PluginOutcome State Status)
  isInitialized : State → Bool
  dtor : State → Env → Env

/-! ## algorithm/yolov8/yolov8_plugin.h, yolov8_plugin.cc -/

/-- Data members of class `YOLOv8Plugin`. -/
structure YOLOv8Plugin where
  initialized_ : Bool
  backend_ : Option Addr
  model_path_ : String
  conf_threshold_ : F32
  nms_threshold_ : F32
  input_width_ : Int
  input_height_ : Int
deriving DecidableEq, Repr

namespace YOLOv8Plugin

/-- Constructor `YOLOv8Plugin()`; the literals `0.25f` and `0.45f` are the
nearest `float` values. -/
def ctor : YOLOv8Plugin × List LogEntry :=
  ({ initialized_ := false
     backend_ := none
     model_path_ := ""
     conf_threshold_ := F32.round false 25 100
     nms_threshold_ := F32.round false 45 100
     input_width_ := 640
     input_height_ := 640 },
   [⟨LogLevel.debug, "YOLOv8Plugin constructor"⟩])

/-- Member `getInfo()`. -/
def getInfo (_self : YOLOv8Plugin) : AlgoInfo :=
  { name := "YOLOv8"
    version := "1.0.0"
    type := AlgoType.kDetection
    description := "YOLOv8 object detection plugin"
    author := "Infer-Frame Team"
    supported_backends := [BackendType.kTensorRT, BackendType.kONNXRuntime] }

/-- Member `isInitialized()`. -/
def isInitialized (self : YOLOv8Plugin) : Bool := self.initialized_

/-- The last part of `init`, from the creation of the backend on. -/
def initBackend (backend_config : BackendConfig) (algo_params : StdMap String String)
    (self : YOLOv8Plugin) (env : Env) : Option (PluginOutcome YOLOv8Plugin Status) :=
  match (match algo_params.find "backend_type" with
         | none => Ret.value BackendType.kTensorRT
         | some v =>
           match stoi v with
           | Ret.value n => Ret.value (BackendType.mk n)
           | Ret.threw e => Ret.threw e) with
  | Ret.threw e => some { ret := Ret.threw e, self := self, env := env }
  | Ret.value backend_type =>
    let c := env.factory.createBackend backend_type env.world
    let w1 := match self.backend_ with
      | none => c.world
      | some old => release old c.world
    let s1 := { self with backend_ := c.backend }
    let env1 : Env := { world := w1, factory := c.self }
    match c.backend with
    | none =>
      some { ret := Ret.value ⟨StatusCode.kErrorBackendNotSupported, "Failed to create backend"⟩
             self := s1, env := env1 }
    | some b =>
      match callInit b backend_config w1 with
      | none => none
      | some (status, w2) =>
        if !status.ok then
          some { ret := Ret.value status, self := s1, env := { env1 with world := w2 } }
        else
          some { ret := Ret.value Status.OK
                 self := { s1 with initialized_ := true }
                 env := ({ env1 with world := w2 } : Env).logMsg LogLevel.info
                   "YOLOv8Plugin initialized successfully" }

/-- Member `init(model_path, backend_config, algo_params)`.  The text the logger
produces for a `float` is given by `showF32`. -/
def init (showF32 : F32 → String) (model_path : String) (backend_config : BackendConfig)
    (algo_params : StdMap String String) (self : YOLOv8Plugin) (env : Env) :
    Option (PluginOutcome YOLOv8Plugin Status) :=
  if self.initialized_ then
    some { ret := Ret.value ⟨StatusCode.kErrorAlreadyInitialized,
                   "YOLOv8Plugin already initialized"⟩
           self := self, env := env }
  else
    let env1 := (env.logMsg LogLevel.info "Initializing YOLOv8Plugin...").logMsg LogLevel.info
      ("Model path: " ++ model_path)
    let s1 := { self with model_path_ := model_path }
    match (match algo_params.find "conf_threshold" with
           | none => Ret.value s1.conf_threshold_
           | some v => stof v) with
    | Ret.threw e => some { ret := Ret.threw e, self := s1, env := env1 }
    | Ret.value conf =>
      let s2 := { s1 with conf_threshold_ := conf }
      match (match algo_params.find "nms_threshold" with
             | none => Ret.value s2.nms_threshold_
             | some v => stof v) with
      | Ret.threw e => some { ret := Ret.threw e, self := s2, env := env1 }
      | Ret.value nms =>
        let s3 := { s2 with nms_threshold_ := nms }
        match (match algo_params.find "input_width" with
               | none => Ret.value s3.input_width_
               | some v => stoi v) with
        | Ret.threw e => some { ret := Ret.threw e, self := s3, env := env1 }
        | Ret.value width =>
          let s4 := { s3 with input_width_ := width }
          match (match algo_params.find "input_height" with
                 | none => Ret.value s4.input_height_
                 | some v => stoi v) with
          | Ret.threw e => some { ret := Ret.threw e, self := s4, env := env1 }
          | Ret.value height =>
            let s5 := { s4 with input_height_ := height }
            initBackend backend_config algo_params s5
              (env1.logMsg LogLevel.info
                ("YOLO params - conf: " ++ showF32 s5.conf_threshold_ ++ ", nms: " ++
                 showF32 s5.nms_threshold_ ++ ", size: " ++ toString s5.input_width_ ++ "x" ++
                 toString s5.input_height_))

/-- Member `infer(inputs, outputs)`. -/
def infer (inputs outputs : List TensorPtr) (self : YOLOv8Plugin) (env : Env) :
    Option (PluginOutcome YOLOv8Plugin (Status × List TensorPtr)) :=
  if !self.initialized_ then
    some { ret := Ret.value (⟨StatusCode.kErrorNotInitialized, "YOLOv8Plugin not initialized"⟩,
                    outputs)
           self := self, env := env }
  else
    let env1 := env.logMsg LogLevel.debug
      ("YOLOv8 infer - inputs: " ++ toString inputs.length ++ ", outputs: " ++
       toString outputs.length)
    match self.backend_ with
    | some b =>
      match callInfer b inputs outputs env1.world with
      | none => none
      | some (r, w) => some { ret := Ret.value r, self := self, env := { env1 with world := w } }
    | none => some { ret := Ret.value (Status.OK, outputs), self := self, env := env1 }

/-- The loop of `inferBatch` over the remaining frames. -/
def inferBatchLoop : List (List TensorPtr) → List (List TensorPtr) → YOLOv8Plugin → Env →
    Option (PluginOutcome YOLOv8Plugin (Status × List (List TensorPtr)))
  | [], batch_outputs, self, env =>
    some { ret := Ret.value (Status.OK, batch_outputs), self := self, env := env }
  | inputs :: rest, batch_outputs, self, env =>
    match infer inputs [] self env with
    | none => none
    | some r =>
      match r.ret with
      | Ret.threw e => some { ret := Ret.threw e, self := r.self, env := r.env }
      | Ret.value (status, outputs) =>
        if !status.ok then
          some { ret := Ret.value (status, batch_outputs), self := r.self, env := r.env }
        else inferBatchLoop rest (batch_outputs ++ [outputs]) r.self r.env

/-- Member `inferBatch(batch_inputs, batch_outputs)`. -/
def inferBatch (batch_inputs batch_outputs : List (List TensorPtr)) (self : YOLOv8Plugin)
    (env : Env) : Option (PluginOutcome YOLOv8Plugin (Status × List (List TensorPtr))) :=
  if !self.initialized_ then
    some { ret := Ret.value (⟨StatusCode.kErrorNotInitialized, "YOLOv8Plugin not initialized"⟩,
                    batch_outputs)
           self := self, env := env }
  else
    inferBatchLoop batch_inputs batch_outputs self
      (env.logMsg LogLevel.debug
        ("YOLOv8 inferBatch - batch size: " ++ toString batch_inputs.length))

/-- Member `deinit()`. -/
def deinit (self : YOLOv8Plugin) (env : Env) : Option (PluginOutcome YOLOv8Plugin Status) :=
  if !self.initialized_ then
    some { ret := Ret.value Status.OK, self := self, env := env }
  else
    let env1 := env.logMsg LogLevel.info "Deinitializing YOLOv8Plugin..."
    match self.backend_ with
    | some b =>
      match callDeinit b env1.world with
      | none => none
      | some (_, w) =>
        some { ret := Ret.value Status.OK
               self := { self with backend_ := none, initialized_ := false }
               env := ({ env1 with world := release b w } : Env).logMsg LogLevel.info
                 "YOLOv8Plugin deinitialized" }
    | none =>
      some { ret := Ret.value Status.OK
             self := { self with initialized_ := false }
             env := env1.logMsg LogLevel.info "YOLOv8Plugin deinitialized" }

/-- Destructor `~YOLOv8Plugin()`, followed by the destruction of the member
`backend_`.  Where `deinit()` dereferences a pointer to no live backend (which
an owning `shared_ptr` never is) the environment is left as it was. -/
def dtor (self : YOLOv8Plugin) (env : Env) : Env :=
  let env1 := env.logMsg LogLevel.debug "YOLOv8Plugin destructor"
  let r : YOLOv8Plugin × Env :=
    if self.initialized_ then
      match deinit self env1 with
      | some o => (o.self, o.env)
      | none => (self, env1)
    else (self, env1)
  match r.1.backend_ with
  | some b => { r.2 with world := release b r.2.world }
  | none => r.2

/-- The class as an implementation of `AlgoPluginBase`. -/
def cls (showF32 : F32 → String) : PluginClass where
  State := YOLOv8Plugin
  getInfo := fun self => Ret.value (getInfo self)
  init := init showF32
  infer := infer
  inferBatch := inferBatch
  deinit := deinit
  isInitialized := isInitialized
  dtor := dtor

end YOLOv8Plugin

/-! ## The dynamic loader of the operating system (dlfcn.h) -/

/-- A non-null value returned by `dlopen`. -/
abbrev Handle := Nat

/-- Observable events, in the order they happen: a call of `dlopen` with its
result, a call of `dlclose`, and the destruction of a plugin instance (its
destructor has run and its storage is freed). -/
inductive SysEvent where
  | dlopen (path : String) (result : Option Handle)
  | dlclose (handle : Handle)
  | destroyed (plugin : Addr)
deriving DecidableEq, Repr

/-- The handles passed to `dlclose`, in order. -/
def closes : List SysEvent → List Handle
  | [] => []
  | SysEvent.dlclose h :: rest => h :: closes rest
  | _ :: rest => closes rest

/-- State of the operating system as the loaders see it, for libraries with
contents of type `M`.  `library` tells which library (handle and contents)
`dlopen` finds at a path; `mapped` and `openCount` describe the libraries now
open; `error` is the message `dlerror` would return.  `stickyError` selects
whether a dl call that succeeds leaves a pending message in place (the POSIX
wording) or discards it (glibc). -/
structure Os (M : Type u) where
  fileExists : String → Bool
  library : String → Option (Handle × M)
  mapped : Handle → Option M
  openCount : Handle → Nat
  error : Option String
  stickyError : Bool
  trace : List SysEvent

namespace Os

variable {M : Type u}

/-- Start of a dl call other than `dlerror`. -/
def enter (os : Os M) : Os M :=
  if os.stickyError then os else { os with error := none }

/-- Record an event. -/
def record (os : Os M) (e : SysEvent) : Os M :=
  { os with trace := os.trace ++ [e] }

/-- Function `dlopen(path, flags)`. -/
def dlopen (path : String) (os : Os M) : Option Handle × Os M :=
  match os.library path with
  | none =>
    (none, ({ os.enter with error := some (path ++ ": cannot open shared object file") }
      : Os M).record (SysEvent.dlopen path none))
  | some (h, m) =>
    (some h, ({ os.enter with mapped := Function.update os.mapped h (some m)
                              openCount := Function.update os.openCount h (os.openCount h + 1) }
      : Os M).record (SysEvent.dlopen path (some h)))

/-- Function `dlsym(handle, name)`, with the symbol seen at its type: `sel`
picks the symbol called `name` from the contents of a library. -/
def dlsym {α : Type u} (sel : M → Option α) (name : String) (handle : Handle) (os : Os M) :
    Option α × Os M :=
  match os.mapped handle with
  | none => (none, { os.enter with error := some "invalid handle" })
  | some m =>
    match sel m with
    | none => (none, { os.enter with error := some ("undefined symbol: " ++ name) })
    | some f => (some f, os.enter)

/-- Function `dlclose(handle)`. -/
def dlclose (handle : Handle) (os : Os M) : Os M :=
  if os.openCount handle = 0 then
    ({ os.enter with error := some "shared object not open" } : Os M).record
      (SysEvent.dlclose handle)
  else
    ({ os.enter with
        openCount := Function.update os.openCount handle (os.openCount handle - 1)
        mapped := if os.openCount handle - 1 = 0 then Function.update os.mapped handle none
                  else os.mapped } : Os M).record (SysEvent.dlclose handle)

/-- Function `dlerror()`: the pending message, which is then cleared. -/
def dlerror (os : Os M) : Option String × Os M :=
  (os.error, { os with error := none })

end Os

/-! ## Plugin instances and the object-style loader (plugin_loader.h) -/

/-- A live plugin instance managed by `std::shared_ptr`. -/
structure PluginObject where
  cls : PluginClass
  st : cls.State
  refs : Nat

/-- What the code of a plugin library acts on: the environment and the heap of
plugin instances. -/
structure PluginSide where
  env : Env
  plugins : Addr → Option PluginObject
  pnext : Addr

/-- Type `CreateAlgoPluginFunc`: a call returns a pointer (possibly null) or an
exception leaves it. -/
abbrev CreateAlgoPluginFunc := PluginSide → Ret (Option Addr) × PluginSide

/-- Contents of a library for the object-style loader: the symbol
`createAlgoPlugin`, if exported. -/
structure PluginModule where
  createAlgoPlugin : Option CreateAlgoPluginFunc

/-- Expression `std::make_shared<C>()` in `REGISTER_ALGO_PLUGIN(C)`. -/
def makeSharedPlugin (cls : PluginClass) (c : cls.State × List LogEntry) :
    CreateAlgoPluginFunc := fun side =>
  (Ret.value (some side.pnext),
   { env := { side.env with world := side.env.world.logAll c.2 }
     plugins := Function.update side.plugins side.pnext (some { cls := cls, st := c.1, refs := 1 })
     pnext := side.pnext + 1 })

/-- The library built from `yolov8_plugin.cc`. -/
def yolov8PluginModule (showF32 : F32 → String) : PluginModule :=
  { createAlgoPlugin := some (makeSharedPlugin (YOLOv8Plugin.cls showF32) YOLOv8Plugin.ctor) }

/-- State of a host process of the object-style loader. -/
structure Host where
  side : PluginSide
  os : Os PluginModule

namespace Host

/-- One logger call. -/
def logMsg (host : Host) (level : LogLevel) (text : String) : Host :=
  { host with side := { host.side with env := host.side.env.logMsg level text } }

/-- Copy of a `shared_ptr` to the plugin at `p`: the use count goes up. -/
def share (p : Addr) (host : Host) : Host :=
  match host.side.plugins p with
  | none => host
  | some o =>
    { host with side := { host.side with
        plugins := Function.update host.side.plugins p (some { o with refs := o.refs + 1 }) } }

/-- Destruction or `reset()` of a `shared_ptr` to the plugin at `p`: the use
count goes down; at zero the destructor runs and the instance is freed. -/
def release (p : Addr) (host : Host) : Host :=
  match host.side.plugins p with
  | none => host
  | some o =>
    if o.refs ≤ 1 then
      { side := { host.side with env := o.cls.dtor o.st host.side.env
                                 plugins := Function.update host.side.plugins p none }
        os := host.os.record (SysEvent.destroyed p) }
    else
      { host with side := { host.side with
          plugins := Function.update host.side.plugins p (some { o with refs := o.refs - 1 }) } }

/-- Destruction or `reset()` of a `shared_ptr` that may be null. -/
def releasePtr (p : Option Addr) (host : Host) : Host :=
  match p with
  | none => host
  | some a => host.release a

/-- Statement `if (dl_handle) dlclose(dl_handle);`. -/
def closeHandle (dl_handle : Option Handle) (host : Host) : Host :=
  match dl_handle with
  | none => host
  | some h => { host with os := host.os.dlclose h }

/-- Call `p->getInfo()`; `none` when `p` points to no live instance. -/
def callGetInfo (p : Addr) (host : Host) : Option (Ret AlgoInfo) :=
  match host.side.plugins p with
  | none => none
  | some o => some (o.cls.getInfo o.st)

end Host

/-- Struct `PluginLoader::PluginHandle` (the member `instance` is `instance_`
here). -/
structure PluginLoader.PluginHandle where
  dl_handle : Option Handle
  instance_ : Option Addr
  path : String
deriving DecidableEq, Repr

/-- Data members of class `PluginLoader` (the mutex apart). -/
structure PluginLoader where
  loaded_plugins_ : StdMap String PluginLoader.PluginHandle

/-- Outcome of a member function of `PluginLoader`: how the call ended, the
loader afterwards and the process afterwards. -/
structure Loaded (α : Type) where
  ret : Ret α
  self : PluginLoader
  host : Host

namespace PluginLoader

/-- Constructor `PluginLoader()`. -/
def ctor : PluginLoader := { loaded_plugins_ := StdMap.empty }

/-- Member `getCreateFunction(dl_handle)`. -/
def getCreateFunction (dl_handle : Handle) (host : Host) :
    Option CreateAlgoPluginFunc × Host :=
  let os1 := (host.os.dlerror).2
  let r := os1.dlsym PluginModule.createAlgoPlugin "createAlgoPlugin" dl_handle
  let e := r.2.dlerror
  match e.1 with
  | some error =>
    (none, ({ host with os := e.2 } : Host).logMsg LogLevel.err ("dlsym error: " ++ error))
  | none => (r.1, { host with os := e.2 })

/-- The handler `catch (const std::exception& e)` of `loadPlugin`, entered with
the locals of the `try` block already destroyed; an exception of another type
leaves `loadPlugin`. -/
def loadPluginCatch (e : Exception) (dl_handle : Handle) (self : PluginLoader) (host : Host) :
    Loaded (Option Addr) :=
  if e.isStdException then
    { ret := Ret.value none
      self := self
      host := Host.closeHandle (some dl_handle)
        (host.logMsg LogLevel.err ("Exception while creating plugin: " ++ e.what)) }
  else
    { ret := Ret.threw e, self := self, host := host }

/-- Member `loadPlugin(plugin_path)`; `none` when the factory returns a pointer
that is not null and points to no live instance. -/
def loadPlugin (plugin_path : String) (self : PluginLoader) (host : Host) :
    Option (Loaded (Option Addr)) :=
  let host1 := host.logMsg LogLevel.info ("Loading plugin from: " ++ plugin_path)
  let o := host1.os.dlopen plugin_path
  match o.1 with
  | none =>
    let e := o.2.dlerror
    some { ret := Ret.value none
           self := self
           host := ({ host1 with os := e.2 } : Host).logMsg LogLevel.err
             ("Failed to load plugin: " ++ e.1.getD "") }
  | some dl_handle =>
    let g := getCreateFunction dl_handle { host1 with os := o.2 }
    match g.1 with
    | none =>
      some { ret := Ret.value none
             self := self
             host := Host.closeHandle (some dl_handle)
               (g.2.logMsg LogLevel.err
                 ("Failed to find createAlgoPlugin function in " ++ plugin_path)) }
    | some create_func =>
      let c := create_func g.2.side
      let host2 : Host := { g.2 with side := c.2 }
      match c.1 with
      | Ret.threw e => some (loadPluginCatch e dl_handle self host2)
      | Ret.value none =>
        some { ret := Ret.value none
               self := self
               host := Host.closeHandle (some dl_handle)
                 (host2.logMsg LogLevel.err "createAlgoPlugin returned nullptr") }
      | Ret.value (some plugin) =>
        match host2.callGetInfo plugin with
        | none => none
        | some (Ret.threw e) => some (loadPluginCatch e dl_handle self (host2.release plugin))
        | some (Ret.value info) =>
          let host3 := host2.logMsg LogLevel.info
            ("Plugin loaded successfully: " ++ info.name ++ " v" ++ info.version)
          let host4 := host3.share plugin
          let host5 := match self.loaded_plugins_.find info.name with
            | none => host4
            | some old => host4.releasePtr old.instance_
          some { ret := Ret.value (some plugin)
                 self := { loaded_plugins_ := self.loaded_plugins_.assign info.name
                             { dl_handle := some dl_handle, instance_ := some plugin,
                               path := plugin_path } }
                 host := host5 }

/-- Result of `unloadPlugin`: the returned flag, the loader and the process. -/
structure Unloaded where
  ret : Bool
  self : PluginLoader
  host : Host

/-- Member `unloadPlugin(plugin_name)`. -/
def unloadPlugin (plugin_name : String) (self : PluginLoader) (host : Host) : Unloaded :=
  match self.loaded_plugins_.find plugin_name with
  | none =>
    { ret := false, self := self
      host := host.logMsg LogLevel.warn ("Plugin not found: " ++ plugin_name) }
  | some h =>
    { ret := true
      self := { loaded_plugins_ := self.loaded_plugins_.erase plugin_name }
      host := (Host.closeHandle h.dl_handle (host.releasePtr h.instance_)).logMsg LogLevel.info
        ("Plugin unloaded: " ++ plugin_name) }

/-- The loop of `unloadAll` over the entries of the table. -/
def unloadEntries : List (String × PluginHandle) → Host → Host
  | [], host => host
  | e :: rest, host =>
    unloadEntries rest (Host.closeHandle e.2.dl_handle (host.releasePtr e.2.instance_))

/-- Member `unloadAll()`. -/
def unloadAll (self : PluginLoader) (host : Host) : PluginLoader × Host :=
  ({ loaded_plugins_ := self.loaded_plugins_.clear },
   (unloadEntries self.loaded_plugins_.entries host).logMsg LogLevel.info "All plugins unloaded")

/-- Member `getLoadedPlugins()`. -/
def getLoadedPlugins (self : PluginLoader) : List String := self.loaded_plugins_.keys

/-- Member `getPlugin(plugin_name)`: the returned pointer is a copy of the
stored one. -/
def getPlugin (plugin_name : String) (self : PluginLoader) (host : Host) : Option Addr × Host :=
  match self.loaded_plugins_.find plugin_name with
  | some h =>
    (h.instance_, match h.instance_ with
                  | none => host
                  | some p => host.share p)
  | none => (none, host)

end PluginLoader

/-! ## plugin/algo_plugin_interface.h : the flat C interface -/

namespace Abi

/-- Enumeration `AlgoStatus`: a C enumeration, so any `int`; the enumerators are
the constants below. -/
structure AlgoStatus where
  val : Int
deriving DecidableEq, Repr

def ALGO_STATUS_SUCCESS : AlgoStatus := ⟨0⟩
def ALGO_STATUS_ERROR_INVALID_PARAM : AlgoStatus := ⟨1⟩
def ALGO_STATUS_ERROR_NOT_INITIALIZED : AlgoStatus := ⟨2⟩
def ALGO_STATUS_ERROR_ALREADY_INITIALIZED : AlgoStatus := ⟨3⟩
def ALGO_STATUS_ERROR_OUT_OF_MEMORY : AlgoStatus := ⟨4⟩
def ALGO_STATUS_ERROR_FILE_NOT_FOUND : AlgoStatus := ⟨5⟩
def ALGO_STATUS_ERROR_MODEL_LOAD : AlgoStatus := ⟨6⟩
def ALGO_STATUS_ERROR_INFERENCE : AlgoStatus := ⟨7⟩
def ALGO_STATUS_ERROR_BACKEND_NOT_SUPPORTED : AlgoStatus := ⟨8⟩
def ALGO_STATUS_ERROR_UNKNOWN : AlgoStatus := ⟨99⟩

/-- Enumeration `AlgoBackendType`. -/
structure AlgoBackendType where
  val : Int
deriving DecidableEq, Repr

def ALGO_BACKEND_TENSORRT : AlgoBackendType := ⟨0⟩
def ALGO_BACKEND_ONNXRUNTIME : AlgoBackendType := ⟨1⟩
def ALGO_BACKEND_OPENVINO : AlgoBackendType := ⟨2⟩
def ALGO_BACKEND_MNN : AlgoBackendType := ⟨3⟩
def ALGO_BACKEND_NCNN : AlgoBackendType := ⟨4⟩
def ALGO_BACKEND_TNN : AlgoBackendType := ⟨5⟩
def ALGO_BACKEND_RKNN : AlgoBackendType := ⟨6⟩
def ALGO_BACKEND_ASCENDCL : AlgoBackendType := ⟨7⟩
def ALGO_BACKEND_COREML : AlgoBackendType := ⟨8⟩
def ALGO_BACKEND_UNKNOWN : AlgoBackendType := ⟨99⟩

/-- Enumeration `AlgoType` of the C header. -/
structure AlgoType where
  val : Int
deriving DecidableEq, Repr

def ALGO_TYPE_DETECTION : AlgoType := ⟨0⟩
def ALGO_TYPE_CLASSIFICATION : AlgoType := ⟨1⟩
def ALGO_TYPE_SEGMENTATION : AlgoType := ⟨2⟩
def ALGO_TYPE_OCR : AlgoType := ⟨3⟩
def ALGO_TYPE_POSE : AlgoType := ⟨4⟩
def ALGO_TYPE_FACE : AlgoType := ⟨5⟩
def ALGO_TYPE_TRACK : AlgoType := ⟨6⟩
def ALGO_TYPE_UNKNOWN : AlgoType := ⟨99⟩

/-- Struct `AlgoInfo` of the C header; the character arrays are read as
strings, and the array of backends with its count is a list. -/
structure AlgoInfo where
  name : String
  version : String
  type : AlgoType
  description : String
  author : String
  supported_backends : List AlgoBackendType
deriving DecidableEq, Repr

/-- A C pointer passed through the interface: `none` is `NULL`. -/
abbrev CPtr := Option Nat

/-- Type `AlgoHandle` (`void*`). -/
abbrev AlgoHandle := CPtr

end Abi

/-- Contents of a library for the flat-table loader: each of the seven
functions of the interface, if exported.  The functions act on a state `σ` of
the plugin code (its instances and the memory its arguments point to). -/
structure CModule (σ : Type) where
  AlgoGetInfo : Option (σ → Option Abi.AlgoInfo × σ)
  AlgoCreate : Option (σ → Abi.AlgoHandle × σ)
  AlgoInit : Option (Abi.AlgoHandle → Abi.CPtr → σ → Abi.AlgoStatus × σ)
  AlgoInferDetection : Option (Abi.AlgoHandle → Abi.CPtr → Abi.CPtr → σ → Abi.AlgoStatus × σ)
  AlgoDeinit : Option (Abi.AlgoHandle → σ → Abi.AlgoStatus × σ)
  AlgoDestroy : Option (Abi.AlgoHandle → σ → σ)
  AlgoFreeDetResult : Option (Abi.CPtr → σ → σ)

/-! ## The flat-table loader (plugin_loader_c.h) -/

/-- State of a host process of the flat-table loader: the state of the plugin
code, the recorded logger calls and the operating system. -/
structure CHost (σ : Type) where
  plug : σ
  log : List LogEntry
  os : Os (CModule σ)

/-- One logger call. -/
def CHost.logMsg {σ : Type} (host : CHost σ) (level : LogLevel) (text : String) : CHost σ :=
  { host with log := host.log ++ [⟨level, text⟩] }

/-- Statement `if (dl_handle) dlclose(dl_handle);`. -/
def CHost.closeHandle {σ : Type} (dl_handle : Option Handle) (host : CHost σ) : CHost σ :=
  match dl_handle with
  | none => host
  | some h => { host with os := host.os.dlclose h }

/-- Struct `PluginLoaderC::PluginHandle`: a null function pointer is `none`. -/
structure PluginLoaderC.PluginHandle (σ : Type) where
  dl_handle : Option Handle
  path : String
  getInfo : Option (σ → Option Abi.AlgoInfo × σ)
  create : Option (σ → Abi.AlgoHandle × σ)
  init : Option (Abi.AlgoHandle → Abi.CPtr → σ → Abi.AlgoStatus × σ)
  inferDetection : Option (Abi.AlgoHandle → Abi.CPtr → Abi.CPtr → σ → Abi.AlgoStatus × σ)
  deinit : Option (Abi.AlgoHandle → σ → Abi.AlgoStatus × σ)
  destroy : Option (Abi.AlgoHandle → σ → σ)
  freeDetResult : Option (Abi.CPtr → σ → σ)

/-- Data members of class `PluginLoaderC` (the mutex apart). -/
structure PluginLoaderC (σ : Type) where
  loaded_plugins_ : StdMap String (PluginLoaderC.PluginHandle σ)

/-- Outcome of a member function of `PluginLoaderC`: the returned value, the
loader afterwards and the process afterwards. -/
structure CLoaded (σ : Type) (α : Type) where
  ret : α
  self : PluginLoaderC σ
  host : CHost σ

namespace PluginLoaderC

variable {σ : Type}

/-- Constructor `PluginLoaderC()`. -/
def ctor : PluginLoaderC σ := { loaded_plugins_ := StdMap.empty }

/-- Member `loadFunctions(handle)`, called with `handle.dl_handle` equal to the
non-null `dl` and `handle.path` equal to `path`; it returns the flag and the
handle with its seven function pointers assigned. -/
def loadFunctions (dl : Handle) (path : String) (host : CHost σ) :
    Bool × PluginHandle σ × CHost σ :=
  let r1 := host.os.dlsym CModule.AlgoGetInfo "AlgoGetInfo" dl
  let r2 := r1.2.dlsym CModule.AlgoCreate "AlgoCreate" dl
  let r3 := r2.2.dlsym CModule.AlgoInit "AlgoInit" dl
  let r4 := r3.2.dlsym CModule.AlgoInferDetection "AlgoInferDetection" dl
  let r5 := r4.2.dlsym CModule.AlgoDeinit "AlgoDeinit" dl
  let r6 := r5.2.dlsym CModule.AlgoDestroy "AlgoDestroy" dl
  let r7 := r6.2.dlsym CModule.AlgoFreeDetResult "AlgoFreeDetResult" dl
  let handle : PluginHandle σ :=
    { dl_handle := some dl, path := path, getInfo := r1.1, create := r2.1, init := r3.1,
      inferDetection := r4.1, deinit := r5.1, destroy := r6.1, freeDetResult := r7.1 }
  let e := r7.2.dlerror
  match e.1 with
  | some dlsym_error =>
    (false, handle,
     ({ host with os := e.2 } : CHost σ).logMsg LogLevel.err
       ("Cannot load symbols: " ++ dlsym_error))
  | none =>
    if handle.getInfo.isNone || handle.create.isNone || handle.init.isNone ||
        handle.inferDetection.isNone || handle.deinit.isNone || handle.destroy.isNone then
      (false, handle,
       ({ host with os := e.2 } : CHost σ).logMsg LogLevel.err
         "Missing required functions in plugin")
    else (true, handle, { host with os := e.2 })

/-- Member `loadPlugin(plugin_path)`; `none` where the source calls through a
null function pointer. -/
def loadPlugin (plugin_path : String) (self : PluginLoaderC σ) (host : CHost σ) :
    Option (CLoaded σ Bool) :=
  if !host.os.fileExists plugin_path then
    some { ret := false, self := self
           host := host.logMsg LogLevel.err ("Plugin file not found: " ++ plugin_path) }
  else
    let host1 := host.logMsg LogLevel.info ("Loading plugin from: " ++ plugin_path)
    let o := host1.os.dlopen plugin_path
    match o.1 with
    | none =>
      let e := o.2.dlerror
      some { ret := false, self := self
             host := ({ host1 with os := e.2 } : CHost σ).logMsg LogLevel.err
               ("Failed to load plugin: " ++ e.1.getD "") }
    | some dl =>
      let f := loadFunctions dl plugin_path { host1 with os := o.2 }
      if !f.1 then
        some { ret := false, self := self, host := CHost.closeHandle (some dl) f.2.2 }
      else
        match f.2.1.getInfo with
        | none => none
        | some getInfo =>
          let i := getInfo f.2.2.plug
          let host2 : CHost σ := { f.2.2 with plug := i.2 }
          match i.1 with
          | none =>
            some { ret := false, self := self
                   host := CHost.closeHandle (some dl)
                     (host2.logMsg LogLevel.err "Failed to get plugin info") }
          | some info =>
            some { ret := true
                   self := { loaded_plugins_ := self.loaded_plugins_.assign info.name f.2.1 }
                   host := host2.logMsg LogLevel.info
                     ("Plugin loaded successfully: " ++ info.name ++ " v" ++ info.version) }

/-- Member `unloadPlugin(plugin_name)`. -/
def unloadPlugin (plugin_name : String) (self : PluginLoaderC σ) (host : CHost σ) :
    CLoaded σ Bool :=
  match self.loaded_plugins_.find plugin_name with
  | none => { ret := false, self := self, host := host }
  | some h =>
    { ret := true
      self := { loaded_plugins_ := self.loaded_plugins_.erase plugin_name }
      host := (CHost.closeHandle h.dl_handle host).logMsg LogLevel.info
        ("Plugin unloaded: " ++ plugin_name) }

/-- The loop of `unloadAll` over the entries of the table. -/
def unloadEntries : List (String × PluginHandle σ) → CHost σ → CHost σ
  | [], host => host
  | e :: rest, host => unloadEntries rest (CHost.closeHandle e.2.dl_handle host)

/-- Member `unloadAll()`. -/
def unloadAll (self : PluginLoaderC σ) (host : CHost σ) : CLoaded σ Unit :=
  { ret := ()
    self := { loaded_plugins_ := self.loaded_plugins_.clear }
    host := (unloadEntries self.loaded_plugins_.entries host).logMsg LogLevel.info
      "All plugins unloaded" }

/-- Member `getLoadedPlugins()`. -/
def getLoadedPlugins (self : PluginLoaderC σ) : List String := self.loaded_plugins_.keys

/-- Member `getPluginInfo(plugin_name)`. -/
def getPluginInfo (plugin_name : String) (self : PluginLoaderC σ) (host : CHost σ) :
    Option (CLoaded σ (Option Abi.AlgoInfo)) :=
  match self.loaded_plugins_.find plugin_name with
  | none => some { ret := none, self := self, host := host }
  | some h =>
    match h.getInfo with
    | none => none
    | some f => some { ret := (f host.plug).1, self := self
                       host := { host with plug := (f host.plug).2 } }

/-- Member `createAlgoInstance(plugin_name)`. -/
def createAlgoInstance (plugin_name : String) (self : PluginLoaderC σ) (host : CHost σ) :
    Option (CLoaded σ Abi.AlgoHandle) :=
  match self.loaded_plugins_.find plugin_name with
  | none =>
    some { ret := none, self := self
           host := host.logMsg LogLevel.err ("Plugin not found: " ++ plugin_name) }
  | some h =>
    match h.create with
    | none => none
    | some f => some { ret := (f host.plug).1, self := self
                       host := { host with plug := (f host.plug).2 } }

/-- Member `initAlgo(handle, plugin_name, param)`. -/
def initAlgo (handle : Abi.AlgoHandle) (plugin_name : String) (param : Abi.CPtr)
    (self : PluginLoaderC σ) (host : CHost σ) : Option (CLoaded σ Abi.AlgoStatus) :=
  match self.loaded_plugins_.find plugin_name with
  | none => some { ret := Abi.ALGO_STATUS_ERROR_INVALID_PARAM, self := self, host := host }
  | some h =>
    match h.init with
    | none => none
    | some f => some { ret := (f handle param host.plug).1, self := self
                       host := { host with plug := (f handle param host.plug).2 } }

/-- Member `inferDetection(handle, plugin_name, input, result)`. -/
def inferDetection (handle : Abi.AlgoHandle) (plugin_name : String) (input result : Abi.CPtr)
    (self : PluginLoaderC σ) (host : CHost σ) : Option (CLoaded σ Abi.AlgoStatus) :=
  match self.loaded_plugins_.find plugin_name with
  | none => some { ret := Abi.ALGO_STATUS_ERROR_INVALID_PARAM, self := self, host := host }
  | some h =>
    match h.inferDetection with
    | none => none
    | some f => some { ret := (f handle input result host.plug).1, self := self
                       host := { host with plug := (f handle input result host.plug).2 } }

/-- Member `deinitAlgo(handle, plugin_name)`. -/
def deinitAlgo (handle : Abi.AlgoHandle) (plugin_name : String)
    (self : PluginLoaderC σ) (host : CHost σ) : Option (CLoaded σ Abi.AlgoStatus) :=
  match self.loaded_plugins_.find plugin_name with
  | none => some { ret := Abi.ALGO_STATUS_ERROR_INVALID_PARAM, self := self, host := host }
  | some h =>
    match h.deinit with
    | none => none
    | some f => some { ret := (f handle host.plug).1, self := self
                       host := { host with plug := (f handle host.plug).2 } }

/-- Member `destroyAlgoInstance(handle, plugin_name)`. -/
def destroyAlgoInstance (handle : Abi.AlgoHandle) (plugin_name : String)
    (self : PluginLoaderC σ) (host : CHost σ) : Option (CLoaded σ Unit) :=
  match self.loaded_plugins_.find plugin_name with
  | none => some { ret := (), self := self, host := host }
  | some h =>
    match h.destroy with
    | none => none
    | some f => some { ret := (), self := self, host := { host with plug := f handle host.plug } }

/-- A call in a sequence of loads and unloads. -/
inductive Op where
  | load (plugin_path : String)
  | unload (plugin_name : String)
  | unloadAll

/-- Run one call of the sequence. -/
def step (op : Op) (s : PluginLoaderC σ × CHost σ) : Option (PluginLoaderC σ × CHost σ) :=
  match op with
  | Op.load plugin_path =>
    match loadPlugin plugin_path s.1 s.2 with
    | none => none
    | some r => some (r.self, r.host)
  | Op.unload plugin_name =>
    some ((unloadPlugin plugin_name s.1 s.2).self, (unloadPlugin plugin_name s.1 s.2).host)
  | Op.unloadAll => some ((unloadAll s.1 s.2).self, (unloadAll s.1 s.2).host)

/-- Run a sequence of calls, the first one first. -/
def run : List Op → PluginLoaderC σ × CHost σ → Option (PluginLoaderC σ × CHost σ)
  | [], s => some s
  | op :: ops, s =>
    match step op s with
    | none => none
    | some s1 => run ops s1

end PluginLoaderC

/-! ## algorithm/yolov8/yolov8_plugin_c.cpp -/

namespace Abi

/-- Enumeration `AlgoDataType`. -/
structure AlgoDataType where
  val : Int
deriving DecidableEq, Repr

def ALGO_DATA_TYPE_FLOAT32 : AlgoDataType := ⟨0⟩

/-- Struct `AlgoTensor`; the character array `name` is read as a string. -/
structure AlgoTensor where
  name : String
  data_type : AlgoDataType
  ndim : Int
  shape : Fin 8 → Int
  data : CPtr
  size : Nat

/-- Struct `AlgoDetBox`; the character array `class_name` is read as a string. -/
structure AlgoDetBox where
  x1 : F32
  y1 : F32
  x2 : F32
  y2 : F32
  score : F32
  class_id : Int
  class_name : String
deriving DecidableEq, Repr

/-- Struct `AlgoDetResult`; `boxes` points to an array of boxes or is null. -/
structure AlgoDetResult where
  boxes : CPtr
  num_boxes : Int
  timestamp : Int
deriving DecidableEq, Repr

/-- Struct `AlgoInitParam`; a `const char*` member is `none` when null. -/
structure AlgoInitParam where
  model_path : Option String
  backend : AlgoBackendType
  device_id : Int
  config_json : Option String
deriving DecidableEq, Repr

end Abi

/-- Data members of class `YOLOv8Impl`.  The constructor initialises
`initialized_` (and `model_path_`, an empty string) only; a member it leaves
without a value holds `none` until it is assigned. -/
structure YOLOv8Impl where
  initialized_ : Bool
  model_path_ : String
  backend_ : Option Abi.AlgoBackendType
  device_id_ : Option Int
  conf_threshold_ : Option F32
  nms_threshold_ : Option F32
  input_width_ : Option Int
  input_height_ : Option Int
deriving DecidableEq, Repr

/-- What the code of `yolov8_plugin_c.cpp` acts on: the instances it created,
the objects its pointer arguments can point to, the arrays of boxes it
allocated, the next unused addresses, and the lines written to `std::cout`. -/
structure CProcess where
  impls : Nat → Option YOLOv8Impl
  nextImpl : Nat
  params : Nat → Option Abi.AlgoInitParam
  tensors : Nat → Option Abi.AlgoTensor
  results : Nat → Option Abi.AlgoDetResult
  boxArrays : Nat → Option (List Abi.AlgoDetBox)
  nextArray : Nat
  out : List String

/-- One line written to `std::cout`. -/
def CProcess.print (p : CProcess) (line : String) : CProcess :=
  { p with out := p.out ++ [line] }

namespace YOLOv8Impl

/-- Constructor `YOLOv8Impl()`. -/
def ctor : YOLOv8Impl :=
  { initialized_ := false, model_path_ := "", backend_ := none, device_id_ := none,
    conf_threshold_ := none, nms_threshold_ := none, input_width_ := none,
    input_height_ := none }

/-- Member `isInitialized()`. -/
def isInitialized (self : YOLOv8Impl) : Bool := self.initialized_

/-- The end of `init`, after the `switch` on the backend. -/
def initDone (showF32 : Option F32 → String) (self : YOLOv8Impl) (p : CProcess) :
    Abi.AlgoStatus × YOLOv8Impl × CProcess :=
  (Abi.ALGO_STATUS_SUCCESS, { self with initialized_ := true },
   (((((p.print "[YOLOv8] Initialized successfully").print
     ("[YOLOv8] Model: " ++ self.model_path_)).print
     ("[YOLOv8] Backend: " ++ (self.backend_.map (fun b => toString b.val)).getD "")).print
     ("[YOLOv8] Device: " ++ (self.device_id_.map (fun d => toString d)).getD "")).print
     ("[YOLOv8] Conf threshold: " ++ showF32 self.conf_threshold_)).print
     ("[YOLOv8] NMS threshold: " ++ showF32 self.nms_threshold_))

/-- Member `init(param)`; `none` when `param` is not null and points to no
object.  The text `std::cout` produces for a `float` member is given by
`showF32` (for a member without a value it is unspecified). -/
def init (showF32 : Option F32 → String) (param : Abi.CPtr) (self : YOLOv8Impl)
    (p : CProcess) : Option (Abi.AlgoStatus × YOLOv8Impl × CProcess) :=
  if self.initialized_ then some (Abi.ALGO_STATUS_ERROR_ALREADY_INITIALIZED, self, p)
  else
    match param with
    | none => some (Abi.ALGO_STATUS_ERROR_INVALID_PARAM, self, p)
    | some a =>
      match p.params a with
      | none => none
      | some prm =>
        match prm.model_path with
        | none => some (Abi.ALGO_STATUS_ERROR_INVALID_PARAM, self, p)
        | some path =>
          let s1 : YOLOv8Impl :=
            { self with model_path_ := path, backend_ := some prm.backend,
                        device_id_ := some prm.device_id }
          let s2 : YOLOv8Impl :=
            if prm.config_json.isSome then
              { s1 with conf_threshold_ := some (F32.round false 25 100)
                        nms_threshold_ := some (F32.round false 45 100)
                        input_width_ := some 640
                        input_height_ := some 640 }
            else s1
          if prm.backend = Abi.ALGO_BACKEND_TENSORRT then
            some (initDone showF32 s2 (p.print "[YOLOv8] Initializing TensorRT backend..."))
          else if prm.backend = Abi.ALGO_BACKEND_ONNXRUNTIME then
            some (initDone showF32 s2
              (p.print "[YOLOv8] Initializing ONNX Runtime backend..."))
          else
            some (Abi.ALGO_STATUS_ERROR_BACKEND_NOT_SUPPORTED, s2,
              p.print ("[YOLOv8] Backend not supported: " ++ toString prm.backend.val))

/-- The two boxes `infer` writes. -/
def simulatedBoxes : List Abi.AlgoDetBox :=
  [{ x1 := F32.round false 100 1, y1 := F32.round false 150 1, x2 := F32.round false 300 1,
     y2 := F32.round false 400 1, score := F32.round false 95 100, class_id := 0,
     class_name := "person" },
   { x1 := F32.round false 200 1, y1 := F32.round false 100 1, x2 := F32.round false 450 1,
     y2 := F32.round false 350 1, score := F32.round false 88 100, class_id := 2,
     class_name := "car" }]

/-- Member `infer(input, result)`; `none` when a pointer that is not null points
to no object, and when the loop over the shape reads past its 8 elements. -/
def infer (input result : Abi.CPtr) (self : YOLOv8Impl) (p : CProcess) :
    Option (Abi.AlgoStatus × YOLOv8Impl × CProcess) :=
  if !self.initialized_ then some (Abi.ALGO_STATUS_ERROR_NOT_INITIALIZED, self, p)
  else
    match input, result with
    | none, _ => some (Abi.ALGO_STATUS_ERROR_INVALID_PARAM, self, p)
    | some _, none => some (Abi.ALGO_STATUS_ERROR_INVALID_PARAM, self, p)
    | some i, some r =>
      match p.tensors i with
      | none => none
      | some t =>
        if 8 < t.ndim then none
        else
          match p.results r with
          | none => none
          | some res =>
            let p1 := (p.print "[YOLOv8] Running inference...").print
              ("[YOLOv8] Input shape: [" ++
                ", ".intercalate
                  (((List.finRange 8).filter (fun k => ((k : Nat) : Int) < t.ndim)).map
                    (fun k => toString (t.shape k))) ++ "]")
            let p2 : CProcess :=
              { p1 with
                boxArrays := Function.update p1.boxArrays p1.nextArray (some simulatedBoxes)
                nextArray := p1.nextArray + 1
                results := Function.update p1.results r
                  (some { res with num_boxes := 2, boxes := some p1.nextArray, timestamp := 0 }) }
            some (Abi.ALGO_STATUS_SUCCESS, self, p2.print "[YOLOv8] Detected 2 objects")

/-- Member `deinit()`. -/
def deinit (self : YOLOv8Impl) (p : CProcess) : Abi.AlgoStatus × YOLOv8Impl × CProcess :=
  if !self.initialized_ then (Abi.ALGO_STATUS_SUCCESS, self, p)
  else
    (Abi.ALGO_STATUS_SUCCESS, { self with initialized_ := false },
     p.print "[YOLOv8] Deinitialized")

end YOLOv8Impl

/-- Static variable `algo_info`. -/
def algo_info : Abi.AlgoInfo :=
  { name := "YOLOv8", version := "1.0.0", type := Abi.ALGO_TYPE_DETECTION,
    description := "YOLOv8 object detection with multi-backend support",
    author := "infer-frame",
    supported_backends := [Abi.ALGO_BACKEND_TENSORRT, Abi.ALGO_BACKEND_ONNXRUNTIME] }

/-- Function `AlgoGetInfo()`. -/
def AlgoGetInfo (p : CProcess) : Option Abi.AlgoInfo × CProcess := (some algo_info, p)

/-- Function `AlgoCreate()`: the instance is placed at a fresh address. -/
def AlgoCreate (p : CProcess) : Abi.AlgoHandle × CProcess :=
  let p1 := p.print "[YOLOv8] Creating instance..."
  (some p1.nextImpl,
   { p1 with impls := Function.update p1.impls p1.nextImpl (some YOLOv8Impl.ctor)
             nextImpl := p1.nextImpl + 1 })

/-- Function `AlgoInit(handle, param)`; `none` when a pointer that is not null
points to no object. -/
def AlgoInit (showF32 : Option F32 → String) (handle : Abi.AlgoHandle) (param : Abi.CPtr)
    (p : CProcess) : Option (Abi.AlgoStatus × CProcess) :=
  match handle with
  | none => some (Abi.ALGO_STATUS_ERROR_INVALID_PARAM, p)
  | some h =>
    match p.impls h with
    | none => none
    | some impl =>
      match impl.init showF32 param p with
      | none => none
      | some r => some (r.1, { r.2.2 with impls := Function.update r.2.2.impls h (some r.2.1) })

/-- Function `AlgoInferDetection(handle, input, result)`. -/
def AlgoInferDetection (handle : Abi.AlgoHandle) (input result : Abi.CPtr) (p : CProcess) :
    Option (Abi.AlgoStatus × CProcess) :=
  match handle with
  | none => some (Abi.ALGO_STATUS_ERROR_INVALID_PARAM, p)
  | some h =>
    match p.impls h with
    | none => none
    | some impl =>
      match impl.infer input result p with
      | none => none
      | some r => some (r.1, { r.2.2 with impls := Function.update r.2.2.impls h (some r.2.1) })

/-- Function `AlgoDeinit(handle)`. -/
def AlgoDeinit (handle : Abi.AlgoHandle) (p : CProcess) : Option (Abi.AlgoStatus × CProcess) :=
  match handle with
  | none => some (Abi.ALGO_STATUS_ERROR_INVALID_PARAM, p)
  | some h =>
    match p.impls h with
    | none => none
    | some impl =>
      let r := impl.deinit p
      some (r.1, { r.2.2 with impls := Function.update r.2.2.impls h (some r.2.1) })

/-- Function `AlgoDestroy(handle)`: the destructor `~YOLOv8Impl()` calls
`deinit()`, then the instance is freed. -/
def AlgoDestroy (handle : Abi.AlgoHandle) (p : CProcess) : Option CProcess :=
  match handle with
  | none => some p
  | some h =>
    let p1 := p.print "[YOLOv8] Destroying instance..."
    match p1.impls h with
    | none => none
    | some impl =>
      let r := impl.deinit p1
      some { r.2.2 with impls := Function.update r.2.2.impls h none }

/-- Function `AlgoFreeDetResult(result)`; `none` when `result` is not null and
points to no object, and when `result->boxes` is not null and is not an array
that `infer` allocated and that is still allocated. -/
def AlgoFreeDetResult (result : Abi.CPtr) (p : CProcess) : Option CProcess :=
  match result with
  | none => some p
  | some r =>
    match p.results r with
    | none => none
    | some res =>
      match res.boxes with
      | none => some p
      | some b =>
        match p.boxArrays b with
        | none => none
        | some _ =>
          some { p with
                 boxArrays := Function.update p.boxArrays b none
                 results := Function.update p.results r
                   (some { res with boxes := none, num_boxes := 0 }) }

/-! ## Sequences of unloading calls -/

/-- A call that unloads: `unloadPlugin(plugin_name)` or `unloadAll()`. -/
inductive UnloadCall where
  | unloadPlugin (plugin_name : String)
  | unloadAll
deriving DecidableEq, Repr

/-- Run a sequence of unloading calls on a `PluginLoader`, the first one first. -/
def PluginLoader.runUnloads : List UnloadCall → PluginLoader × Host → PluginLoader × Host
  | [], s => s
  | UnloadCall.unloadPlugin plugin_name :: rest, s =>
    PluginLoader.runUnloads rest
      ((PluginLoader.unloadPlugin plugin_name s.1 s.2).self,
       (PluginLoader.unloadPlugin plugin_name s.1 s.2).host)
  | UnloadCall.unloadAll :: rest, s =>
    PluginLoader.runUnloads rest (PluginLoader.unloadAll s.1 s.2)

/-- Run a sequence of unloading calls on a `PluginLoaderC`, the first one first. -/
def PluginLoaderC.runUnloads {σ : Type} :
    List UnloadCall → PluginLoaderC σ × CHost σ → PluginLoaderC σ × CHost σ
  | [], s => s
  | UnloadCall.unloadPlugin plugin_name :: rest, s =>
    PluginLoaderC.runUnloads rest
      ((PluginLoaderC.unloadPlugin plugin_name s.1 s.2).self,
       (PluginLoaderC.unloadPlugin plugin_name s.1 s.2).host)
  | UnloadCall.unloadAll :: rest, s =>
    PluginLoaderC.runUnloads rest
      ((PluginLoaderC.unloadAll s.1 s.2).self, (PluginLoaderC.unloadAll s.1 s.2).host)

/-! ## plugin_test.cc, plugin_test_c.cc : the environments of the test programs -/

/-- The path `plugin_test.cc` loads by default. -/
def plugin_path : String := "./libyolov8_plugin.so"

/-- An operating system in which `plugin_path` is the library `m` (with handle
1), nothing else can be opened and nothing is open yet. -/
def testOs (m : PluginModule) : Os PluginModule :=
  { fileExists := fun p => p = plugin_path
    library := fun p => if p = plugin_path then some (1, m) else none
    mapped := fun _ => none
    openCount := fun _ => 0
    error := none
    stickyError := false
    trace := [] }

/-- A library whose `createAlgoPlugin` throws an object of a type that is not
derived from `std::exception` (such as `throw 42;`). -/
def throwingModule : PluginModule :=
  { createAlgoPlugin := some (fun side => (Ret.threw Exception.non_std, side)) }

/-- A library that does not export `createAlgoPlugin`. -/
def emptyModule : PluginModule := { createAlgoPlugin := none }

/-- The process of `plugin_test.cc` after the static registrations, with no
plugin instance yet, where `plugin_path` is the library `m`. -/
def testHost (m : PluginModule) : Host :=
  { side := { env := { world := World.initial
                       factory := (staticRegistration BackendType.kUnknown World.initial).1 }
              plugins := fun _ => none
              pnext := 0 }
    os := testOs m }

/-- A library for the flat-table loader that exports the seven functions, as
stubs on a plugin state without content, and reports the name "YOLOv8". -/
def stubCModule : CModule Unit :=
  { AlgoGetInfo := some (fun s =>
      (some { name := "YOLOv8", version := "1.0.0", type := Abi.ALGO_TYPE_DETECTION,
              description := "", author := "",
              supported_backends := [Abi.ALGO_BACKEND_TENSORRT, Abi.ALGO_BACKEND_ONNXRUNTIME] },
       s))
    AlgoCreate := some (fun s => (some 1, s))
    AlgoInit := some (fun _ _ s => (Abi.ALGO_STATUS_SUCCESS, s))
    AlgoInferDetection := some (fun _ _ _ s => (Abi.ALGO_STATUS_SUCCESS, s))
    AlgoDeinit := some (fun _ s => (Abi.ALGO_STATUS_SUCCESS, s))
    AlgoDestroy := some (fun _ s => s)
    AlgoFreeDetResult := some (fun _ s => s) }

/-- A process for the flat-table loader in which the file `plugin_path` exists
and is the library `m` (with handle 1). -/
def testCHost (m : CModule Unit) : CHost Unit :=
  { plug := ()
    log := []
    os := { fileExists := fun p => p = plugin_path
            library := fun p => if p = plugin_path then some (1, m) else none
            mapped := fun _ => none
            openCount := fun _ => 0
            error := none
            stickyError := false
            trace := [] } }

/-- The path of a second library file, for the scenarios with two libraries. -/
def other_plugin_path : String := "./libyolov8_copy.so"

/-- The process of `testHost`, where `other_plugin_path` is a library too (with
handle 2 and the same contents `m`). -/
def twoLibraryHost (m : PluginModule) : Host :=
  { testHost m with
    os := { testOs m with
            fileExists := fun p => p = plugin_path || p = other_plugin_path
            library := fun p =>
              if p = plugin_path then some (1, m)
              else if p = other_plugin_path then some (2, m) else none } }

/-- The process of `testCHost`, where `other_plugin_path` is a library too (with
handle 2 and the same contents `m`). -/
def twoLibraryCHost (m : CModule Unit) : CHost Unit :=
  { testCHost m with
    os := { (testCHost m).os with
            fileExists := fun p => p = plugin_path || p = other_plugin_path
            library := fun p =>
              if p = plugin_path then some (1, m)
              else if p = other_plugin_path then some (2, m) else none } }

/-- Variable `init_param` of `plugin_test_c.cc`. -/
def init_param : Abi.AlgoInitParam :=
  { model_path := some "/path/to/yolov8.engine"
    backend := Abi.ALGO_BACKEND_TENSORRT
    device_id := 0
    config_json := some ("\x7b\n    \"conf_threshold\": 0.25,\n    \"nms_threshold\": 0.45,\n" ++
      "    \"input_width\": 640,\n    \"input_height\": 640\n  \x7d") }

/-- Variable `input` of `plugin_test_c.cc`; the elements of `shape` the program
does not assign are taken to be 0. -/
def test_input : Abi.AlgoTensor :=
  { name := "images"
    data_type := Abi.ALGO_DATA_TYPE_FLOAT32
    ndim := 4
    shape := fun k => [1, 3, 640, 640].getD k 0
    data := some 0
    size := 1 * 3 * 640 * 640 * 4 }

/-- The memory of the process of `plugin_test_c.cc` before it calls the plugin:
`init_param`, `input` and `result` are the objects at address 0 of their kinds
(`result` is not initialised by the program; its members are taken to be null
and 0), no instance and no array of boxes exists, and addresses are handed out
from 1 on. -/
def testCProcess : CProcess :=
  { impls := fun _ => none
    nextImpl := 1
    params := fun a => if a = 0 then some init_param else none
    tensors := fun a => if a = 0 then some test_input else none
    results := fun a => if a = 0 then some { boxes := none, num_boxes := 0, timestamp := 0 }
                        else none
    boxArrays := fun _ => none
    nextArray := 1
    out := [] }

/-! ## Decimal numerals and the parameters of Scenario D -/

/-- The decimal numeral with an optional minus sign and the digits `ds`, most
significant first. -/
def decimalString (negative : Bool) (ds : List Nat) : String :=
  String.mk ((if negative then ['-'] else []) ++ ds.map Nat.digitChar)

/-- The integer that the numeral with sign `negative` and digits `ds` denotes. -/
def decimalInt (negative : Bool) (ds : List Nat) : Int :=
  if negative then -((Nat.ofDigits 10 ds.reverse : Nat) : Int)
  else ((Nat.ofDigits 10 ds.reverse : Nat) : Int)

/-- The `algo_params` of Scenario D: a confidence threshold and an input width. -/
def scenarioD_params : StdMap String String :=
  ((StdMap.empty : StdMap String String).assign "conf_threshold" "0.5").assign
    "input_width" "320"

/-- Parameters of an `init` that fails after it has stored an NMS threshold and
an input height: no factory is registered for the backend type 42. -/
def failing_params : StdMap String String :=
  (((StdMap.empty : StdMap String String).assign "nms_threshold" "0.3").assign
    "input_height" "111").assign "backend_type" "42"

/-! # Theorems -/

/-! ## Lemmas on std::map -/

section StdMapLemmas

variable {K : Type} {V : Type u} [LinearOrder K]

theorem findList_assignList_self (k : K) (v : V) (l : List (K × V)) :
    findList k (assignList k v l) = some v := by
  induction l with
  | nil => simp [assignList, findList]
  | cons e rest ih =>
    simp only [assignList]
    split_ifs with h1 h2
    · simp [findList]
    · simp [findList]
    · simp [findList, h2, ih]

theorem findList_assignList_of_ne {k k2 : K} (h : k2 ≠ k) (v : V) (l : List (K × V)) :
    findList k2 (assignList k v l) = findList k2 l := by
  induction l with
  | nil => simp [assignList, findList, h]
  | cons e rest ih =>
    simp only [assignList]
    split_ifs with h1 h2
    · simp [findList, h]
    · have h3 : k2 ≠ e.1 := h2 ▸ h
      simp [findList, h, h3]
    · simp only [findList, ih]

theorem findList_ne_none_iff (k : K) (l : List (K × V)) :
    findList k l ≠ none ↔ k ∈ l.map Prod.fst := by
  induction l with
  | nil => simp [findList]
  | cons e rest ih =>
    simp only [findList, List.map_cons, List.mem_cons]
    split_ifs with h
    · simp [h]
    · simp [h, ih]

theorem map_fst_assignList_of_mem {k : K} (v : V) {l : List (K × V)}
    (h : k ∈ l.map Prod.fst) (hs : (l.map Prod.fst).Pairwise (fun a b => a < b)) :
    (assignList k v l).map Prod.fst = l.map Prod.fst := by
  induction l with
  | nil => simp at h
  | cons e rest ih =>
    simp only [List.map_cons, List.pairwise_cons] at hs
    simp only [List.map_cons, List.mem_cons] at h
    simp only [assignList]
    split_ifs with h1 h2
    · rcases h with h | h
      · exact absurd h1 (by rw [h]; exact lt_irrefl _)
      · exact absurd (lt_trans h1 (hs.1 k h)) (lt_irrefl _)
    · simp [h2]
    · rcases h with h | h
      · exact absurd h h2
      · simp [ih h hs.2]

namespace StdMap

theorem find_empty (k : K) : (StdMap.empty : StdMap K V).find k = none := rfl

theorem find_assign_self (m : StdMap K V) (k : K) (v : V) : (m.assign k v).find k = some v :=
  findList_assignList_self k v m.entries

theorem find_assign_of_ne (m : StdMap K V) {k k2 : K} (h : k2 ≠ k) (v : V) :
    (m.assign k v).find k2 = m.find k2 :=
  findList_assignList_of_ne h v m.entries

theorem contains_assign_self (m : StdMap K V) (k : K) (v : V) :
    (m.assign k v).contains k = true := by
  simp [contains, find_assign_self]

theorem mem_keys_iff (m : StdMap K V) (k : K) : k ∈ m.keys ↔ m.find k ≠ none :=
  (findList_ne_none_iff k m.entries).symm

theorem nodup_keys (m : StdMap K V) : m.keys.Nodup :=
  List.Pairwise.imp (fun h => ne_of_lt h) m.sorted

theorem count_keys_of_find (m : StdMap K V) (k : K) (h : m.find k ≠ none) :
    m.keys.count k = 1 :=
  List.count_eq_one_of_mem m.nodup_keys ((m.mem_keys_iff k).2 h)

theorem count_keys_assign (m : StdMap K V) (k : K) (v : V) : (m.assign k v).keys.count k = 1 :=
  count_keys_of_find _ k (by simp [find_assign_self])

theorem keys_assign_of_find (m : StdMap K V) (k : K) (v : V) (h : m.find k ≠ none) :
    (m.assign k v).keys = m.keys :=
  map_fst_assignList_of_mem v ((m.mem_keys_iff k).2 h) m.sorted

end StdMap

end StdMapLemmas

/-! ## Names of backend types -/

/-- On the seven enumerators that `backendTypeToString` names, converting to the
name and back is the identity. -/
theorem stringToBackendType_backendTypeToString_of_named (t : BackendType)
    (h : t ∈ BackendType.namedVariants) :
    stringToBackendType (backendTypeToString t) = t := by
  simp only [BackendType.namedVariants, List.mem_cons, List.mem_singleton, List.not_mem_nil,
    or_false] at h
  rcases h with h | h | h | h | h | h | h <;> subst h <;> decide

/-- C1 (evaluation at the failing input): `kTNN` is a defined enumerator for
which `backendTypeToString` has no case, so it is named "Unknown", and
`stringToBackendType` maps that name to `kUnknown`: the round trip does not
return `kTNN`.  The same happens at `kNCNN`, `kCoreML` and `kAscendCL`. -/
theorem C1_roundtrip_breaks_on_unnamed_variants :
    BackendType.kTNN ∈ BackendType.knownVariants ∧
    backendTypeToString BackendType.kTNN = "Unknown" ∧
    stringToBackendType (backendTypeToString BackendType.kTNN) = BackendType.kUnknown ∧
    stringToBackendType (backendTypeToString BackendType.kTNN) ≠ BackendType.kTNN ∧
    stringToBackendType (backendTypeToString BackendType.kNCNN) ≠ BackendType.kNCNN ∧
    stringToBackendType (backendTypeToString BackendType.kCoreML) ≠ BackendType.kCoreML ∧
    stringToBackendType (backendTypeToString BackendType.kAscendCL) ≠ BackendType.kAscendCL := by
  decide

/-- C2: a string that is not the name `backendTypeToString` gives to an
enumerator other than `kUnknown` is mapped to `kUnknown`; and whenever
`stringToBackendType s` is not `kUnknown` it is one of the defined enumerators
and its name is exactly `s` (the match is exact and case-sensitive). -/
theorem C2_unrecognized_string_is_unknown (s : String) :
    ((∀ t ∈ BackendType.knownVariants, backendTypeToString t ≠ s) →
        stringToBackendType s = BackendType.kUnknown) ∧
    (stringToBackendType s ≠ BackendType.kUnknown →
        stringToBackendType s ∈ BackendType.knownVariants ∧
        backendTypeToString (stringToBackendType s) = s) := by
  constructor
  · intro h
    unfold stringToBackendType
    split_ifs with h1 h2 h3 h4 h5 h6 h7
    · exact absurd (by rw [h1]; decide) (h BackendType.kTensorRT (by decide))
    · exact absurd (by rw [h2]; decide) (h BackendType.kONNXRuntime (by decide))
    · exact absurd (by rw [h3]; decide) (h BackendType.kRKNN (by decide))
    · exact absurd (by rw [h4]; decide) (h BackendType.kSophon (by decide))
    · exact absurd (by rw [h5]; decide) (h BackendType.kOpenVINO (by decide))
    · exact absurd (by rw [h6]; decide) (h BackendType.kPaddleInference (by decide))
    · exact absurd (by rw [h7]; decide) (h BackendType.kMNN (by decide))
    · rfl
  · unfold stringToBackendType
    split_ifs with h1 h2 h3 h4 h5 h6 h7
    · intro _; subst h1; decide
    · intro _; subst h2; decide
    · intro _; subst h3; decide
    · intro _; subst h4; decide
    · intro _; subst h5; decide
    · intro _; subst h6; decide
    · intro _; subst h7; decide
    · intro h; exact absurd rfl h

/-- C2 at concrete strings: the lower-case spelling "tensorrt" is no
enumerator name and maps to `kUnknown`, while "MNN" maps to `kMNN`, whose name
it is. -/
theorem C2_unrecognized_string_is_unknown_witness :
    stringToBackendType "tensorrt" = BackendType.kUnknown ∧
    (stringToBackendType "MNN" ∈ BackendType.knownVariants ∧
      backendTypeToString (stringToBackendType "MNN") = "MNN") :=
  ⟨(C2_unrecognized_string_is_unknown "tensorrt").1 (by decide),
   (C2_unrecognized_string_is_unknown "MNN").2 (by decide)⟩

/-! ## Backend registry -/

theorem createBackend_of_find {reg : BackendFactory} {T : BackendType} {f : BackendCreator}
    (h : reg.creators_.find T = some f) (w : World) :
    reg.createBackend T w =
      { backend := (f (w.logMsg LogLevel.info ("Creating backend: " ++ backendTypeToString T))).1
        self := reg
        world := (f (w.logMsg LogLevel.info ("Creating backend: " ++ backendTypeToString T))).2 } := by
  simp [BackendFactory.createBackend, h]

theorem createBackend_of_find_none {reg : BackendFactory} {T : BackendType}
    (h : reg.creators_.find T = none) (w : World) :
    reg.createBackend T w =
      { backend := none
        self := reg
        world := w.logMsg LogLevel.err
          ("Backend type not supported: " ++ backendTypeToString T) } := by
  simp [BackendFactory.createBackend, h]

/-- C3: after `registerBackend(T, f)` the type `T` is supported, and a call
`createBackend(T)` in any process state is exactly one run of `f` (after the
"Creating backend" log call): it returns the pointer `f` returned, the process
state is the one `f` left (so no `init` ran on the instance), and the table is
unchanged, so the same holds at each later call.  With a factory
`make_shared<C>()`, two successive calls return two different addresses, and
both hold an instance still in the state its constructor produced. -/
theorem C3_create_runs_registered_factory (reg : BackendFactory) (T : BackendType)
    (f : BackendCreator) (w0 w : World) :
    (reg.registerBackend T f w0).1.isBackendSupported T = true ∧
    ((reg.registerBackend T f w0).1.createBackend T w).backend =
      (f (w.logMsg LogLevel.info ("Creating backend: " ++ backendTypeToString T))).1 ∧
    ((reg.registerBackend T f w0).1.createBackend T w).world =
      (f (w.logMsg LogLevel.info ("Creating backend: " ++ backendTypeToString T))).2 ∧
    ((reg.registerBackend T f w0).1.createBackend T w).self = (reg.registerBackend T f w0).1 ∧
    (∀ (cls : BackendClass) (k : cls.State × List LogEntry),
      ∃ a1 a2 : Addr,
        ((reg.registerBackend T (makeShared cls k) w0).1.createBackend T w).backend = some a1 ∧
        (((reg.registerBackend T (makeShared cls k) w0).1.createBackend T w).self.createBackend T
          ((reg.registerBackend T (makeShared cls k) w0).1.createBackend T w).world).backend
            = some a2 ∧
        a1 ≠ a2 ∧
        (((reg.registerBackend T (makeShared cls k) w0).1.createBackend T w).self.createBackend T
          ((reg.registerBackend T (makeShared cls k) w0).1.createBackend T w).world).world.heap a1
            = some { cls := cls, st := k.1, refs := 1 } ∧
        (((reg.registerBackend T (makeShared cls k) w0).1.createBackend T w).self.createBackend T
          ((reg.registerBackend T (makeShared cls k) w0).1.createBackend T w).world).world.heap a2
            = some { cls := cls, st := k.1, refs := 1 }) := by
  have hfind : ∀ g : BackendCreator, (reg.registerBackend T g w0).1.creators_.find T = some g :=
    fun g => StdMap.find_assign_self _ _ _
  refine ⟨?_, ?_, ?_, ?_, ?_⟩
  · simp [BackendFactory.isBackendSupported, BackendFactory.registerBackend,
      StdMap.contains_assign_self]
  · rw [createBackend_of_find (hfind f)]
  · rw [createBackend_of_find (hfind f)]
  · rw [createBackend_of_find (hfind f)]
  · intro cls k
    refine ⟨w.next, w.next + 1, ?_, ?_, ?_, ?_, ?_⟩
    · rw [createBackend_of_find (hfind _)]
      rfl
    · rw [createBackend_of_find (hfind _)]
      simp only []
      rw [createBackend_of_find (hfind _)]
      rfl
    · exact Nat.ne_of_lt (Nat.lt_succ_self _)
    · rw [createBackend_of_find (hfind _)]
      simp only []
      rw [createBackend_of_find (hfind _)]
      simp [makeShared, World.logMsg, Function.update]
    · rw [createBackend_of_find (hfind _)]
      simp only []
      rw [createBackend_of_find (hfind _)]
      simp [makeShared, World.logMsg, Function.update]

/-- C4: when no factory is registered for `T`, both `createBackend(T)` and
`createBackend(config)` with `config.backend_type = T` return a null pointer as
an ordinary result; the table is returned unchanged, and the process state
afterwards is the one before plus a single error log call, so no factory ran
and no instance was created or touched. -/
theorem C4_create_unregistered_is_absent (reg : BackendFactory) (T : BackendType)
    (c : BackendConfig) (w : World)
    (hT : reg.isBackendSupported T = false) (hc : c.backend_type = T) :
    reg.createBackend T w =
      { backend := none
        self := reg
        world := { heap := w.heap
                   next := w.next
                   log := w.log ++ [⟨LogLevel.err,
                     "Backend type not supported: " ++ backendTypeToString T⟩] } } ∧
    reg.createBackendFromConfig c w =
      some { backend := none
             self := reg
             world := { heap := w.heap
                        next := w.next
                        log := w.log ++ [⟨LogLevel.err,
                          "Backend type not supported: " ++ backendTypeToString T⟩] } } := by
  have hfind : reg.creators_.find T = none := by
    simpa [BackendFactory.isBackendSupported, StdMap.contains] using hT
  constructor
  · rw [createBackend_of_find_none hfind]
    rfl
  · simp only [BackendFactory.createBackendFromConfig, hc]
    rw [createBackend_of_find_none hfind]
    rfl

/-- C4 at a concrete input: the table built by the static registrations has no
entry for `kUnknown`, so creating a `kUnknown` backend (the last scenario of
`backend_test.cc`) yields a null pointer and one error log call. -/
theorem C4_create_unregistered_is_absent_witness :
    (staticRegistration BackendType.kUnknown World.initial).1.isBackendSupported
        BackendType.kUnknown = false ∧
    (staticRegistration BackendType.kUnknown World.initial).1.createBackendFromConfig
        { model_path := "", backend_type := BackendType.kUnknown, device_id := 0,
          options := StdMap.empty } World.initial =
      some { backend := none
             self := (staticRegistration BackendType.kUnknown World.initial).1
             world := { heap := World.initial.heap
                        next := World.initial.next
                        log := World.initial.log ++ [⟨LogLevel.err,
                          "Backend type not supported: " ++
                            backendTypeToString BackendType.kUnknown⟩] } } :=
  ⟨by rfl,
   (C4_create_unregistered_is_absent (staticRegistration BackendType.kUnknown World.initial).1
      BackendType.kUnknown
      { model_path := "", backend_type := BackendType.kUnknown, device_id := 0,
        options := StdMap.empty } World.initial (by rfl) rfl).2⟩

/-- C5: after `registerBackend(T, f1)` and then `registerBackend(T, f2)`, the
entry of `T` is `f2`, a call `createBackend(T)` is exactly one run of `f2`, the
key list contains `T` once and is the key list from before the second
registration, and the entry of every other type is the one of the original
table. -/
theorem C5_second_registration_wins (reg : BackendFactory) (T : BackendType)
    (f1 f2 : BackendCreator) (w0 w1 w : World) :
    ((reg.registerBackend T f1 w0).1.registerBackend T f2 w1).1.creators_.find T = some f2 ∧
    (((reg.registerBackend T f1 w0).1.registerBackend T f2 w1).1.createBackend T w).backend =
      (f2 (w.logMsg LogLevel.info ("Creating backend: " ++ backendTypeToString T))).1 ∧
    (((reg.registerBackend T f1 w0).1.registerBackend T f2 w1).1.createBackend T w).world =
      (f2 (w.logMsg LogLevel.info ("Creating backend: " ++ backendTypeToString T))).2 ∧
    (((reg.registerBackend T f1 w0).1.registerBackend T f2 w1).1.createBackend T w).self =
      ((reg.registerBackend T f1 w0).1.registerBackend T f2 w1).1 ∧
    ((reg.registerBackend T f1 w0).1.registerBackend T f2 w1).1.getSupportedBackends.count T
      = 1 ∧
    ((reg.registerBackend T f1 w0).1.registerBackend T f2 w1).1.getSupportedBackends =
      (reg.registerBackend T f1 w0).1.getSupportedBackends ∧
    (∀ T2 : BackendType, T2 ≠ T →
      ((reg.registerBackend T f1 w0).1.registerBackend T f2 w1).1.creators_.find T2 =
        reg.creators_.find T2) := by
  have hfind : ((reg.registerBackend T f1 w0).1.registerBackend T f2 w1).1.creators_.find T
      = some f2 := StdMap.find_assign_self _ _ _
  refine ⟨hfind, ?_, ?_, ?_, ?_, ?_, ?_⟩
  · rw [createBackend_of_find hfind]
  · rw [createBackend_of_find hfind]
  · rw [createBackend_of_find hfind]
  · simp only [BackendFactory.getSupportedBackends, BackendFactory.registerBackend]
    exact StdMap.count_keys_assign _ _ _
  · simp only [BackendFactory.getSupportedBackends, BackendFactory.registerBackend]
    exact StdMap.keys_assign_of_find _ _ _ (by simp [StdMap.find_assign_self])
  · intro T2 h
    simp only [BackendFactory.registerBackend]
    rw [StdMap.find_assign_of_ne _ h, StdMap.find_assign_of_ne _ h]

/-- C5 at a concrete input: registering `kTensorRT` twice on the table of the
static registrations leaves one `kTensorRT` key and the `kONNXRuntime` entry as
it was. -/
theorem C5_second_registration_wins_witness :
    (((staticRegistration BackendType.kUnknown World.initial).1.registerBackend
        BackendType.kTensorRT tensorRTCreator World.initial).1.registerBackend
        BackendType.kTensorRT (onnxRuntimeCreator BackendType.kUnknown)
        World.initial).1.getSupportedBackends.count BackendType.kTensorRT = 1 ∧
    (((staticRegistration BackendType.kUnknown World.initial).1.registerBackend
        BackendType.kTensorRT tensorRTCreator World.initial).1.registerBackend
        BackendType.kTensorRT (onnxRuntimeCreator BackendType.kUnknown)
        World.initial).1.creators_.find BackendType.kONNXRuntime =
      (staticRegistration BackendType.kUnknown World.initial).1.creators_.find
        BackendType.kONNXRuntime :=
  ⟨(C5_second_registration_wins (staticRegistration BackendType.kUnknown World.initial).1
      BackendType.kTensorRT tensorRTCreator (onnxRuntimeCreator BackendType.kUnknown)
      World.initial World.initial World.initial).2.2.2.2.1,
   (C5_second_registration_wins (staticRegistration BackendType.kUnknown World.initial).1
      BackendType.kTensorRT tensorRTCreator (onnxRuntimeCreator BackendType.kUnknown)
      World.initial World.initial World.initial).2.2.2.2.2.2
      BackendType.kONNXRuntime (by decide)⟩

theorem callInit_ne_none {a : Addr} {w : World} (c : BackendConfig) (h : w.heap a ≠ none) :
    callInit a c w ≠ none := by
  unfold callInit callMember
  cases ho : w.heap a with
  | none => exact absurd ho h
  | some o => simp

theorem find_staticRegistration_kTensorRT (indet : BackendType) (w0 : World) :
    (staticRegistration indet w0).1.creators_.find BackendType.kTensorRT
      = some tensorRTCreator := rfl

theorem find_staticRegistration_kONNXRuntime (indet : BackendType) (w0 : World) :
    (staticRegistration indet w0).1.creators_.find BackendType.kONNXRuntime
      = some (onnxRuntimeCreator indet) := rfl

theorem createBackendFromConfig_makeShared {reg : BackendFactory} {c : BackendConfig}
    {cls : BackendClass} {k : cls.State × List LogEntry}
    (hreg : reg.creators_.find c.backend_type = some (makeShared cls k))
    (hok : (cls.init c k.1).ret.ok = true) (w : World) :
    reg.createBackendFromConfig c w = some
      { backend := some w.next
        self := reg
        world :=
          { heap := Function.update w.heap w.next
              (some { cls := cls, st := (cls.init c k.1).self, refs := 1 })
            next := w.next + 1
            log := w.log ++ [⟨LogLevel.info,
              "Creating backend: " ++ backendTypeToString c.backend_type⟩] ++ k.2 ++
              (cls.init c k.1).logs } } := by
  simp only [BackendFactory.createBackendFromConfig]
  rw [createBackend_of_find hreg]
  simp [makeShared, callInit, callMember, World.logMsg, World.logAll, World.store, hok]

/-- C6: let the type of configuration `c` be registered with factory `f`, and
let `f` return pointer `r` and process state `w1` (with `r`, if not null,
pointing to a live instance).  Then `createBackend(c)` returns, leaves the table
unchanged, and its result is null exactly when `r` is null or `init(c)` on
the instance returned a status that is not OK; when the result is not null it
is `r`, and the process state is the one after a single `init(c)` on that
same instance in `w1`.  With the table of the static registrations and a
configuration of type `kTensorRT` or `kONNXRuntime`, the result is not null,
`isInitialized()` is true and `getType()` is the configured type. -/
theorem C6_create_from_config_inits_once :
    (∀ (reg : BackendFactory) (c : BackendConfig) (f : BackendCreator) (w : World)
        (r : Option Addr) (w1 : World),
      reg.creators_.find c.backend_type = some f →
      f (w.logMsg LogLevel.info ("Creating backend: " ++ backendTypeToString c.backend_type))
        = (r, w1) →
      (∀ a, r = some a → w1.heap a ≠ none) →
      ∃ res : Created,
        reg.createBackendFromConfig c w = some res ∧
        res.self = reg ∧
        (res.backend = none ↔
          (r = none ∨ ∃ a st w2, r = some a ∧ callInit a c w1 = some (st, w2) ∧ st.ok = false)) ∧
        (res.backend ≠ none →
          ∃ a st, r = some a ∧ res.backend = some a ∧
            callInit a c w1 = some (st, res.world) ∧ st.ok = true)) ∧
    (∀ (indet : BackendType) (w0 : World) (c : BackendConfig) (w : World),
      (c.backend_type = BackendType.kTensorRT ∨ c.backend_type = BackendType.kONNXRuntime) →
      ∃ (res : Created) (a : Addr),
        (staticRegistration indet w0).1.createBackendFromConfig c w = some res ∧
        res.backend = some a ∧
        callIsInitialized a res.world = some true ∧
        callGetType a res.world = some c.backend_type) := by
  constructor
  · intro reg c f w r w1 hreg hf hlive
    simp only [BackendFactory.createBackendFromConfig]
    rw [createBackend_of_find hreg]
    simp only [hf]
    cases r with
    | none => exact ⟨_, rfl, rfl, by simp, by simp⟩
    | some a =>
      cases hci : callInit a c w1 with
      | none => exact absurd hci (callInit_ne_none c (hlive a rfl))
      | some p =>
        obtain ⟨st, w2⟩ := p
        cases hok : st.ok with
        | false =>
          simp only [hci, hok, Bool.not_false, if_true]
          refine ⟨_, rfl, rfl, ?_, ?_⟩
          · simp [hci, hok]
          · simp
        | true =>
          simp only [hci, hok, Bool.not_true, Bool.false_eq_true, if_false]
          refine ⟨_, rfl, rfl, ?_, ?_⟩
          · simp [hci, hok]
          · intro _
            exact ⟨a, st, rfl, rfl, hci, hok⟩
  · intro indet w0 c w hc
    rcases hc with hc | hc
    · have hreg : (staticRegistration indet w0).1.creators_.find c.backend_type
          = some (makeShared TensorRTBackend.cls TensorRTBackend.ctor) := by
        rw [hc]; rfl
      refine ⟨_, w.next, createBackendFromConfig_makeShared hreg rfl w, rfl, ?_, ?_⟩
      · simp [callIsInitialized, callConst, TensorRTBackend.cls, TensorRTBackend.isInitialized]
      · simp [callGetType, callConst, TensorRTBackend.cls, TensorRTBackend.getType, hc]
    · have hreg : (staticRegistration indet w0).1.creators_.find c.backend_type
          = some (makeShared ONNXRuntimeBackend.cls (ONNXRuntimeBackend.ctor indet)) := by
        rw [hc]; rfl
      refine ⟨_, w.next, createBackendFromConfig_makeShared hreg rfl w, rfl, ?_, ?_⟩
      · simp [callIsInitialized, callConst, ONNXRuntimeBackend.cls,
          ONNXRuntimeBackend.isInitialized, ONNXRuntimeBackend.init, ONNXRuntimeBackend.ctor]
      · simp [callGetType, callConst, ONNXRuntimeBackend.cls, ONNXRuntimeBackend.getType, hc]

/-- C6 at a concrete input: with the table of the static registrations and
`onnx_config` of the test program, the factory returns a live instance at
address 0, and `createBackend(onnx_config)` returns it initialised. -/
theorem C6_create_from_config_inits_once_witness :
    (staticRegistration BackendType.kUnknown World.initial).1.creators_.find
        onnx_config.backend_type = some (onnxRuntimeCreator BackendType.kUnknown) ∧
    (∃ res : Created,
      (staticRegistration BackendType.kUnknown World.initial).1.createBackendFromConfig
        onnx_config World.initial = some res ∧
      res.self = (staticRegistration BackendType.kUnknown World.initial).1) ∧
    (∃ (res : Created) (a : Addr),
      (staticRegistration BackendType.kUnknown World.initial).1.createBackendFromConfig
        onnx_config World.initial = some res ∧
      res.backend = some a ∧
      callIsInitialized a res.world = some true ∧
      callGetType a res.world = some onnx_config.backend_type) :=
  ⟨rfl,
   (C6_create_from_config_inits_once.1
      (staticRegistration BackendType.kUnknown World.initial).1 onnx_config
      (onnxRuntimeCreator BackendType.kUnknown) World.initial (some 0)
      (onnxRuntimeCreator BackendType.kUnknown
        (World.initial.logMsg LogLevel.info
          ("Creating backend: " ++ backendTypeToString onnx_config.backend_type))).2
      rfl rfl
      (fun a h => by
        cases h
        simp [onnxRuntimeCreator, makeShared, World.logMsg, World.initial])).elim
     (fun res h => ⟨res, h.1, h.2.1⟩),
   C6_create_from_config_inits_once.2 BackendType.kUnknown World.initial onnx_config
     World.initial (Or.inr rfl)⟩

theorem createBackendFromConfig_fresh {reg : BackendFactory} {c : BackendConfig}
    {cls : BackendClass} {k : cls.State × List LogEntry}
    (hreg : reg.creators_.find c.backend_type = some (makeShared cls k))
    (hok : (cls.init c k.1).ret.ok = true) (w : World) :
    ∃ res : Created,
      reg.createBackendFromConfig c w = some res ∧
      res.backend = some w.next ∧ res.self = reg ∧ res.world.next = w.next + 1 ∧
      res.world.heap w.next = some { cls := cls, st := (cls.init c k.1).self, refs := 1 } ∧
      ∀ a, a ≠ w.next → res.world.heap a = w.heap a :=
  ⟨_, createBackendFromConfig_makeShared hreg hok w, rfl, rfl, rfl, by simp,
    fun a h => by simp [Function.update, h]⟩

theorem callIsInitialized_of_heap {a : Addr} {w : World} {o : BackendObject}
    (h : w.heap a = some o) : callIsInitialized a w = some (o.cls.isInitialized o.st) := by
  simp [callIsInitialized, callConst, h]

theorem callDeinit_of_heap {a : Addr} {w : World} {o : BackendObject} (h : w.heap a = some o) :
    callDeinit a w = some ((o.cls.deinit o.st).ret,
      (w.logAll (o.cls.deinit o.st).logs).store a (some { o with st := (o.cls.deinit o.st).self })) := by
  simp [callDeinit, callMember, h]

theorem heap_store_logAll_self (w : World) (l : List LogEntry) (a : Addr)
    (o : Option BackendObject) : ((w.logAll l).store a o).heap a = o := by
  simp [World.store, World.logAll]

theorem heap_store_logAll_of_ne (w : World) (l : List LogEntry) {a b : Addr}
    (o : Option BackendObject) (h : b ≠ a) : ((w.logAll l).store a o).heap b = w.heap b := by
  simp [World.store, World.logAll, Function.update, h]

/-- C7: register, under the type of configuration `c`, a factory
`make_shared<C>()` of a class whose `init(c)` succeeds on a freshly
constructed instance and makes `isInitialized()` true.  Then two calls `createBackend(c)`
both return an instance, at two different addresses, both initialised; and
`deinit()` on the first returns, leaves the second instance exactly as it was
and still initialised.  For `ONNXRuntimeBackend` (registered under any type)
this holds for every configuration, and after `deinit()` the first instance
reports `isInitialized() == false` while the second still reports true. -/
theorem C7_created_instances_are_independent :
    (∀ (reg : BackendFactory) (cls : BackendClass) (k : cls.State × List LogEntry)
        (c : BackendConfig) (w0 w : World),
      (cls.init c k.1).ret.ok = true →
      cls.isInitialized (cls.init c k.1).self = true →
      ∃ (r1 r2 : Created) (a1 a2 : Addr) (st : Status) (w3 : World),
        (reg.registerBackend c.backend_type (makeShared cls k) w0).1.createBackendFromConfig c w
          = some r1 ∧
        r1.self.createBackendFromConfig c r1.world = some r2 ∧
        r1.backend = some a1 ∧ r2.backend = some a2 ∧ a1 ≠ a2 ∧
        callIsInitialized a1 r2.world = some true ∧
        callIsInitialized a2 r2.world = some true ∧
        callDeinit a1 r2.world = some (st, w3) ∧
        w3.heap a2 = r2.world.heap a2 ∧
        callIsInitialized a2 w3 = some true) ∧
    (∀ (reg : BackendFactory) (indet : BackendType) (c : BackendConfig) (w0 w : World),
      ∃ (r1 r2 : Created) (a1 a2 : Addr) (st : Status) (w3 : World),
        (reg.registerBackend c.backend_type (onnxRuntimeCreator indet) w0).1.createBackendFromConfig
          c w = some r1 ∧
        r1.self.createBackendFromConfig c r1.world = some r2 ∧
        r1.backend = some a1 ∧ r2.backend = some a2 ∧ a1 ≠ a2 ∧
        callIsInitialized a1 r2.world = some true ∧
        callIsInitialized a2 r2.world = some true ∧
        callDeinit a1 r2.world = some (st, w3) ∧
        st.ok = true ∧
        w3.heap a2 = r2.world.heap a2 ∧
        callIsInitialized a1 w3 = some false ∧
        callIsInitialized a2 w3 = some true) := by
  have general : ∀ (reg : BackendFactory) (cls : BackendClass) (k : cls.State × List LogEntry)
      (c : BackendConfig) (w0 w : World),
      (cls.init c k.1).ret.ok = true →
      ∃ (r1 r2 : Created) (a1 a2 : Addr),
        (reg.registerBackend c.backend_type (makeShared cls k) w0).1.createBackendFromConfig c w
          = some r1 ∧
        r1.self.createBackendFromConfig c r1.world = some r2 ∧
        r1.backend = some a1 ∧ r2.backend = some a2 ∧ a1 ≠ a2 ∧
        r2.world.heap a1 = some { cls := cls, st := (cls.init c k.1).self, refs := 1 } ∧
        r2.world.heap a2 = some { cls := cls, st := (cls.init c k.1).self, refs := 1 } := by
    intro reg cls k c w0 w hok
    have hreg : (reg.registerBackend c.backend_type (makeShared cls k) w0).1.creators_.find
        c.backend_type = some (makeShared cls k) := StdMap.find_assign_self _ _ _
    obtain ⟨r1, h1, hb1, hs1, hn1, hh1, _⟩ := createBackendFromConfig_fresh hreg hok w
    obtain ⟨r2, h2, hb2, _, _, hh2, hf2⟩ :=
      createBackendFromConfig_fresh (hs1 ▸ hreg) hok r1.world
    have hne : w.next ≠ r1.world.next := by rw [hn1]; exact Nat.ne_of_lt (Nat.lt_succ_self _)
    exact ⟨r1, r2, w.next, r1.world.next, hs1 ▸ h1, h2, hb1, hb2, hne,
      by rw [hf2 _ hne]; exact hh1, hh2⟩
  constructor
  · intro reg cls k c w0 w hok hinit
    obtain ⟨r1, r2, a1, a2, h1, h2, hb1, hb2, hne, hh1, hh2⟩ := general reg cls k c w0 w hok
    refine ⟨r1, r2, a1, a2, _, _, h1, h2, hb1, hb2, hne, ?_, ?_, callDeinit_of_heap hh1, ?_, ?_⟩
    · rw [callIsInitialized_of_heap hh1]; exact congrArg some hinit
    · rw [callIsInitialized_of_heap hh2]; exact congrArg some hinit
    · exact heap_store_logAll_of_ne _ _ _ (Ne.symm hne)
    · have h3 := heap_store_logAll_of_ne r2.world
        (cls.deinit (cls.init c k.1).self).logs
        (some { cls := cls, st := (cls.deinit (cls.init c k.1).self).self, refs := 1 })
        (Ne.symm hne)
      rw [callIsInitialized_of_heap (h3.trans hh2)]
      exact congrArg some hinit
  · intro reg indet c w0 w
    obtain ⟨r1, r2, a1, a2, h1, h2, hb1, hb2, hne, hh1, hh2⟩ :=
      general reg ONNXRuntimeBackend.cls (ONNXRuntimeBackend.ctor indet) c w0 w rfl
    refine ⟨r1, r2, a1, a2, _, _, h1, h2, hb1, hb2, hne, ?_, ?_, callDeinit_of_heap hh1,
      rfl, ?_, ?_, ?_⟩
    · rw [callIsInitialized_of_heap hh1]; rfl
    · rw [callIsInitialized_of_heap hh2]; rfl
    · exact heap_store_logAll_of_ne _ _ _ (Ne.symm hne)
    · rw [callIsInitialized_of_heap (heap_store_logAll_self _ _ _ _)]; rfl
    · have h3 := heap_store_logAll_of_ne r2.world
        (ONNXRuntimeBackend.cls.deinit
          (ONNXRuntimeBackend.cls.init c (ONNXRuntimeBackend.ctor indet).1).self).logs
        (some { cls := ONNXRuntimeBackend.cls
                st := (ONNXRuntimeBackend.cls.deinit
                  (ONNXRuntimeBackend.cls.init c (ONNXRuntimeBackend.ctor indet).1).self).self
                refs := 1 })
        (Ne.symm hne)
      rw [callIsInitialized_of_heap (h3.trans hh2)]
      rfl

/-- C7 at a concrete input: `ONNXRuntimeBackend` registered under
`kONNXRuntime` on top of the static registrations, with `onnx_config` of the
test program. -/
theorem C7_created_instances_are_independent_witness :
    (ONNXRuntimeBackend.cls.init onnx_config
      (ONNXRuntimeBackend.ctor BackendType.kUnknown).1).ret.ok = true ∧
    ONNXRuntimeBackend.cls.isInitialized (ONNXRuntimeBackend.cls.init onnx_config
      (ONNXRuntimeBackend.ctor BackendType.kUnknown).1).self = true ∧
    (∃ (r1 r2 : Created) (a1 a2 : Addr),
      ((staticRegistration BackendType.kUnknown World.initial).1.registerBackend
        onnx_config.backend_type
        (makeShared ONNXRuntimeBackend.cls (ONNXRuntimeBackend.ctor BackendType.kUnknown))
        World.initial).1.createBackendFromConfig onnx_config World.initial = some r1 ∧
      r1.self.createBackendFromConfig onnx_config r1.world = some r2 ∧
      r1.backend = some a1 ∧ r2.backend = some a2 ∧ a1 ≠ a2 ∧
      callIsInitialized a2 r2.world = some true) :=
  ⟨rfl, rfl,
   (C7_created_instances_are_independent.1
      (staticRegistration BackendType.kUnknown World.initial).1 ONNXRuntimeBackend.cls
      (ONNXRuntimeBackend.ctor BackendType.kUnknown) onnx_config World.initial World.initial
      rfl rfl).elim
     (fun r1 h1 => h1.elim (fun r2 h2 => h2.elim (fun a1 h3 => h3.elim (fun a2 h4 =>
       h4.elim (fun _ h5 => h5.elim (fun _ h =>
         ⟨r1, r2, a1, a2, h.1, h.2.1, h.2.2.1, h.2.2.2.1, h.2.2.2.2.1,
           h.2.2.2.2.2.2.1⟩))))))⟩

/-! ## Life cycle of the two backends -/

/-- C8 (counterexample): on a `TensorRTBackend`, `init(trt_config)` succeeds on
a fresh instance, and a second `init(trt_config)` with no `deinit` in between
returns `kSuccess` again, not `kErrorAlreadyInitialized`. -/
theorem C8_counterexample_tensorrt_second_init_ok :
    (TensorRTBackend.init trt_config TensorRTBackend.ctor.1).ret.ok = true ∧
    (TensorRTBackend.init trt_config
      (TensorRTBackend.init trt_config TensorRTBackend.ctor.1).self).ret.code
        = StatusCode.kSuccess ∧
    (TensorRTBackend.init trt_config
      (TensorRTBackend.init trt_config TensorRTBackend.ctor.1).self).ret.code
        ≠ StatusCode.kErrorAlreadyInitialized := by
  decide

/-- C8 (amended): for `ONNXRuntimeBackend`, once an `init` has succeeded, or more
generally whenever `isInitialized()` is true, `init` with any configuration
returns `kErrorAlreadyInitialized`, leaves all data members (stored
configuration and flag included) unchanged and logs nothing; `infer` and
`inferBatch` do not change the members either, so this persists until
`deinit`.  `TensorRTBackend` has no data members: its `init` returns OK on every
call. -/
theorem C8_onnx_init_when_initialized_is_rejected :
    (∀ (c0 c : BackendConfig) (s : ONNXRuntimeBackend),
      (ONNXRuntimeBackend.init c0 s).ret.ok = true →
      (ONNXRuntimeBackend.init c (ONNXRuntimeBackend.init c0 s).self).ret.code
        = StatusCode.kErrorAlreadyInitialized ∧
      (ONNXRuntimeBackend.init c (ONNXRuntimeBackend.init c0 s).self).self
        = (ONNXRuntimeBackend.init c0 s).self ∧
      (ONNXRuntimeBackend.init c0 s).self.config_ = c0) ∧
    (∀ (c : BackendConfig) (s : ONNXRuntimeBackend),
      s.isInitialized = true →
      (ONNXRuntimeBackend.init c s).ret.code = StatusCode.kErrorAlreadyInitialized ∧
      (ONNXRuntimeBackend.init c s).self = s ∧
      (ONNXRuntimeBackend.init c s).logs = []) ∧
    (∀ (i o : List TensorPtr) (bi bo : List (List TensorPtr)) (s : ONNXRuntimeBackend),
      (ONNXRuntimeBackend.infer i o s).self = s ∧
      (ONNXRuntimeBackend.inferBatch bi bo s).self = s) ∧
    (∀ (c : BackendConfig) (s : TensorRTBackend),
      (TensorRTBackend.init c s).ret = Status.OK ∧ (TensorRTBackend.init c s).self = s) := by
  have key : ∀ (c : BackendConfig) (s : ONNXRuntimeBackend),
      s.isInitialized = true →
      (ONNXRuntimeBackend.init c s).ret.code = StatusCode.kErrorAlreadyInitialized ∧
      (ONNXRuntimeBackend.init c s).self = s ∧
      (ONNXRuntimeBackend.init c s).logs = [] := by
    intro c s h
    simp only [ONNXRuntimeBackend.isInitialized] at h
    simp [ONNXRuntimeBackend.init, h, Status.Error, Status.code]
  refine ⟨?_, key, ?_, ?_⟩
  · intro c0 c s h
    have hs : s.initialized_ = false := by
      cases hi : s.initialized_ with
      | false => rfl
      | true => simp [ONNXRuntimeBackend.init, hi, Status.Error, Status.ok] at h
    have h1 : (ONNXRuntimeBackend.init c0 s).self = { s with config_ := c0, initialized_ := true } := by
      simp [ONNXRuntimeBackend.init, hs]
    have h2 : (ONNXRuntimeBackend.init c0 s).self.isInitialized = true := by
      rw [h1]; rfl
    exact ⟨(key c _ h2).1, (key c _ h2).2.1, by rw [h1]⟩
  · intro i o bi bo s
    constructor
    · unfold ONNXRuntimeBackend.infer
      split_ifs <;> rfl
    · rfl
  · intro c s
    exact ⟨rfl, rfl⟩

/-- C8 (amended) at a concrete input: a fresh `ONNXRuntimeBackend` initialised
with `onnx_config` rejects a second `init` with `trt_config` and keeps
`onnx_config`. -/
theorem C8_onnx_init_when_initialized_is_rejected_witness :
    (ONNXRuntimeBackend.init onnx_config
      (ONNXRuntimeBackend.ctor BackendType.kUnknown).1).ret.ok = true ∧
    (ONNXRuntimeBackend.init trt_config (ONNXRuntimeBackend.init onnx_config
      (ONNXRuntimeBackend.ctor BackendType.kUnknown).1).self).ret.code
        = StatusCode.kErrorAlreadyInitialized ∧
    (ONNXRuntimeBackend.init trt_config (ONNXRuntimeBackend.init onnx_config
      (ONNXRuntimeBackend.ctor BackendType.kUnknown).1).self).self.config_ = onnx_config :=
  ⟨by decide,
   (C8_onnx_init_when_initialized_is_rejected.1 onnx_config trt_config
      (ONNXRuntimeBackend.ctor BackendType.kUnknown).1 (by decide)).1,
   ((C8_onnx_init_when_initialized_is_rejected.1 onnx_config trt_config
      (ONNXRuntimeBackend.ctor BackendType.kUnknown).1 (by decide)).2.1).symm ▸
     (C8_onnx_init_when_initialized_is_rejected.1 onnx_config trt_config
      (ONNXRuntimeBackend.ctor BackendType.kUnknown).1 (by decide)).2.2⟩

/-- C9 (counterexample): on a freshly constructed `TensorRTBackend`, and again
after `deinit()`, `infer` with empty lists returns `kSuccess`, not
`kErrorNotInitialized`. -/
theorem C9_counterexample_tensorrt_infer_uninitialized_ok :
    (TensorRTBackend.infer [] [] TensorRTBackend.ctor.1).ret.1.code = StatusCode.kSuccess ∧
    (TensorRTBackend.infer [] [] TensorRTBackend.ctor.1).ret.1.code
      ≠ StatusCode.kErrorNotInitialized ∧
    (TensorRTBackend.infer [] [] (TensorRTBackend.deinit TensorRTBackend.ctor.1).self).ret.1.code
      ≠ StatusCode.kErrorNotInitialized := by
  decide

/-- C9 (amended): for `ONNXRuntimeBackend` and every input and output list,
`infer` on a freshly constructed instance, on an instance just after `deinit()`,
and in general whenever `isInitialized()` is false, returns
`kErrorNotInitialized`, and it changes neither the instance nor the output list
and logs nothing.  `TensorRTBackend` keeps no initialised flag: its `infer`
returns OK in every state. -/
theorem C9_onnx_infer_uninitialized_is_rejected (inputs outputs : List TensorPtr) :
    (∀ indet : BackendType,
      (ONNXRuntimeBackend.infer inputs outputs (ONNXRuntimeBackend.ctor indet).1).ret.1.code
        = StatusCode.kErrorNotInitialized) ∧
    (∀ s : ONNXRuntimeBackend,
      (ONNXRuntimeBackend.infer inputs outputs (ONNXRuntimeBackend.deinit s).self).ret.1.code
        = StatusCode.kErrorNotInitialized) ∧
    (∀ s : ONNXRuntimeBackend, s.isInitialized = false →
      (ONNXRuntimeBackend.infer inputs outputs s).ret.1.code = StatusCode.kErrorNotInitialized ∧
      (ONNXRuntimeBackend.infer inputs outputs s).ret.2 = outputs ∧
      (ONNXRuntimeBackend.infer inputs outputs s).self = s ∧
      (ONNXRuntimeBackend.infer inputs outputs s).logs = []) ∧
    (∀ s : TensorRTBackend, (TensorRTBackend.infer inputs outputs s).ret.1 = Status.OK) := by
  have key : ∀ s : ONNXRuntimeBackend, s.isInitialized = false →
      (ONNXRuntimeBackend.infer inputs outputs s).ret.1.code = StatusCode.kErrorNotInitialized ∧
      (ONNXRuntimeBackend.infer inputs outputs s).ret.2 = outputs ∧
      (ONNXRuntimeBackend.infer inputs outputs s).self = s ∧
      (ONNXRuntimeBackend.infer inputs outputs s).logs = [] := by
    intro s h
    simp only [ONNXRuntimeBackend.isInitialized] at h
    simp [ONNXRuntimeBackend.infer, h, Status.NotInitialized, Status.code]
  refine ⟨fun indet => (key (ONNXRuntimeBackend.ctor indet).1 rfl).1,
    fun s => (key (ONNXRuntimeBackend.deinit s).self ?_).1, key, fun s => rfl⟩
  unfold ONNXRuntimeBackend.deinit ONNXRuntimeBackend.isInitialized
  cases hi : s.initialized_ <;> simp [hi]

/-- C9 (amended) at a concrete input: an `ONNXRuntimeBackend` that was
initialised with `onnx_config` and then deinitialised rejects `infer`. -/
theorem C9_onnx_infer_uninitialized_is_rejected_witness :
    (ONNXRuntimeBackend.deinit (ONNXRuntimeBackend.init onnx_config
      (ONNXRuntimeBackend.ctor BackendType.kUnknown).1).self).self.isInitialized = false ∧
    (ONNXRuntimeBackend.infer [1, 2] [3] (ONNXRuntimeBackend.deinit
      (ONNXRuntimeBackend.init onnx_config
        (ONNXRuntimeBackend.ctor BackendType.kUnknown).1).self).self).ret.1.code
      = StatusCode.kErrorNotInitialized :=
  ⟨by decide,
   ((C9_onnx_infer_uninitialized_is_rejected [1, 2] [3]).2.2.1
      (ONNXRuntimeBackend.deinit (ONNXRuntimeBackend.init onnx_config
        (ONNXRuntimeBackend.ctor BackendType.kUnknown).1).self).self (by decide)).1⟩

/-- C10 (counterexample): a freshly constructed `TensorRTBackend` reports
`isInitialized() == true` before any `init`, and still reports true after
`deinit()`. -/
theorem C10_counterexample_tensorrt_always_initialized :
    TensorRTBackend.isInitialized TensorRTBackend.ctor.1 = true ∧
    TensorRTBackend.isInitialized TensorRTBackend.ctor.1 ≠ false ∧
    TensorRTBackend.isInitialized (TensorRTBackend.deinit
      (TensorRTBackend.init trt_config TensorRTBackend.ctor.1).self).self ≠ false := by
  decide

/-- C10 (amended): for `ONNXRuntimeBackend`, `isInitialized()` is false on a
freshly constructed instance, true after every `init` that returned OK, and
false after every `deinit()`; a failed `init` leaves it as it was.  For
both classes `deinit()` returns OK in every state.  For `TensorRTBackend`,
`isInitialized()` is true in every state. -/
theorem C10_isInitialized_follows_lifecycle :
    (∀ indet : BackendType, (ONNXRuntimeBackend.ctor indet).1.isInitialized = false) ∧
    (∀ (c : BackendConfig) (s : ONNXRuntimeBackend),
      (ONNXRuntimeBackend.init c s).ret.ok = true →
      (ONNXRuntimeBackend.init c s).self.isInitialized = true) ∧
    (∀ (c : BackendConfig) (s : ONNXRuntimeBackend),
      (ONNXRuntimeBackend.init c s).ret.ok = false →
      (ONNXRuntimeBackend.init c s).self.isInitialized = s.isInitialized) ∧
    (∀ s : ONNXRuntimeBackend, (ONNXRuntimeBackend.deinit s).self.isInitialized = false) ∧
    (∀ s : ONNXRuntimeBackend, (ONNXRuntimeBackend.deinit s).ret = Status.OK) ∧
    (∀ s : TensorRTBackend, (TensorRTBackend.deinit s).ret = Status.OK) ∧
    (∀ s : TensorRTBackend, s.isInitialized = true) := by
  refine ⟨fun _ => rfl, ?_, ?_, ?_, ?_, fun _ => rfl, fun _ => rfl⟩
  · intro c s _
    unfold ONNXRuntimeBackend.init ONNXRuntimeBackend.isInitialized
    cases hi : s.initialized_ <;> simp [hi]
  · intro c s h
    unfold ONNXRuntimeBackend.init ONNXRuntimeBackend.isInitialized
    cases hi : s.initialized_
    · simp [ONNXRuntimeBackend.init, hi, Status.OK, Status.ok] at h
    · simp [hi]
  · intro s
    unfold ONNXRuntimeBackend.deinit ONNXRuntimeBackend.isInitialized
    cases hi : s.initialized_ <;> simp [hi]
  · intro s
    unfold ONNXRuntimeBackend.deinit
    cases hi : s.initialized_ <;> simp [hi]

/-- C10 (amended) at a concrete input: the flag of an `ONNXRuntimeBackend`
through construction, `init(onnx_config)`, a rejected second `init` and
`deinit()`. -/
theorem C10_isInitialized_follows_lifecycle_witness :
    (ONNXRuntimeBackend.init onnx_config
      (ONNXRuntimeBackend.ctor BackendType.kUnknown).1).ret.ok = true ∧
    (ONNXRuntimeBackend.init onnx_config
      (ONNXRuntimeBackend.ctor BackendType.kUnknown).1).self.isInitialized = true ∧
    (ONNXRuntimeBackend.init trt_config (ONNXRuntimeBackend.init onnx_config
      (ONNXRuntimeBackend.ctor BackendType.kUnknown).1).self).ret.ok = false ∧
    (ONNXRuntimeBackend.init trt_config (ONNXRuntimeBackend.init onnx_config
      (ONNXRuntimeBackend.ctor BackendType.kUnknown).1).self).self.isInitialized =
      (ONNXRuntimeBackend.init onnx_config
        (ONNXRuntimeBackend.ctor BackendType.kUnknown).1).self.isInitialized :=
  ⟨by decide,
   C10_isInitialized_follows_lifecycle.2.1 onnx_config
     (ONNXRuntimeBackend.ctor BackendType.kUnknown).1 (by decide),
   by decide,
   C10_isInitialized_follows_lifecycle.2.2.1 trt_config
     (ONNXRuntimeBackend.init onnx_config
       (ONNXRuntimeBackend.ctor BackendType.kUnknown).1).self (by decide)⟩

/-! ## The YOLOv8 plugin -/

theorem digitChar_facts : ∀ d < 10,
    digitValue 10 (Nat.digitChar d) = some d ∧ isspace (Nat.digitChar d) = false ∧
    Nat.digitChar d ≠ '-' ∧ Nat.digitChar d ≠ '+' := by
  decide

theorem foldl_digits_eq_ofDigits (ds : List Nat) (acc : Nat) :
    ds.foldl (fun a d => a * 10 + d) acc = Nat.ofDigits 10 ds.reverse + acc * 10 ^ ds.length := by
  induction ds generalizing acc with
  | nil => simp
  | cons d ds ih =>
    simp only [List.foldl_cons, List.reverse_cons, List.length_cons, ih, Nat.ofDigits_append,
      Nat.ofDigits_singleton, List.length_reverse]
    ring

theorem readDigits_map_digitChar (ds : List Nat) (h : ∀ d ∈ ds, d < 10) (acc k : Nat) :
    readDigits 10 acc k (ds.map Nat.digitChar) =
      (ds.foldl (fun a d => a * 10 + d) acc, k + ds.length, []) := by
  induction ds generalizing acc k with
  | nil => simp [readDigits]
  | cons d ds ih =>
    have hd := (digitChar_facts d (h d (List.mem_cons_self d ds))).1
    simp only [List.map_cons, readDigits, hd, List.foldl_cons, List.length_cons]
    rw [ih (fun x hx => h x (List.mem_cons_of_mem d hx))]
    simp only [Prod.mk.injEq, true_and, and_true]
    omega

theorem stoi_decimalString (negative : Bool) (ds : List Nat) (hne : ds ≠ [])
    (hd : ∀ d ∈ ds, d < 10) (hmin : INT_MIN ≤ decimalInt negative ds)
    (hmax : decimalInt negative ds ≤ INT_MAX) :
    stoi (decimalString negative ds) = Ret.value (decimalInt negative ds) := by
  obtain ⟨d0, ds0, rfl⟩ := List.exists_cons_of_ne_nil hne
  have h0 := digitChar_facts d0 (hd d0 (List.mem_cons_self d0 ds0))
  have hlen : (d0 :: ds0).length ≠ 0 := by simp
  have hval : (List.foldl (fun a d => a * 10 + d) 0 (d0 :: ds0) : Nat)
      = Nat.ofDigits 10 (d0 :: ds0).reverse := by
    rw [foldl_digits_eq_ofDigits]; simp
  cases negative with
  | true =>
    have hs : skipSpace ('-' :: (d0 :: ds0).map Nat.digitChar)
        = '-' :: (d0 :: ds0).map Nat.digitChar := by
      simp [skipSpace, isspace]
    simp only [decimalInt, if_true] at hmin hmax ⊢
    simp only [stoi, decimalString, if_true, String.toList, List.singleton_append, hs, readSign,
      readDigits_map_digitChar _ hd, hval, Nat.zero_add, hlen, if_false]
    rw [if_neg (by omega)]
  | false =>
    have hs : skipSpace ((d0 :: ds0).map Nat.digitChar) = (d0 :: ds0).map Nat.digitChar := by
      simp [skipSpace, h0.2.1]
    have hsign : readSign ((d0 :: ds0).map Nat.digitChar)
        = (false, (d0 :: ds0).map Nat.digitChar) := by
      simp [readSign, h0.2.2.1, h0.2.2.2]
    simp only [decimalInt, Bool.false_eq_true, if_false] at hmin hmax ⊢
    simp only [stoi, decimalString, Bool.false_eq_true, if_false, String.toList, List.nil_append,
      hs, hsign, readDigits_map_digitChar _ hd, hval, Nat.zero_add, hlen]
    rw [if_neg (by omega)]

theorem initBackend_spec {backend_config : BackendConfig} {algo_params : StdMap String String}
    {s : YOLOv8Plugin} {env : Env} {o : PluginOutcome YOLOv8Plugin Status}
    (h : YOLOv8Plugin.initBackend backend_config algo_params s env = some o) :
    o.self.model_path_ = s.model_path_ ∧ o.self.conf_threshold_ = s.conf_threshold_ ∧
    o.self.nms_threshold_ = s.nms_threshold_ ∧ o.self.input_width_ = s.input_width_ ∧
    o.self.input_height_ = s.input_height_ ∧
    ((o.ret = Ret.value Status.OK ∧ o.self.initialized_ = true) ∨
     (o.ret ≠ Ret.value Status.OK ∧ o.self.initialized_ = s.initialized_)) := by
  unfold YOLOv8Plugin.initBackend at h
  split at h
  · simp only [Option.some.injEq] at h
    subst h
    simp
  · simp only at h
    split at h
    · simp only [Option.some.injEq] at h
      subst h
      simp [Status.OK]
    · split at h
      · exact absurd h (by simp)
      · rename_i status w2 _
        cases hok : status.ok with
        | false =>
          simp only [hok, Bool.not_false, if_true, Option.some.injEq] at h
          subst h
          refine ⟨rfl, rfl, rfl, rfl, rfl, Or.inr ⟨?_, rfl⟩⟩
          intro hc
          simp only [Ret.value.injEq] at hc
          rw [hc] at hok
          exact absurd hok (by decide)
        | true =>
          simp only [hok, Bool.not_true, Bool.false_eq_true, if_false, Option.some.injEq] at h
          subst h
          simp

theorem parse_param_cases {α : Type} {x : Option String} {cur a : α} {f : String → Ret α}
    (h : (match x with
          | none => Ret.value cur
          | some v => f v) = Ret.value a) :
    (x = none ∧ a = cur) ∨ ∃ v, x = some v ∧ f v = Ret.value a := by
  cases x with
  | none =>
    simp only [Ret.value.injEq] at h
    exact Or.inl ⟨rfl, h.symm⟩
  | some v => exact Or.inr ⟨v, rfl, h⟩

theorem init_spec {showF32 : F32 → String} {model_path : String} {backend_config : BackendConfig}
    {algo_params : StdMap String String} {self : YOLOv8Plugin} {env : Env}
    {o : PluginOutcome YOLOv8Plugin Status} {st : Status}
    (hs : self.isInitialized = false)
    (h : YOLOv8Plugin.init showF32 model_path backend_config algo_params self env = some o)
    (hret : o.ret = Ret.value st) :
    o.self.model_path_ = model_path ∧
    ((algo_params.find "conf_threshold" = none ∧ o.self.conf_threshold_ = self.conf_threshold_) ∨
      ∃ v, algo_params.find "conf_threshold" = some v ∧ stof v = Ret.value o.self.conf_threshold_) ∧
    ((algo_params.find "nms_threshold" = none ∧ o.self.nms_threshold_ = self.nms_threshold_) ∨
      ∃ v, algo_params.find "nms_threshold" = some v ∧ stof v = Ret.value o.self.nms_threshold_) ∧
    ((algo_params.find "input_width" = none ∧ o.self.input_width_ = self.input_width_) ∨
      ∃ v, algo_params.find "input_width" = some v ∧ stoi v = Ret.value o.self.input_width_) ∧
    ((algo_params.find "input_height" = none ∧ o.self.input_height_ = self.input_height_) ∨
      ∃ v, algo_params.find "input_height" = some v ∧ stoi v = Ret.value o.self.input_height_) ∧
    (o.self.initialized_ = true ↔ st = Status.OK) := by
  simp only [YOLOv8Plugin.isInitialized] at hs
  unfold YOLOv8Plugin.init at h
  simp only [hs, Bool.false_eq_true, if_false] at h
  split at h
  · simp only [Option.some.injEq] at h
    subst h
    exact absurd hret (by simp)
  · rename_i conf hconf
    split at h
    · simp only [Option.some.injEq] at h
      subst h
      exact absurd hret (by simp)
    · rename_i nms hnms
      split at h
      · simp only [Option.some.injEq] at h
        subst h
        exact absurd hret (by simp)
      · rename_i width hwidth
        split at h
        · simp only [Option.some.injEq] at h
          subst h
          exact absurd hret (by simp)
        · rename_i height hheight
          obtain ⟨h1, h2, h3, h4, h5, h6⟩ := initBackend_spec h
          simp only at h1 h2 h3 h4 h5 h6
          refine ⟨h1, ?_, ?_, ?_, ?_, ?_⟩
          · rw [h2]; exact parse_param_cases hconf
          · rw [h3]; exact parse_param_cases hnms
          · rw [h4]; exact parse_param_cases hwidth
          · rw [h5]; exact parse_param_cases hheight
          · rcases h6 with ⟨ha, hb⟩ | ⟨ha, hb⟩
            · rw [hret] at ha
              simp only [Ret.value.injEq] at ha
              simp [ha, hb]
            · rw [hret] at ha
              have hne : st ≠ Status.OK := fun hc => ha (by rw [hc])
              simp [hb, hs, hne]

theorem init_initialized_only_if_ok {showF32 : F32 → String} {model_path : String}
    {backend_config : BackendConfig} {algo_params : StdMap String String} {self : YOLOv8Plugin}
    {env : Env} {o : PluginOutcome YOLOv8Plugin Status}
    (hs : self.isInitialized = false)
    (h : YOLOv8Plugin.init showF32 model_path backend_config algo_params self env = some o)
    (hi : o.self.isInitialized = true) : o.ret = Ret.value Status.OK := by
  cases hr : o.ret with
  | value st =>
    have h6 := (init_spec hs h hr).2.2.2.2.2
    rw [h6.1 hi]
  | threw e =>
    exfalso
    simp only [YOLOv8Plugin.isInitialized] at hs hi
    unfold YOLOv8Plugin.init at h
    simp only [hs, Bool.false_eq_true, if_false] at h
    split at h
    · simp only [Option.some.injEq] at h
      subst h
      simp [hs] at hi
    · split at h
      · simp only [Option.some.injEq] at h
        subst h
        simp [hs] at hi
      · split at h
        · simp only [Option.some.injEq] at h
          subst h
          simp [hs] at hi
        · split at h
          · simp only [Option.some.injEq] at h
            subst h
            simp [hs] at hi
          · rcases (initBackend_spec h).2.2.2.2.2 with ⟨ha, _⟩ | ⟨_, hb⟩
            · rw [hr] at ha
              exact absurd ha (by simp)
            · rw [hb] at hi
              simp [hs] at hi

theorem deinit_uninitialized {self : YOLOv8Plugin} {env : Env}
    {o : PluginOutcome YOLOv8Plugin Status} (h : YOLOv8Plugin.deinit self env = some o) :
    o.self.isInitialized = false ∧ o.ret = Ret.value Status.OK := by
  unfold YOLOv8Plugin.deinit at h
  cases hi : self.initialized_ with
  | false =>
    simp only [hi, Bool.not_false, if_true, Option.some.injEq] at h
    subst h
    exact ⟨hi, rfl⟩
  | true =>
    simp only [hi, Bool.not_true, Bool.false_eq_true, if_false] at h
    split at h
    · split at h
      · exact absurd h (by simp)
      · simp only [Option.some.injEq] at h
        subst h
        exact ⟨rfl, rfl⟩
    · simp only [Option.some.injEq] at h
      subst h
      exact ⟨rfl, rfl⟩

/-- C19: on a `YOLOv8Plugin` with `isInitialized()` false, `infer` and
`inferBatch` return a status with code `kErrorNotInitialized`; the returned
output list is the one passed in, the members of the plugin are unchanged, and
the environment (backend instances and log) is unchanged, so no backend was
called.  The plugin is in that state after construction, after every
`deinit()`, and after every `init` on an uninitialised plugin that did not
return OK (whether it returned another status or threw). -/
theorem C19_infer_uninitialized_is_rejected :
    (∀ (self : YOLOv8Plugin) (env : Env), self.isInitialized = false →
      (∀ inputs outputs : List TensorPtr,
        YOLOv8Plugin.infer inputs outputs self env =
          some { ret := Ret.value
                   (⟨StatusCode.kErrorNotInitialized, "YOLOv8Plugin not initialized"⟩, outputs)
                 self := self, env := env }) ∧
      (∀ batch_inputs batch_outputs : List (List TensorPtr),
        YOLOv8Plugin.inferBatch batch_inputs batch_outputs self env =
          some { ret := Ret.value
                   (⟨StatusCode.kErrorNotInitialized, "YOLOv8Plugin not initialized"⟩,
                    batch_outputs)
                 self := self, env := env })) ∧
    YOLOv8Plugin.ctor.1.isInitialized = false ∧
    (∀ (self : YOLOv8Plugin) (env : Env) (o : PluginOutcome YOLOv8Plugin Status),
      YOLOv8Plugin.deinit self env = some o → o.self.isInitialized = false) ∧
    (∀ (showF32 : F32 → String) (model_path : String) (backend_config : BackendConfig)
        (algo_params : StdMap String String) (self : YOLOv8Plugin) (env : Env)
        (o : PluginOutcome YOLOv8Plugin Status),
      self.isInitialized = false →
      YOLOv8Plugin.init showF32 model_path backend_config algo_params self env = some o →
      o.ret ≠ Ret.value Status.OK →
      o.self.isInitialized = false) := by
  refine ⟨?_, rfl, fun self env o h => (deinit_uninitialized h).1, ?_⟩
  · intro self env hs
    simp only [YOLOv8Plugin.isInitialized] at hs
    constructor
    · intro inputs outputs
      simp [YOLOv8Plugin.infer, hs]
    · intro bi bo
      simp [YOLOv8Plugin.inferBatch, hs]
  · intro showF32 model_path backend_config algo_params self env o hs h hne
    cases hi : o.self.isInitialized with
    | false => rfl
    | true => exact absurd (init_initialized_only_if_ok hs h hi) hne

theorem find_scenarioD_params :
    scenarioD_params.find "conf_threshold" = some "0.5" ∧
    scenarioD_params.find "nms_threshold" = none ∧
    scenarioD_params.find "input_width" = some "320" ∧
    scenarioD_params.find "input_height" = none ∧
    scenarioD_params.find "backend_type" = none := by
  simp [scenarioD_params, StdMap.find, StdMap.assign, StdMap.empty, assignList, findList]

theorem init_scenarioD {showF32 : F32 → String} {model_path : String}
    {backend_config : BackendConfig} {env : Env} {cls : BackendClass}
    {k : cls.State × List LogEntry}
    (hreg : env.factory.creators_.find BackendType.kTensorRT = some (makeShared cls k))
    (hok : (cls.init backend_config k.1).ret.ok = true) :
    ∃ o : PluginOutcome YOLOv8Plugin Status,
      YOLOv8Plugin.init showF32 model_path backend_config scenarioD_params
        YOLOv8Plugin.ctor.1 env = some o ∧
      o.ret = Ret.value Status.OK ∧
      o.self = { initialized_ := true
                 backend_ := some env.world.next
                 model_path_ := model_path
                 conf_threshold_ := F32.finite false 1 (-1)
                 nms_threshold_ := F32.round false 45 100
                 input_width_ := 320
                 input_height_ := 640 } := by
  obtain ⟨h1, h2, h3, h4, h5⟩ := find_scenarioD_params
  have e1 : stof "0.5" = Ret.value (F32.finite false 1 (-1)) := by decide
  have e2 : stoi "320" = Ret.value 320 := by decide
  simp only [YOLOv8Plugin.init, YOLOv8Plugin.ctor, Bool.false_eq_true, if_false, h1, h2, h3, h4,
    e1, e2, YOLOv8Plugin.initBackend, h5, Env.logMsg]
  rw [createBackend_of_find hreg]
  simp [makeShared, callInit, callMember, World.logMsg, World.logAll, World.store, Env.logMsg,
    hok]

/-- C19 at concrete inputs: a freshly constructed plugin rejects `infer`; and
with no backend registered, `init` on it returns `kErrorBackendNotSupported`,
after which the plugin is still not initialised. -/
theorem C19_infer_uninitialized_is_rejected_witness :
    YOLOv8Plugin.infer [1] [2] YOLOv8Plugin.ctor.1
        { world := World.initial, factory := (BackendFactory.ctor World.initial).1 } =
      some { ret := Ret.value
               (⟨StatusCode.kErrorNotInitialized, "YOLOv8Plugin not initialized"⟩, [2])
             self := YOLOv8Plugin.ctor.1
             env := { world := World.initial, factory := (BackendFactory.ctor World.initial).1 } } ∧
    (∃ o : PluginOutcome YOLOv8Plugin Status,
      YOLOv8Plugin.init (fun _ => "") "m" trt_config StdMap.empty YOLOv8Plugin.ctor.1
        { world := World.initial, factory := (BackendFactory.ctor World.initial).1 } = some o ∧
      o.ret ≠ Ret.value Status.OK ∧ o.self.isInitialized = false) :=
  ⟨(C19_infer_uninitialized_is_rejected.1 YOLOv8Plugin.ctor.1
      { world := World.initial, factory := (BackendFactory.ctor World.initial).1 } rfl).1 [1] [2],
   ⟨_, rfl, by decide,
     C19_infer_uninitialized_is_rejected.2.2.2 (fun _ => "") "m" trt_config StdMap.empty
       YOLOv8Plugin.ctor.1
       { world := World.initial, factory := (BackendFactory.ctor World.initial).1 } _ rfl rfl
       (by decide)⟩⟩

theorem release_heap_of_ne {p a : Addr} (h : p ≠ a) (w : World) :
    (release p w).heap a = w.heap a := by
  unfold release
  split
  · rfl
  · split
    · simp [World.store, World.logAll, Function.update, Ne.symm h]
    · simp [World.store, Function.update, Ne.symm h]

theorem find_failing_params :
    failing_params.find "conf_threshold" = none ∧
    failing_params.find "nms_threshold" = some "0.3" ∧
    failing_params.find "input_width" = none ∧
    failing_params.find "input_height" = some "111" ∧
    failing_params.find "backend_type" = some "42" := by
  simp [failing_params, StdMap.find, StdMap.assign, StdMap.empty, assignList, findList]

/-- Scenario D on any uninitialised plugin whose held pointer, if any, is not
the address of the next allocation. -/
theorem init_scenarioD_uninitialized {showF32 : F32 → String} {model_path : String}
    {backend_config : BackendConfig} {self : YOLOv8Plugin} {env : Env} {cls : BackendClass}
    {k : cls.State × List LogEntry}
    (hs : self.initialized_ = false) (hold : self.backend_ ≠ some env.world.next)
    (hreg : env.factory.creators_.find BackendType.kTensorRT = some (makeShared cls k))
    (hok : (cls.init backend_config k.1).ret.ok = true) :
    ∃ o : PluginOutcome YOLOv8Plugin Status,
      YOLOv8Plugin.init showF32 model_path backend_config scenarioD_params self env = some o ∧
      o.ret = Ret.value Status.OK ∧
      o.self = { initialized_ := true
                 backend_ := some env.world.next
                 model_path_ := model_path
                 conf_threshold_ := F32.finite false 1 (-1)
                 nms_threshold_ := self.nms_threshold_
                 input_width_ := 320
                 input_height_ := self.input_height_ } := by
  obtain ⟨h1, h2, h3, h4, h5⟩ := find_scenarioD_params
  have e1 : stof "0.5" = Ret.value (F32.finite false 1 (-1)) := by decide
  have e2 : stoi "320" = Ret.value 320 := by decide
  simp only [YOLOv8Plugin.init, hs, Bool.false_eq_true, if_false, h1, h2, h3, h4,
    e1, e2, YOLOv8Plugin.initBackend, h5, Env.logMsg]
  rw [createBackend_of_find hreg]
  cases hb : self.backend_ with
  | none =>
    simp [makeShared, callInit, callMember, World.logMsg, World.logAll, World.store, Env.logMsg,
      hok]
  | some old =>
    have hne : old ≠ env.world.next := fun hc => hold (by rw [hb, hc])
    simp only [makeShared, World.logMsg, callInit, callMember]
    rw [release_heap_of_ne hne]
    simp [World.logAll, World.store, Env.logMsg, hok]

/-- C20 (counterexample): a plugin that is uninitialised but not fresh.  On a
freshly constructed plugin, `init` with "nms_threshold" = "0.3", "input_height"
= "111" and the unregistered backend type 42 returns
`kErrorBackendNotSupported` and leaves the plugin uninitialised.  `init` with
the parameters of Scenario D on that plugin returns OK, and the absent keys
then do not have their defaults: the input height is 111, not 640, and the
NMS threshold is the `float` of 0.3, not that of `0.45f`. -/
theorem C20_counterexample_failed_init_leaves_values :
    ∃ o1 o2 : PluginOutcome YOLOv8Plugin Status,
      YOLOv8Plugin.init (fun _ => "") "/path/to/yolov8.engine" trt_config failing_params
        YOLOv8Plugin.ctor.1
        { world := World.initial
          factory := (staticRegistration BackendType.kUnknown World.initial).1 } = some o1 ∧
      o1.ret = Ret.value ⟨StatusCode.kErrorBackendNotSupported, "Failed to create backend"⟩ ∧
      o1.self.isInitialized = false ∧
      YOLOv8Plugin.init (fun _ => "") "/path/to/yolov8.engine" trt_config scenarioD_params
        o1.self o1.env = some o2 ∧
      o2.ret = Ret.value Status.OK ∧
      o2.self.isInitialized = true ∧
      o2.self.input_height_ = 111 ∧
      o2.self.input_height_ ≠ 640 ∧
      o2.self.nms_threshold_ = F32.finite false 5033165 (-24) ∧
      o2.self.nms_threshold_ ≠ YOLOv8Plugin.ctor.1.nms_threshold_ := by
  obtain ⟨f1, f2, f3, f4, f5⟩ := find_failing_params
  have e1 : stof "0.3" = Ret.value (F32.finite false 5033165 (-24)) := by decide
  have e2 : stoi "111" = Ret.value 111 := by decide
  have e3 : stoi "42" = Ret.value 42 := by decide
  have hreg : (staticRegistration BackendType.kUnknown World.initial).1.creators_.find
      (BackendType.mk 42) = none := rfl
  have h1 : ∃ o1 : PluginOutcome YOLOv8Plugin Status,
      YOLOv8Plugin.init (fun _ => "") "/path/to/yolov8.engine" trt_config failing_params
        YOLOv8Plugin.ctor.1
        { world := World.initial
          factory := (staticRegistration BackendType.kUnknown World.initial).1 } = some o1 ∧
      o1.ret = Ret.value ⟨StatusCode.kErrorBackendNotSupported, "Failed to create backend"⟩ ∧
      o1.self.initialized_ = false ∧ o1.self.backend_ = none ∧
      o1.self.nms_threshold_ = F32.finite false 5033165 (-24) ∧
      o1.self.input_height_ = 111 ∧
      o1.env.factory = (staticRegistration BackendType.kUnknown World.initial).1 := by
    simp only [YOLOv8Plugin.init, YOLOv8Plugin.ctor, Bool.false_eq_true, if_false, f1, f2, f3, f4,
      e1, e2, e3, YOLOv8Plugin.initBackend, f5, Env.logMsg]
    rw [createBackend_of_find_none hreg]
    exact ⟨_, rfl, rfl, rfl, rfl, rfl, rfl, rfl⟩
  obtain ⟨o1, a1, a2, a3, a4, a5, a6, a7⟩ := h1
  obtain ⟨o2, b1, b2, b3⟩ :=
    @init_scenarioD_uninitialized (fun _ => "") "/path/to/yolov8.engine" trt_config o1.self o1.env
      TensorRTBackend.cls TensorRTBackend.ctor a3 (by rw [a4]; simp) (by rw [a7]; rfl) rfl
  refine ⟨o1, o2, a1, a2, a3, b1, b2, ?_, ?_, ?_, ?_, ?_⟩
  · rw [b3]; rfl
  · rw [b3]; exact a6
  · rw [b3]; simp only [a6]; decide
  · rw [b3]; exact a5
  · rw [b3]; simp only [a5]; decide

/-- C20 (amended): on a freshly constructed `YOLOv8Plugin`, with the default
backend type `kTensorRT` registered to a `make_shared` factory of a class whose
`init` succeeds, `init` with the parameters of Scenario D returns OK and
afterwards the confidence threshold is exactly 1/2, the input width is 320,
the NMS threshold is still the `float` of the literal `0.45f`
(7549747 / 2^24) and the input height is still 640.  On every uninitialised
plugin (whose held pointer, if any, is not the address of the next allocation)
it returns OK as well with the confidence threshold 1/2 and the input width
320, and the NMS threshold and the input height are the values the plugin held
before the call.  `std::stoi` maps every decimal numeral (optional minus sign,
at least one digit) whose value lies in the range of `int` to that value.  And
whenever `init` on an uninitialised plugin returns a status, the width and the
height given by such a numeral are stored as its value, and each of the four
numeric members whose key is absent keeps the value it had. -/
theorem C20_init_parses_numeric_parameters :
    (∀ (showF32 : F32 → String) (model_path : String) (backend_config : BackendConfig)
        (env : Env) (cls : BackendClass) (k : cls.State × List LogEntry),
      env.factory.creators_.find BackendType.kTensorRT = some (makeShared cls k) →
      (cls.init backend_config k.1).ret.ok = true →
      ∃ o : PluginOutcome YOLOv8Plugin Status,
        YOLOv8Plugin.init showF32 model_path backend_config scenarioD_params
          YOLOv8Plugin.ctor.1 env = some o ∧
        o.ret = Ret.value Status.OK ∧
        o.self.isInitialized = true ∧
        o.self.conf_threshold_.toRat = some (1 / 2) ∧
        o.self.input_width_ = 320 ∧
        o.self.nms_threshold_ = YOLOv8Plugin.ctor.1.nms_threshold_ ∧
        o.self.nms_threshold_.toRat = some (7549747 / 16777216) ∧
        o.self.input_height_ = 640) ∧
    (∀ (showF32 : F32 → String) (model_path : String) (backend_config : BackendConfig)
        (self : YOLOv8Plugin) (env : Env) (cls : BackendClass) (k : cls.State × List LogEntry),
      self.isInitialized = false →
      self.backend_ ≠ some env.world.next →
      env.factory.creators_.find BackendType.kTensorRT = some (makeShared cls k) →
      (cls.init backend_config k.1).ret.ok = true →
      ∃ o : PluginOutcome YOLOv8Plugin Status,
        YOLOv8Plugin.init showF32 model_path backend_config scenarioD_params self env = some o ∧
        o.ret = Ret.value Status.OK ∧
        o.self.isInitialized = true ∧
        o.self.conf_threshold_.toRat = some (1 / 2) ∧
        o.self.input_width_ = 320 ∧
        o.self.nms_threshold_ = self.nms_threshold_ ∧
        o.self.input_height_ = self.input_height_) ∧
    (∀ (negative : Bool) (ds : List Nat),
      ds ≠ [] → (∀ d ∈ ds, d < 10) →
      INT_MIN ≤ decimalInt negative ds → decimalInt negative ds ≤ INT_MAX →
      stoi (decimalString negative ds) = Ret.value (decimalInt negative ds)) ∧
    (∀ (showF32 : F32 → String) (model_path : String) (backend_config : BackendConfig)
        (algo_params : StdMap String String) (self : YOLOv8Plugin) (env : Env)
        (o : PluginOutcome YOLOv8Plugin Status) (st : Status),
      self.isInitialized = false →
      YOLOv8Plugin.init showF32 model_path backend_config algo_params self env = some o →
      o.ret = Ret.value st →
      (∀ (negative : Bool) (ds : List Nat),
        algo_params.find "input_width" = some (decimalString negative ds) →
        ds ≠ [] → (∀ d ∈ ds, d < 10) →
        INT_MIN ≤ decimalInt negative ds → decimalInt negative ds ≤ INT_MAX →
        o.self.input_width_ = decimalInt negative ds) ∧
      (∀ (negative : Bool) (ds : List Nat),
        algo_params.find "input_height" = some (decimalString negative ds) →
        ds ≠ [] → (∀ d ∈ ds, d < 10) →
        INT_MIN ≤ decimalInt negative ds → decimalInt negative ds ≤ INT_MAX →
        o.self.input_height_ = decimalInt negative ds) ∧
      (algo_params.find "conf_threshold" = none →
        o.self.conf_threshold_ = self.conf_threshold_) ∧
      (algo_params.find "nms_threshold" = none →
        o.self.nms_threshold_ = self.nms_threshold_) ∧
      (algo_params.find "input_width" = none → o.self.input_width_ = self.input_width_) ∧
      (algo_params.find "input_height" = none →
        o.self.input_height_ = self.input_height_)) := by
  have absent : ∀ {α : Type} {x : Option String} {a b : α} {f : String → Ret α},
      ((x = none ∧ a = b) ∨ ∃ v, x = some v ∧ f v = Ret.value a) → x = none → a = b := by
    intro α x a b f h hx
    rcases h with ⟨_, h⟩ | ⟨v, hv, _⟩
    · exact h
    · rw [hx] at hv
      exact absurd hv (by simp)
  have present : ∀ {x : Option String} {a b : Int} (negative : Bool) (ds : List Nat),
      ((x = none ∧ a = b) ∨ ∃ v, x = some v ∧ stoi v = Ret.value a) →
      x = some (decimalString negative ds) →
      ds ≠ [] → (∀ d ∈ ds, d < 10) →
      INT_MIN ≤ decimalInt negative ds → decimalInt negative ds ≤ INT_MAX →
      a = decimalInt negative ds := by
    intro x a b negative ds h hx hne hd hmin hmax
    rcases h with ⟨h, _⟩ | ⟨v, hv, hp⟩
    · rw [hx] at h
      exact absurd h (by simp)
    · rw [hx] at hv
      simp only [Option.some.injEq] at hv
      rw [← hv, stoi_decimalString negative ds hne hd hmin hmax] at hp
      simp only [Ret.value.injEq] at hp
      exact hp.symm
  refine ⟨?_, ?_, stoi_decimalString, ?_⟩
  · intro showF32 model_path backend_config env cls k hreg hok
    obtain ⟨o, ho, hr, hs⟩ := @init_scenarioD showF32 model_path _ _ _ _
      hreg hok
    refine ⟨o, ho, hr, ?_, ?_, ?_, ?_, ?_, ?_⟩
    · rw [hs]; rfl
    · rw [hs]; norm_num [F32.toRat]
    · rw [hs]
    · rw [hs]; rfl
    · rw [hs]
      have hv : F32.round false 45 100 = F32.finite false 7549747 (-24) := by decide
      simp only [hv, F32.toRat]
      norm_num
    · rw [hs]
  · intro showF32 model_path backend_config self env cls k hs hold hreg hok
    obtain ⟨o, ho, hr, hs2⟩ := @init_scenarioD_uninitialized showF32 model_path _ _ _ _ _
      hs hold hreg hok
    refine ⟨o, ho, hr, ?_, ?_, ?_, ?_, ?_⟩
    · rw [hs2]; rfl
    · rw [hs2]; norm_num [F32.toRat]
    · rw [hs2]
    · rw [hs2]
    · rw [hs2]
  · intro showF32 model_path backend_config algo_params self env o st hs h hret
    obtain ⟨_, hc, hn, hw, hh, _⟩ := init_spec hs h hret
    exact ⟨fun negative ds => present negative ds hw, fun negative ds => present negative ds hh,
      absent hc, absent hn, absent hw, absent hh⟩

/-- C20 (amended) at concrete inputs: Scenario D with the table of the static
registrations (whose `kTensorRT` entry creates a `TensorRTBackend`), on a
freshly constructed plugin and on an uninitialised plugin that holds the NMS
threshold of "0.3" and the input height 111; and the numeral "320" read by
`std::stoi`. -/
theorem C20_init_parses_numeric_parameters_witness :
    (∃ o : PluginOutcome YOLOv8Plugin Status,
      YOLOv8Plugin.init (fun _ => "") "/path/to/yolov8.engine" trt_config scenarioD_params
        YOLOv8Plugin.ctor.1
        { world := World.initial
          factory := (staticRegistration BackendType.kUnknown World.initial).1 } = some o ∧
      o.ret = Ret.value Status.OK ∧
      o.self.conf_threshold_.toRat = some (1 / 2) ∧
      o.self.input_width_ = 320 ∧
      o.self.nms_threshold_.toRat = some (7549747 / 16777216) ∧
      o.self.input_height_ = 640) ∧
    (∃ o : PluginOutcome YOLOv8Plugin Status,
      YOLOv8Plugin.init (fun _ => "") "/path/to/yolov8.engine" trt_config scenarioD_params
        { initialized_ := false
          backend_ := none
          model_path_ := "/path/to/yolov8.engine"
          conf_threshold_ := F32.finite false 1 (-2)
          nms_threshold_ := F32.finite false 5033165 (-24)
          input_width_ := 640
          input_height_ := 111 }
        { world := World.initial
          factory := (staticRegistration BackendType.kUnknown World.initial).1 } = some o ∧
      o.ret = Ret.value Status.OK ∧
      o.self.conf_threshold_.toRat = some (1 / 2) ∧
      o.self.input_width_ = 320 ∧
      o.self.nms_threshold_ = F32.finite false 5033165 (-24) ∧
      o.self.input_height_ = 111) ∧
    stoi (decimalString false [3, 2, 0]) = Ret.value (decimalInt false [3, 2, 0]) ∧
    decimalString false [3, 2, 0] = "320" ∧ decimalInt false [3, 2, 0] = 320 :=
  ⟨(C20_init_parses_numeric_parameters.1 (fun _ => "") "/path/to/yolov8.engine" trt_config
      { world := World.initial
        factory := (staticRegistration BackendType.kUnknown World.initial).1 }
      TensorRTBackend.cls TensorRTBackend.ctor rfl rfl).elim
     (fun o h => ⟨o, h.1, h.2.1, h.2.2.2.1, h.2.2.2.2.1, h.2.2.2.2.2.2.1, h.2.2.2.2.2.2.2⟩),
   (C20_init_parses_numeric_parameters.2.1 (fun _ => "") "/path/to/yolov8.engine" trt_config
      { initialized_ := false
        backend_ := none
        model_path_ := "/path/to/yolov8.engine"
        conf_threshold_ := F32.finite false 1 (-2)
        nms_threshold_ := F32.finite false 5033165 (-24)
        input_width_ := 640
        input_height_ := 111 }
      { world := World.initial
        factory := (staticRegistration BackendType.kUnknown World.initial).1 }
      TensorRTBackend.cls TensorRTBackend.ctor rfl (by simp) rfl rfl).elim
     (fun o h => ⟨o, h.1, h.2.1, h.2.2.2.1, h.2.2.2.2.1, h.2.2.2.2.2.1, h.2.2.2.2.2.2⟩),
   C20_init_parses_numeric_parameters.2.2.1 false [3, 2, 0] (by decide) (by decide) (by decide)
     (by decide),
   by decide, by decide⟩

/-! ## The operating-system loader and the two plugin loaders -/

theorem closes_append (a b : List SysEvent) : closes (a ++ b) = closes a ++ closes b := by
  induction a with
  | nil => rfl
  | cons e rest ih => cases e <;> simp [closes, ih]

section OsLemmas

variable {M : Type u}

theorem Os.closes_record_dlclose (os : Os M) (h : Handle) :
    closes (os.record (SysEvent.dlclose h)).trace = closes os.trace ++ [h] := by
  simp [Os.record, closes_append, closes]

theorem Os.closes_record_destroyed (os : Os M) (p : Addr) :
    closes (os.record (SysEvent.destroyed p)).trace = closes os.trace := by
  simp [Os.record, closes_append, closes]

theorem Os.trace_enter (os : Os M) : os.enter.trace = os.trace := by
  unfold Os.enter; split <;> rfl

theorem Os.closes_dlopen (path : String) (os : Os M) :
    closes (os.dlopen path).2.trace = closes os.trace := by
  unfold Os.dlopen
  split <;> simp [Os.record, closes_append, closes, Os.trace_enter]

theorem Os.trace_dlsym {α : Type u} (sel : M → Option α) (name : String) (h : Handle)
    (os : Os M) : (os.dlsym sel name h).2.trace = os.trace := by
  unfold Os.dlsym
  split
  · simp [Os.trace_enter]
  · split <;> simp [Os.trace_enter]

theorem Os.closes_dlclose (h : Handle) (os : Os M) :
    closes (os.dlclose h).trace = closes os.trace ++ [h] := by
  unfold Os.dlclose
  split <;> simp [Os.record, closes_append, closes, Os.trace_enter]

end OsLemmas

theorem Host.closes_release (p : Addr) (host : Host) :
    closes (host.release p).os.trace = closes host.os.trace := by
  unfold Host.release
  split
  · rfl
  · split
    · exact Os.closes_record_destroyed _ _
    · rfl

theorem Host.closes_releasePtr (p : Option Addr) (host : Host) :
    closes (host.releasePtr p).os.trace = closes host.os.trace := by
  cases p with
  | none => rfl
  | some a => exact Host.closes_release a host

theorem Host.closes_closeHandle (d : Option Handle) (host : Host) :
    closes (Host.closeHandle d host).os.trace = closes host.os.trace ++ d.toList := by
  cases d with
  | none => simp [Host.closeHandle]
  | some h => simp [Host.closeHandle, Os.closes_dlclose]

theorem CHost.closes_closeHandle_flat {σ : Type} (d : Option Handle) (host : CHost σ) :
    closes (CHost.closeHandle d host).os.trace = closes host.os.trace ++ d.toList := by
  cases d with
  | none => simp [CHost.closeHandle]
  | some h => simp [CHost.closeHandle, Os.closes_dlclose]

theorem PluginLoader.closes_unloadEntries (es : List (String × PluginLoader.PluginHandle))
    (host : Host) :
    closes (PluginLoader.unloadEntries es host).os.trace =
      closes host.os.trace ++ es.filterMap (fun e => e.2.dl_handle) := by
  induction es generalizing host with
  | nil => simp [PluginLoader.unloadEntries]
  | cons e rest ih =>
    simp only [PluginLoader.unloadEntries, ih, Host.closes_closeHandle, Host.closes_releasePtr,
      List.filterMap_cons]
    cases e.2.dl_handle <;> simp

theorem PluginLoaderC.closes_unloadEntries_flat {σ : Type}
    (es : List (String × PluginLoaderC.PluginHandle σ)) (host : CHost σ) :
    closes (PluginLoaderC.unloadEntries es host).os.trace =
      closes host.os.trace ++ es.filterMap (fun e => e.2.dl_handle) := by
  induction es generalizing host with
  | nil => simp [PluginLoaderC.unloadEntries]
  | cons e rest ih =>
    simp only [PluginLoaderC.unloadEntries, ih, CHost.closes_closeHandle_flat, List.filterMap_cons]
    cases e.2.dl_handle <;> simp

theorem StdMap.find_eq_none_of_not_mem_keys {K : Type} {V : Type u} [LinearOrder K]
    (m : StdMap K V) (k : K) (h : k ∉ m.keys) : m.find k = none := by
  by_contra hc
  exact h ((m.mem_keys_iff k).2 hc)

/-- C14: for a name that is not a key of the table, `unloadPlugin` of
`PluginLoader` returns false, leaves the table, the operating system (so no
`dlclose`) and the plugin instances as they were, and only logs a warning; and
`unloadPlugin` of `PluginLoaderC` returns false and changes nothing at all. -/
theorem C14_unload_unknown_name_is_refused :
    (∀ (plugin_name : String) (self : PluginLoader) (host : Host),
      plugin_name ∉ self.getLoadedPlugins →
      (PluginLoader.unloadPlugin plugin_name self host).ret = false ∧
      (PluginLoader.unloadPlugin plugin_name self host).self = self ∧
      (PluginLoader.unloadPlugin plugin_name self host).host =
        host.logMsg LogLevel.warn ("Plugin not found: " ++ plugin_name) ∧
      (PluginLoader.unloadPlugin plugin_name self host).host.os = host.os ∧
      (PluginLoader.unloadPlugin plugin_name self host).host.side.plugins = host.side.plugins) ∧
    (∀ (σ : Type) (plugin_name : String) (self : PluginLoaderC σ) (host : CHost σ),
      plugin_name ∉ self.getLoadedPlugins →
      PluginLoaderC.unloadPlugin plugin_name self host =
        { ret := false, self := self, host := host }) := by
  constructor
  · intro plugin_name self host h
    have hf := StdMap.find_eq_none_of_not_mem_keys _ _ h
    simp [PluginLoader.unloadPlugin, hf, Host.logMsg]
  · intro σ plugin_name self host h
    have hf := StdMap.find_eq_none_of_not_mem_keys _ _ h
    simp [PluginLoaderC.unloadPlugin, hf]

/-- C14 at concrete inputs: unloading "YOLOv8" from a loader with an empty
table, in the test process. -/
theorem C14_unload_unknown_name_is_refused_witness :
    (PluginLoader.unloadPlugin "YOLOv8" PluginLoader.ctor (testHost (yolov8PluginModule (fun _ => "")))).ret = false ∧
    (PluginLoader.unloadPlugin "YOLOv8" PluginLoader.ctor (testHost (yolov8PluginModule (fun _ => "")))).host.os =
      (testHost (yolov8PluginModule (fun _ => ""))).os ∧
    PluginLoaderC.unloadPlugin "YOLOv8" PluginLoaderC.ctor (testCHost stubCModule) =
      { ret := false, self := PluginLoaderC.ctor, host := testCHost stubCModule } :=
  ⟨(C14_unload_unknown_name_is_refused.1 "YOLOv8" PluginLoader.ctor (testHost (yolov8PluginModule (fun _ => "")))
      (by simp [PluginLoader.getLoadedPlugins, PluginLoader.ctor, StdMap.keys, StdMap.empty])).1,
   (C14_unload_unknown_name_is_refused.1 "YOLOv8" PluginLoader.ctor (testHost (yolov8PluginModule (fun _ => "")))
      (by simp [PluginLoader.getLoadedPlugins, PluginLoader.ctor, StdMap.keys,
        StdMap.empty])).2.2.2.1,
   C14_unload_unknown_name_is_refused.2 Unit "YOLOv8" PluginLoaderC.ctor (testCHost stubCModule)
     (by simp [PluginLoaderC.getLoadedPlugins, PluginLoaderC.ctor, StdMap.keys, StdMap.empty])⟩

/-- C15: `unloadAll()` of either loader leaves a table with no key, in which
`getPlugin` (or `getPluginInfo`) finds nothing under any name; the handles it
passed to `dlclose` are exactly the non-null handles stored in the entries, one
call per entry, in the order of the table.  A second `unloadAll()` right after
finds the table empty again and changes nothing in the process except for its
log line: it calls neither `dlclose` nor any destructor. -/
theorem C15_unloadAll_empties_and_is_idempotent :
    (∀ (self : PluginLoader) (host : Host),
      (PluginLoader.unloadAll self host).1.getLoadedPlugins = [] ∧
      (∀ (plugin_name : String) (h : Host),
        PluginLoader.getPlugin plugin_name (PluginLoader.unloadAll self host).1 h = (none, h)) ∧
      closes (PluginLoader.unloadAll self host).2.os.trace =
        closes host.os.trace ++
          self.loaded_plugins_.entries.filterMap (fun e => e.2.dl_handle) ∧
      (PluginLoader.unloadAll (PluginLoader.unloadAll self host).1
          (PluginLoader.unloadAll self host).2).1.getLoadedPlugins = [] ∧
      (PluginLoader.unloadAll (PluginLoader.unloadAll self host).1
          (PluginLoader.unloadAll self host).2).2 =
        (PluginLoader.unloadAll self host).2.logMsg LogLevel.info "All plugins unloaded") ∧
    (∀ (σ : Type) (self : PluginLoaderC σ) (host : CHost σ),
      (PluginLoaderC.unloadAll self host).self.getLoadedPlugins = [] ∧
      (∀ (plugin_name : String) (h : CHost σ),
        PluginLoaderC.getPluginInfo plugin_name (PluginLoaderC.unloadAll self host).self h =
          some { ret := none, self := (PluginLoaderC.unloadAll self host).self, host := h }) ∧
      closes (PluginLoaderC.unloadAll self host).host.os.trace =
        closes host.os.trace ++
          self.loaded_plugins_.entries.filterMap (fun e => e.2.dl_handle) ∧
      (PluginLoaderC.unloadAll (PluginLoaderC.unloadAll self host).self
          (PluginLoaderC.unloadAll self host).host).self.getLoadedPlugins = [] ∧
      (PluginLoaderC.unloadAll (PluginLoaderC.unloadAll self host).self
          (PluginLoaderC.unloadAll self host).host).host =
        (PluginLoaderC.unloadAll self host).host.logMsg LogLevel.info "All plugins unloaded") := by
  constructor
  · intro self host
    refine ⟨rfl, fun plugin_name h => rfl, ?_, rfl, rfl⟩
    simp only [PluginLoader.unloadAll, Host.logMsg]
    exact PluginLoader.closes_unloadEntries _ _
  · intro σ self host
    refine ⟨rfl, fun plugin_name h => rfl, ?_, rfl, rfl⟩
    simp only [PluginLoaderC.unloadAll, CHost.logMsg]
    exact PluginLoaderC.closes_unloadEntries_flat _ _

section OsFieldLemmas

variable {M : Type u}

@[simp] theorem Os.enter_mapped (os : Os M) : os.enter.mapped = os.mapped := by
  unfold Os.enter; split <;> rfl

@[simp] theorem Os.enter_library (os : Os M) : os.enter.library = os.library := by
  unfold Os.enter; split <;> rfl

@[simp] theorem Os.enter_openCount (os : Os M) : os.enter.openCount = os.openCount := by
  unfold Os.enter; split <;> rfl

@[simp] theorem Os.enter_fileExists (os : Os M) : os.enter.fileExists = os.fileExists := by
  unfold Os.enter; split <;> rfl

@[simp] theorem Os.enter_stickyError (os : Os M) : os.enter.stickyError = os.stickyError := by
  unfold Os.enter; split <;> rfl

@[simp] theorem Os.enter_trace (os : Os M) : os.enter.trace = os.trace := Os.trace_enter os

theorem Os.enter_error_of_none (os : Os M) (h : os.error = none) : os.enter.error = none := by
  unfold Os.enter; split
  · exact h
  · rfl

theorem Os.dlopen_fst (path : String) (os : Os M) :
    (os.dlopen path).1 = (os.library path).map Prod.fst := by
  unfold Os.dlopen
  split <;> simp [*]

theorem Os.dlopen_mapped {path : String} {os : Os M} {h : Handle} {m : M}
    (hl : os.library path = some (h, m)) : (os.dlopen path).2.mapped h = some m := by
  simp [Os.dlopen, hl, Os.record]

theorem Os.dlopen_error_of_none {path : String} {os : Os M} (hl : os.library path = none) :
    (os.dlopen path).2.error ≠ none := by
  simp [Os.dlopen, hl, Os.record]

theorem Os.dlsym_fst {α : Type u} (sel : M → Option α) (name : String) {h : Handle} {os : Os M}
    {m : M} (hm : os.mapped h = some m) : (os.dlsym sel name h).1 = sel m := by
  unfold Os.dlsym
  simp only [hm]
  split <;> simp [*]

@[simp] theorem Os.dlsym_mapped {α : Type u} (sel : M → Option α) (name : String) (h : Handle)
    (os : Os M) : (os.dlsym sel name h).2.mapped = os.mapped := by
  unfold Os.dlsym
  split
  · simp
  · split <;> simp

theorem Os.dlsym_error_of_fst_none {α : Type u} (sel : M → Option α) (name : String)
    (h : Handle) (os : Os M) (hn : (os.dlsym sel name h).1 = none) :
    (os.dlsym sel name h).2.error ≠ none := by
  unfold Os.dlsym at hn ⊢
  cases hm : os.mapped h with
  | none => simp
  | some m =>
    cases hsel : sel m with
    | none => simp [hsel]
    | some f => simp [hm, hsel] at hn

theorem Os.dlsym_error_of_none {α : Type u} (sel : M → Option α) (name : String)
    (h : Handle) (os : Os M) (he : os.error = none) (hs : (os.dlsym sel name h).1 ≠ none) :
    (os.dlsym sel name h).2.error = none := by
  unfold Os.dlsym at hs ⊢
  cases hm : os.mapped h with
  | none => simp [hm] at hs
  | some m =>
    cases hsel : sel m with
    | none => simp [hm, hsel] at hs
    | some f =>
      simp only [hsel]
      exact Os.enter_error_of_none os he

@[simp] theorem Os.dlerror_trace (os : Os M) : os.dlerror.2.trace = os.trace := rfl

@[simp] theorem Os.dlerror_mapped (os : Os M) : os.dlerror.2.mapped = os.mapped := rfl

@[simp] theorem Os.dlerror_error (os : Os M) : os.dlerror.2.error = none := rfl

@[simp] theorem Os.dlerror_fst (os : Os M) : os.dlerror.1 = os.error := rfl

@[simp] theorem Os.dlsym_openCount {M : Type u} {α : Type u} (sel : M → Option α)
    (name : String) (h : Handle) (os : Os M) :
    (os.dlsym sel name h).2.openCount = os.openCount := by
  unfold Os.dlsym
  split
  · simp
  · split <;> simp

@[simp] theorem Os.dlerror_openCount {M : Type u} (os : Os M) :
    os.dlerror.2.openCount = os.openCount := rfl

end OsFieldLemmas

theorem PluginLoader.getCreateFunction_spec {dl_handle : Handle} {host : Host} {m : PluginModule}
    (hm : host.os.mapped dl_handle = some m) :
    (PluginLoader.getCreateFunction dl_handle host).1 = m.createAlgoPlugin ∧
    (PluginLoader.getCreateFunction dl_handle host).2.os.trace = host.os.trace ∧
    (PluginLoader.getCreateFunction dl_handle host).2.side.plugins = host.side.plugins ∧
    (PluginLoader.getCreateFunction dl_handle host).2.side.pnext = host.side.pnext ∧
    (m.createAlgoPlugin ≠ none →
      (PluginLoader.getCreateFunction dl_handle host).2.side = host.side) ∧
    (PluginLoader.getCreateFunction dl_handle host).2.os.openCount = host.os.openCount := by
  have hm1 : host.os.dlerror.2.mapped dl_handle = some m := hm
  have hv := Os.dlsym_fst PluginModule.createAlgoPlugin "createAlgoPlugin" hm1
  cases hc : m.createAlgoPlugin with
  | none =>
    have he := Os.dlsym_error_of_fst_none PluginModule.createAlgoPlugin "createAlgoPlugin"
      dl_handle host.os.dlerror.2 (by rw [hv, hc])
    obtain ⟨msg, hmsg⟩ := Option.ne_none_iff_exists'.mp he
    simp [PluginLoader.getCreateFunction, hmsg, Host.logMsg, Os.trace_dlsym]
  | some f =>
    have he := Os.dlsym_error_of_none PluginModule.createAlgoPlugin "createAlgoPlugin"
      dl_handle host.os.dlerror.2 rfl (by rw [hv, hc]; simp)
    simp [PluginLoader.getCreateFunction, he, hv, hc, Os.trace_dlsym]

theorem Os.dlopen_trace_of_library {M : Type u} {path : String} {os : Os M} {h : Handle} {m : M}
    (hl : os.library path = some (h, m)) :
    (os.dlopen path).2.trace = os.trace ++ [SysEvent.dlopen path (some h)] := by
  simp [Os.dlopen, hl, Os.record]

@[simp] theorem Host.logMsg_os (host : Host) (level : LogLevel) (text : String) :
    (host.logMsg level text).os = host.os := rfl

@[simp] theorem Host.logMsg_plugins (host : Host) (level : LogLevel) (text : String) :
    (host.logMsg level text).side.plugins = host.side.plugins := rfl

@[simp] theorem Host.logMsg_pnext (host : Host) (level : LogLevel) (text : String) :
    (host.logMsg level text).side.pnext = host.side.pnext := rfl

theorem Os.dlclose_trace {M : Type u} (h : Handle) (os : Os M) :
    (os.dlclose h).trace = os.trace ++ [SysEvent.dlclose h] := by
  unfold Os.dlclose
  split <;> simp [Os.record]

@[simp] theorem Host.closeHandle_some_trace (h : Handle) (host : Host) :
    (Host.closeHandle (some h) host).os.trace = host.os.trace ++ [SysEvent.dlclose h] := by
  simp [Host.closeHandle, Os.dlclose_trace]

@[simp] theorem Host.closeHandle_side (d : Option Handle) (host : Host) :
    (Host.closeHandle d host).side = host.side := by
  cases d <;> rfl

theorem PluginLoader.loadPlugin_open_failed {plugin_path : String} {self : PluginLoader}
    {host : Host} (hl : host.os.library plugin_path = none) :
    ∃ out : Loaded (Option Addr),
      PluginLoader.loadPlugin plugin_path self host = some out ∧
      out.ret = Ret.value none ∧ out.self = self ∧
      out.host.os.trace = host.os.trace ++ [SysEvent.dlopen plugin_path none] ∧
      out.host.side.plugins = host.side.plugins := by
  have ho : ((host.logMsg LogLevel.info ("Loading plugin from: " ++ plugin_path)).os.dlopen
      plugin_path).1 = none := by
    rw [Os.dlopen_fst]; simp [hl]
  simp only [PluginLoader.loadPlugin, ho]
  refine ⟨_, rfl, rfl, rfl, ?_, rfl⟩
  simp [Os.dlopen, hl, Os.record]

/-- The state in which `loadPlugin` calls the factory, when the library opens
and exports the symbol. -/
theorem PluginLoader.loadPlugin_opened {plugin_path : String} (self : PluginLoader)
    {host : Host} {h : Handle} {m : PluginModule}
    (hl : host.os.library plugin_path = some (h, m)) :
    ∃ g : Host,
      g.os.trace = host.os.trace ++ [SysEvent.dlopen plugin_path (some h)] ∧
      g.side.plugins = host.side.plugins ∧ g.side.pnext = host.side.pnext ∧
      g.os.openCount = Function.update host.os.openCount h (host.os.openCount h + 1) ∧
      (m.createAlgoPlugin ≠ none →
        g.side = (host.logMsg LogLevel.info ("Loading plugin from: " ++ plugin_path)).side) ∧
      PluginLoader.loadPlugin plugin_path self host =
        (match m.createAlgoPlugin with
         | none =>
           some { ret := Ret.value none
                  self := self
                  host := Host.closeHandle (some h)
                    (g.logMsg LogLevel.err
                      ("Failed to find createAlgoPlugin function in " ++ plugin_path)) }
         | some create_func =>
           match (create_func g.side).1 with
           | Ret.threw e =>
             some (PluginLoader.loadPluginCatch e h self { g with side := (create_func g.side).2 })
           | Ret.value none =>
             some { ret := Ret.value none
                    self := self
                    host := Host.closeHandle (some h)
                      (({ g with side := (create_func g.side).2 } : Host).logMsg LogLevel.err
                        "createAlgoPlugin returned nullptr") }
           | Ret.value (some plugin) =>
             match ({ g with side := (create_func g.side).2 } : Host).callGetInfo plugin with
             | none => none
             | some (Ret.threw e) =>
               some (PluginLoader.loadPluginCatch e h self
                 (({ g with side := (create_func g.side).2 } : Host).release plugin))
             | some (Ret.value info) =>
               some { ret := Ret.value (some plugin)
                      self := { loaded_plugins_ := self.loaded_plugins_.assign info.name
                                  { dl_handle := some h, instance_ := some plugin,
                                    path := plugin_path } }
                      host := match self.loaded_plugins_.find info.name with
                        | none =>
                          ((({ g with side := (create_func g.side).2 } : Host).logMsg LogLevel.info
                            ("Plugin loaded successfully: " ++ info.name ++ " v" ++
                              info.version)).share plugin)
                        | some old =>
                          ((({ g with side := (create_func g.side).2 } : Host).logMsg LogLevel.info
                            ("Plugin loaded successfully: " ++ info.name ++ " v" ++
                              info.version)).share plugin).releasePtr old.instance_ }) := by
  have hl1 : (host.logMsg LogLevel.info ("Loading plugin from: " ++ plugin_path)).os.library
      plugin_path = some (h, m) := hl
  have ho : ((host.logMsg LogLevel.info ("Loading plugin from: " ++ plugin_path)).os.dlopen
      plugin_path).1 = some h := by
    rw [Os.dlopen_fst]; simp [hl]
  obtain ⟨hg1, hg2, hg3, hg4, hg5, hg6⟩ := @PluginLoader.getCreateFunction_spec h
    ⟨(host.logMsg LogLevel.info ("Loading plugin from: " ++ plugin_path)).side,
      ((host.logMsg LogLevel.info ("Loading plugin from: " ++ plugin_path)).os.dlopen
        plugin_path).2⟩ _ (Os.dlopen_mapped hl1)
  refine ⟨_, ?_, hg3, hg4, ?_, hg5, ?_⟩
  · rw [hg2]
    exact Os.dlopen_trace_of_library hl1
  · rw [hg6]
    simp [Os.dlopen, hl, Os.record]
  · simp only [PluginLoader.loadPlugin, ho, hg1]

theorem closes_dlopen_event (t : List SysEvent) (path : String) (r : Option Handle) :
    closes (t ++ [SysEvent.dlopen path r]) = closes t := by
  simp [closes_append, closes]

/-- C11 (counterexample): in the test process with a library whose factory
throws an object not derived from `std::exception`, `loadPlugin` does not
return: the exception leaves it, and the library that was opened has not been
closed (no `dlclose` call, open count still 1). -/
theorem C11_counterexample_non_std_exception_escapes :
    ∃ out : Loaded (Option Addr),
      PluginLoader.loadPlugin plugin_path PluginLoader.ctor (testHost throwingModule) = some out ∧
      out.ret = Ret.threw Exception.non_std ∧
      out.ret ≠ Ret.value none ∧
      out.host.os.trace = [SysEvent.dlopen plugin_path (some 1)] ∧
      closes out.host.os.trace = [] ∧
      out.host.os.openCount 1 = 1 :=
  ⟨_, rfl, rfl, by decide, rfl, rfl, rfl⟩

/-- C11 (amended): if `dlopen` fails, `loadPlugin` returns a null pointer, the
table is unchanged and no `dlclose` is called.  If the library opens with
handle `h` and the symbol `createAlgoPlugin` is missing, or the factory
returns a null pointer, or an exception derived from `std::exception` leaves
the factory call or the `getInfo` call, then `loadPlugin` returns a null
pointer, the table is unchanged, and the calls of `dlclose` it made are exactly
one, on `h`. -/
theorem C11_failed_load_returns_absent (plugin_path : String) (self : PluginLoader)
    (host : Host) :
    (host.os.library plugin_path = none →
      ∃ out : Loaded (Option Addr),
        PluginLoader.loadPlugin plugin_path self host = some out ∧
        out.ret = Ret.value none ∧ out.self = self ∧
        out.host.os.trace = host.os.trace ++ [SysEvent.dlopen plugin_path none] ∧
        closes out.host.os.trace = closes host.os.trace) ∧
    (∀ (h : Handle) (m : PluginModule),
      host.os.library plugin_path = some (h, m) →
      (m.createAlgoPlugin = none ∨
       (∃ f side1, m.createAlgoPlugin = some f ∧
          f (host.logMsg LogLevel.info ("Loading plugin from: " ++ plugin_path)).side
            = (Ret.value none, side1)) ∨
       (∃ f e side1, m.createAlgoPlugin = some f ∧
          f (host.logMsg LogLevel.info ("Loading plugin from: " ++ plugin_path)).side
            = (Ret.threw e, side1) ∧ e.isStdException = true) ∨
       (∃ f p side1 obj e, m.createAlgoPlugin = some f ∧
          f (host.logMsg LogLevel.info ("Loading plugin from: " ++ plugin_path)).side
            = (Ret.value (some p), side1) ∧
          side1.plugins p = some obj ∧ obj.cls.getInfo obj.st = Ret.threw e ∧
          e.isStdException = true)) →
      ∃ out : Loaded (Option Addr),
        PluginLoader.loadPlugin plugin_path self host = some out ∧
        out.ret = Ret.value none ∧ out.self = self ∧
        closes out.host.os.trace = closes host.os.trace ++ [h]) := by
  constructor
  · intro hl
    obtain ⟨out, h1, h2, h3, h4, _⟩ := @PluginLoader.loadPlugin_open_failed _ self _ hl
    exact ⟨out, h1, h2, h3, h4, by rw [h4, closes_dlopen_event]⟩
  · intro h m hl hcase
    obtain ⟨g, hg1, _, _, _, hg4, hg5⟩ := PluginLoader.loadPlugin_opened self hl
    have hcl : closes g.os.trace = closes host.os.trace := by rw [hg1, closes_dlopen_event]
    rw [hg5]
    rcases hcase with hc | ⟨f, side1, hc, hf⟩ | ⟨f, e, side1, hc, hf, he⟩ |
      ⟨f, p, side1, obj, e, hc, hf, hp, hi, he⟩
    · simp only [hc]
      exact ⟨_, rfl, rfl, rfl, by simp [closes_append, closes, hcl]⟩
    · rw [← hg4 (by simp [hc])] at hf
      simp only [hc, hf]
      exact ⟨_, rfl, rfl, rfl, by simp [closes_append, closes, hcl]⟩
    · rw [← hg4 (by simp [hc])] at hf
      simp only [hc, hf, PluginLoader.loadPluginCatch, he, if_true]
      exact ⟨_, rfl, rfl, rfl, by simp [closes_append, closes, hcl]⟩
    · rw [← hg4 (by simp [hc])] at hf
      simp only [hc, hf, Host.callGetInfo, hp, hi, PluginLoader.loadPluginCatch, he, if_true]
      exact ⟨_, rfl, rfl, rfl, by simp [closes_append, closes, Host.closes_release, hcl]⟩

/-- C11 (amended) at concrete inputs: in the test process, a path at which
nothing can be opened, and the test path with a library that lacks the symbol
(handle 1, closed once). -/
theorem C11_failed_load_returns_absent_witness :
    (∃ out : Loaded (Option Addr),
      PluginLoader.loadPlugin "/no/such.so" PluginLoader.ctor (testHost emptyModule) = some out ∧
      out.ret = Ret.value none ∧ out.self = PluginLoader.ctor ∧
      out.host.os.trace =
        (testHost emptyModule).os.trace ++ [SysEvent.dlopen "/no/such.so" none] ∧
      closes out.host.os.trace = closes (testHost emptyModule).os.trace) ∧
    (∃ out : Loaded (Option Addr),
      PluginLoader.loadPlugin plugin_path PluginLoader.ctor (testHost emptyModule) = some out ∧
      out.ret = Ret.value none ∧ out.self = PluginLoader.ctor ∧
      closes out.host.os.trace = closes (testHost emptyModule).os.trace ++ [1]) :=
  ⟨(C11_failed_load_returns_absent "/no/such.so" PluginLoader.ctor (testHost emptyModule)).1
      (by simp [testHost, testOs, plugin_path]),
   (C11_failed_load_returns_absent plugin_path PluginLoader.ctor (testHost emptyModule)).2
      1 emptyModule (by simp [testHost, testOs]) (Or.inl rfl)⟩

/-- C12: when the library at the path opens with handle `h`, exports
`createAlgoPlugin`, the factory returns a non-null pointer `p` to a live
instance and `getInfo()` on it returns `info`, then `loadPlugin` returns `p`;
afterwards `getPlugin(info.name)` returns `p`, `getLoadedPlugins()` contains
`info.name`, the entry under that key holds `h`, `p` and the path, the entry of
every other name is as before, and no `dlclose` was called. -/
theorem C12_successful_load_registers_plugin (plugin_path : String) (self : PluginLoader)
    (host : Host) (h : Handle) (m : PluginModule) (f : CreateAlgoPluginFunc) (p : Addr)
    (side1 : PluginSide) (obj : PluginObject) (info : AlgoInfo)
    (hl : host.os.library plugin_path = some (h, m))
    (hc : m.createAlgoPlugin = some f)
    (hf : f (host.logMsg LogLevel.info ("Loading plugin from: " ++ plugin_path)).side
      = (Ret.value (some p), side1))
    (hp : side1.plugins p = some obj)
    (hi : obj.cls.getInfo obj.st = Ret.value info) :
    ∃ out : Loaded (Option Addr),
      PluginLoader.loadPlugin plugin_path self host = some out ∧
      out.ret = Ret.value (some p) ∧
      (PluginLoader.getPlugin info.name out.self out.host).1 = some p ∧
      info.name ∈ out.self.getLoadedPlugins ∧
      out.self.loaded_plugins_.find info.name =
        some { dl_handle := some h, instance_ := some p, path := plugin_path } ∧
      (∀ other : String, other ≠ info.name →
        out.self.loaded_plugins_.find other = self.loaded_plugins_.find other) ∧
      closes out.host.os.trace = closes host.os.trace := by
  obtain ⟨g, hg1, _, _, _, hg4, hg5⟩ := PluginLoader.loadPlugin_opened self hl
  have hcl : closes g.os.trace = closes host.os.trace := by rw [hg1, closes_dlopen_event]
  rw [hg5]
  rw [← hg4 (by simp [hc])] at hf
  simp only [hc, hf, Host.callGetInfo, hp, hi]
  refine ⟨_, rfl, rfl, ?_, ?_, ?_, ?_, ?_⟩
  · simp [PluginLoader.getPlugin, StdMap.find_assign_self]
  · exact (StdMap.mem_keys_iff _ _).2 (by simp [StdMap.find_assign_self])
  · exact StdMap.find_assign_self _ _ _
  · intro other hne
    exact StdMap.find_assign_of_ne _ hne _
  · have hshare : ∀ (x : Host) (a : Addr), (x.share a).os = x.os := by
      intro x a
      unfold Host.share
      split <;> rfl
    simp only []
    split
    · rw [hshare]; exact hcl
    · rw [Host.closes_releasePtr, hshare]; exact hcl

/-- C12 at a concrete input: loading the library of `yolov8_plugin.cc` in the
test process with an empty table returns the instance at address 0, stored
under the key "YOLOv8". -/
theorem C12_successful_load_registers_plugin_witness :
    ∃ out : Loaded (Option Addr),
      PluginLoader.loadPlugin plugin_path PluginLoader.ctor
        (testHost (yolov8PluginModule (fun _ => ""))) = some out ∧
      out.ret = Ret.value (some 0) ∧
      (PluginLoader.getPlugin "YOLOv8" out.self out.host).1 = some 0 ∧
      "YOLOv8" ∈ out.self.getLoadedPlugins ∧
      out.self.loaded_plugins_.find "YOLOv8" =
        some { dl_handle := some 1, instance_ := some 0, path := plugin_path } :=
  (C12_successful_load_registers_plugin plugin_path PluginLoader.ctor
      (testHost (yolov8PluginModule (fun _ => ""))) 1 (yolov8PluginModule (fun _ => ""))
      (makeSharedPlugin (YOLOv8Plugin.cls (fun _ => "")) YOLOv8Plugin.ctor) 0
      ((makeSharedPlugin (YOLOv8Plugin.cls (fun _ => "")) YOLOv8Plugin.ctor)
        ((testHost (yolov8PluginModule (fun _ => ""))).logMsg LogLevel.info
          ("Loading plugin from: " ++ plugin_path)).side).2
      { cls := YOLOv8Plugin.cls (fun _ => ""), st := YOLOv8Plugin.ctor.1, refs := 1 }
      (YOLOv8Plugin.getInfo YOLOv8Plugin.ctor.1)
      (by simp [testHost, testOs]) rfl rfl
      (by simp [makeSharedPlugin, testHost, Host.logMsg]) rfl).elim
    (fun out h => ⟨out, h.1, h.2.1, h.2.2.1, h.2.2.2.1, h.2.2.2.2.1⟩)

/-- The events of `unloadPlugin` on an entry that holds the handle `h` and a
pointer to the live instance `p`: when the entry holds the only reference, the
instance is destroyed and then the library is closed; when another reference
exists, the library is closed and the instance stays alive with one reference
less.  In both cases the entry is removed. -/
theorem PluginLoader.unloadPlugin_events (plugin_name : String) (self : PluginLoader)
    (host : Host) (entry : PluginLoader.PluginHandle) (h : Handle) (p : Addr) (o : PluginObject)
    (hfind : self.loaded_plugins_.find plugin_name = some entry)
    (hh : entry.dl_handle = some h) (hi : entry.instance_ = some p)
    (hp : host.side.plugins p = some o) :
    (PluginLoader.unloadPlugin plugin_name self host).ret = true ∧
    (PluginLoader.unloadPlugin plugin_name self host).self.loaded_plugins_ =
      self.loaded_plugins_.erase plugin_name ∧
    (o.refs ≤ 1 →
      (PluginLoader.unloadPlugin plugin_name self host).host.os.trace =
        host.os.trace ++ [SysEvent.destroyed p, SysEvent.dlclose h] ∧
      (PluginLoader.unloadPlugin plugin_name self host).host.side.plugins p = none) ∧
    (1 < o.refs →
      (PluginLoader.unloadPlugin plugin_name self host).host.os.trace =
        host.os.trace ++ [SysEvent.dlclose h] ∧
      (PluginLoader.unloadPlugin plugin_name self host).host.side.plugins p =
        some { o with refs := o.refs - 1 }) := by
  refine ⟨?_, ?_, ?_, ?_⟩
  · simp only [PluginLoader.unloadPlugin, hfind]
  · simp only [PluginLoader.unloadPlugin, hfind]
  · intro hr
    simp [PluginLoader.unloadPlugin, hfind, hh, hi, Host.releasePtr, Host.release, hp, hr,
      Host.closeHandle, Os.dlclose_trace, Os.record, Host.logMsg]
  · intro hr
    simp [PluginLoader.unloadPlugin, hfind, hh, hi, Host.releasePtr, Host.release, hp,
      Nat.not_le.2 hr, Host.closeHandle, Os.dlclose_trace, Host.logMsg]

/-- C13 (failing input): in the test process, `loadPlugin` of the library of
`yolov8_plugin.cc` on an empty loader returns the instance at address 0, which
then has two references (the table entry and the returned handle).  With the
host still holding the returned handle, `unloadPlugin("YOLOv8")` returns true
and removes the entry, and its events are only the `dlclose` of the library:
the instance is not destroyed, it is still alive with one reference after the
library has been unmapped. -/
theorem C13_instance_outlives_module_when_handle_is_held :
    ∃ loaded : Loaded (Option Addr),
      PluginLoader.loadPlugin plugin_path PluginLoader.ctor
        (testHost (yolov8PluginModule (fun _ => ""))) = some loaded ∧
      loaded.ret = Ret.value (some 0) ∧
      (loaded.host.side.plugins 0).map (fun o => o.refs) = some 2 ∧
      loaded.host.os.mapped 1 = some (yolov8PluginModule (fun _ => "")) ∧
      (PluginLoader.unloadPlugin "YOLOv8" loaded.self loaded.host).ret = true ∧
      (PluginLoader.unloadPlugin "YOLOv8" loaded.self loaded.host).self.getLoadedPlugins = [] ∧
      (PluginLoader.unloadPlugin "YOLOv8" loaded.self loaded.host).host.os.trace =
        [SysEvent.dlopen plugin_path (some 1), SysEvent.dlclose 1] ∧
      SysEvent.destroyed 0 ∉
        (PluginLoader.unloadPlugin "YOLOv8" loaded.self loaded.host).host.os.trace ∧
      ((PluginLoader.unloadPlugin "YOLOv8" loaded.self loaded.host).host.side.plugins 0).map
        (fun o => o.refs) = some 1 ∧
      (PluginLoader.unloadPlugin "YOLOv8" loaded.self loaded.host).host.os.mapped 1 = none :=
by
  have key : ∀ (self : PluginLoader) (host : Host),
      self.loaded_plugins_.entries =
        [("YOLOv8", { dl_handle := some 1, instance_ := some 0, path := plugin_path })] →
      host.side.plugins 0 =
        some { cls := YOLOv8Plugin.cls (fun _ => ""), st := YOLOv8Plugin.ctor.1, refs := 2 } →
      host.os.trace = [SysEvent.dlopen plugin_path (some 1)] →
      host.os.openCount 1 = 1 →
      (PluginLoader.unloadPlugin "YOLOv8" self host).ret = true ∧
      (PluginLoader.unloadPlugin "YOLOv8" self host).self.getLoadedPlugins = [] ∧
      (PluginLoader.unloadPlugin "YOLOv8" self host).host.os.trace =
        [SysEvent.dlopen plugin_path (some 1), SysEvent.dlclose 1] ∧
      SysEvent.destroyed 0 ∉ (PluginLoader.unloadPlugin "YOLOv8" self host).host.os.trace ∧
      ((PluginLoader.unloadPlugin "YOLOv8" self host).host.side.plugins 0).map
        (fun o => o.refs) = some 1 ∧
      (PluginLoader.unloadPlugin "YOLOv8" self host).host.os.mapped 1 = none := by
    intro self host he hp ht hc
    have hfind : self.loaded_plugins_.find "YOLOv8" =
        some { dl_handle := some 1, instance_ := some 0, path := plugin_path } := by
      simp [StdMap.find, he, findList]
    obtain ⟨h1, h2, _, h4⟩ := PluginLoader.unloadPlugin_events "YOLOv8" self host _ 1 0 _
      hfind rfl rfl hp
    obtain ⟨h5, h6⟩ := h4 (by decide)
    refine ⟨h1, ?_, ?_, ?_, ?_, ?_⟩
    · simp [PluginLoader.getLoadedPlugins, StdMap.keys, h2, StdMap.erase, he, eraseList]
    · rw [h5, ht]; rfl
    · rw [h5, ht]; decide
    · rw [h6]; rfl
    · simp [PluginLoader.unloadPlugin, hfind, Host.closeHandle, Host.releasePtr, Host.release,
        hp, Host.logMsg, Os.dlclose, hc, Os.record]
  refine ⟨_, rfl, rfl, rfl, rfl, ?_⟩
  exact key _ _ rfl rfl rfl rfl

section FlatLoaderLemmas

variable {σ : Type}

@[simp] theorem CHost.logMsg_plug (host : CHost σ) (level : LogLevel) (text : String) :
    (host.logMsg level text).plug = host.plug := rfl

@[simp] theorem CHost.logMsg_os_flat (host : CHost σ) (level : LogLevel) (text : String) :
    (host.logMsg level text).os = host.os := rfl

@[simp] theorem CHost.closeHandle_plug (d : Option Handle) (host : CHost σ) :
    (CHost.closeHandle d host).plug = host.plug := by
  cases d <;> rfl

/-- What `loadFunctions` does on a handle that is mapped to the library `m`:
the seven pointers are the seven symbols of `m`, the state of the plugin code
and the recorded events are untouched, and the flag is true only if all seven
symbols are exported. -/
theorem PluginLoaderC.loadFunctions_spec {dl : Handle} (path : String) {host : CHost σ}
    {m : CModule σ} (hm : host.os.mapped dl = some m) :
    (PluginLoaderC.loadFunctions dl path host).2.1 =
      { dl_handle := some dl, path := path, getInfo := m.AlgoGetInfo, create := m.AlgoCreate,
        init := m.AlgoInit, inferDetection := m.AlgoInferDetection, deinit := m.AlgoDeinit,
        destroy := m.AlgoDestroy, freeDetResult := m.AlgoFreeDetResult } ∧
    (PluginLoaderC.loadFunctions dl path host).2.2.plug = host.plug ∧
    (PluginLoaderC.loadFunctions dl path host).2.2.os.trace = host.os.trace ∧
    (PluginLoaderC.loadFunctions dl path host).2.2.os.openCount = host.os.openCount ∧
    ((PluginLoaderC.loadFunctions dl path host).1 = true →
      m.AlgoGetInfo ≠ none ∧ m.AlgoCreate ≠ none ∧ m.AlgoInit ≠ none ∧
      m.AlgoInferDetection ≠ none ∧ m.AlgoDeinit ≠ none ∧ m.AlgoDestroy ≠ none ∧
      m.AlgoFreeDetResult ≠ none) := by
  have h1 := Os.dlsym_fst CModule.AlgoGetInfo "AlgoGetInfo" hm
  have m1 : (host.os.dlsym CModule.AlgoGetInfo "AlgoGetInfo" dl).2.mapped dl = some m := by
    simp [hm]
  have h2 := Os.dlsym_fst CModule.AlgoCreate "AlgoCreate" m1
  have m2 : ((host.os.dlsym CModule.AlgoGetInfo "AlgoGetInfo" dl).2.dlsym
      CModule.AlgoCreate "AlgoCreate" dl).2.mapped dl = some m := by simp [hm]
  have h3 := Os.dlsym_fst CModule.AlgoInit "AlgoInit" m2
  have m3 : (((host.os.dlsym CModule.AlgoGetInfo "AlgoGetInfo" dl).2.dlsym
      CModule.AlgoCreate "AlgoCreate" dl).2.dlsym CModule.AlgoInit "AlgoInit" dl).2.mapped dl
        = some m := by simp [hm]
  have h4 := Os.dlsym_fst CModule.AlgoInferDetection "AlgoInferDetection" m3
  have m4 : ((((host.os.dlsym CModule.AlgoGetInfo "AlgoGetInfo" dl).2.dlsym
      CModule.AlgoCreate "AlgoCreate" dl).2.dlsym CModule.AlgoInit "AlgoInit" dl).2.dlsym
      CModule.AlgoInferDetection "AlgoInferDetection" dl).2.mapped dl = some m := by simp [hm]
  have h5 := Os.dlsym_fst CModule.AlgoDeinit "AlgoDeinit" m4
  have m5 : (((((host.os.dlsym CModule.AlgoGetInfo "AlgoGetInfo" dl).2.dlsym
      CModule.AlgoCreate "AlgoCreate" dl).2.dlsym CModule.AlgoInit "AlgoInit" dl).2.dlsym
      CModule.AlgoInferDetection "AlgoInferDetection" dl).2.dlsym
      CModule.AlgoDeinit "AlgoDeinit" dl).2.mapped dl = some m := by simp [hm]
  have h6 := Os.dlsym_fst CModule.AlgoDestroy "AlgoDestroy" m5
  have m6 : ((((((host.os.dlsym CModule.AlgoGetInfo "AlgoGetInfo" dl).2.dlsym
      CModule.AlgoCreate "AlgoCreate" dl).2.dlsym CModule.AlgoInit "AlgoInit" dl).2.dlsym
      CModule.AlgoInferDetection "AlgoInferDetection" dl).2.dlsym
      CModule.AlgoDeinit "AlgoDeinit" dl).2.dlsym
      CModule.AlgoDestroy "AlgoDestroy" dl).2.mapped dl = some m := by simp [hm]
  have h7 := Os.dlsym_fst CModule.AlgoFreeDetResult "AlgoFreeDetResult" m6
  have he := Os.dlsym_error_of_fst_none CModule.AlgoFreeDetResult "AlgoFreeDetResult" dl
    ((((((host.os.dlsym CModule.AlgoGetInfo "AlgoGetInfo" dl).2.dlsym
      CModule.AlgoCreate "AlgoCreate" dl).2.dlsym CModule.AlgoInit "AlgoInit" dl).2.dlsym
      CModule.AlgoInferDetection "AlgoInferDetection" dl).2.dlsym
      CModule.AlgoDeinit "AlgoDeinit" dl).2.dlsym
      CModule.AlgoDestroy "AlgoDestroy" dl).2
  rw [h7] at he
  unfold PluginLoaderC.loadFunctions
  simp only [h1, h2, h3, h4, h5, h6, h7, Os.dlerror_fst]
  split
  · simp [Os.trace_dlsym]
  · rename_i hnone
    split
    · simp [Os.trace_dlsym]
    · rename_i hif
      simp only [Bool.or_eq_true, Option.isNone_iff_eq_none, not_or] at hif
      refine ⟨rfl, rfl, by simp [Os.trace_dlsym], by simp, fun _ => ?_⟩
      obtain ⟨⟨⟨⟨⟨a1, a2⟩, a3⟩, a4⟩, a5⟩, a6⟩ := hif
      exact ⟨a1, a2, a3, a4, a5, a6, fun h => he h hnone⟩

/-- The handle `loadFunctions` builds for the library `m` opened as `dl`. -/
theorem PluginLoaderC.loadPlugin_opened_flat {plugin_path : String} (self : PluginLoaderC σ)
    {host : CHost σ} {dl : Handle} {m : CModule σ}
    (hf : host.os.fileExists plugin_path = true)
    (hl : host.os.library plugin_path = some (dl, m)) :
    ∃ (b : Bool) (g : CHost σ),
      g.plug = host.plug ∧
      g.os.trace = host.os.trace ++ [SysEvent.dlopen plugin_path (some dl)] ∧
      g.os.openCount = Function.update host.os.openCount dl (host.os.openCount dl + 1) ∧
      (b = true →
        m.AlgoGetInfo ≠ none ∧ m.AlgoCreate ≠ none ∧ m.AlgoInit ≠ none ∧
        m.AlgoInferDetection ≠ none ∧ m.AlgoDeinit ≠ none ∧ m.AlgoDestroy ≠ none ∧
        m.AlgoFreeDetResult ≠ none) ∧
      PluginLoaderC.loadPlugin plugin_path self host =
        (if !b then
          some { ret := false, self := self, host := CHost.closeHandle (some dl) g }
        else
          match m.AlgoGetInfo with
          | none => none
          | some getInfo =>
            match (getInfo host.plug).1 with
            | none =>
              some { ret := false, self := self
                     host := CHost.closeHandle (some dl)
                       (({ g with plug := (getInfo host.plug).2 } : CHost σ).logMsg LogLevel.err
                         "Failed to get plugin info") }
            | some info =>
              some { ret := true
                     self := { loaded_plugins_ := self.loaded_plugins_.assign info.name
                                 { dl_handle := some dl, path := plugin_path,
                                   getInfo := m.AlgoGetInfo, create := m.AlgoCreate,
                                   init := m.AlgoInit, inferDetection := m.AlgoInferDetection,
                                   deinit := m.AlgoDeinit, destroy := m.AlgoDestroy,
                                   freeDetResult := m.AlgoFreeDetResult } }
                     host := ({ g with plug := (getInfo host.plug).2 } : CHost σ).logMsg
                       LogLevel.info
                       ("Plugin loaded successfully: " ++ info.name ++ " v" ++ info.version) }) := by
  have hl1 : (host.logMsg LogLevel.info ("Loading plugin from: " ++ plugin_path)).os.library
      plugin_path = some (dl, m) := hl
  have ho : ((host.logMsg LogLevel.info ("Loading plugin from: " ++ plugin_path)).os.dlopen
      plugin_path).1 = some dl := by
    rw [Os.dlopen_fst]; simp [hl]
  obtain ⟨hs1, hs2, hs3, hs4, hs5⟩ := @PluginLoaderC.loadFunctions_spec σ dl
    plugin_path
    ⟨(host.logMsg LogLevel.info ("Loading plugin from: " ++ plugin_path)).plug,
      (host.logMsg LogLevel.info ("Loading plugin from: " ++ plugin_path)).log,
      ((host.logMsg LogLevel.info ("Loading plugin from: " ++ plugin_path)).os.dlopen
        plugin_path).2⟩ _ (Os.dlopen_mapped hl1)
  replace hs2 : (PluginLoaderC.loadFunctions dl plugin_path
      ⟨(host.logMsg LogLevel.info ("Loading plugin from: " ++ plugin_path)).plug,
       (host.logMsg LogLevel.info ("Loading plugin from: " ++ plugin_path)).log,
       ((host.logMsg LogLevel.info ("Loading plugin from: " ++ plugin_path)).os.dlopen
         plugin_path).2⟩).2.2.plug = host.plug := hs2
  refine ⟨_, _, hs2, ?_, ?_, hs5, ?_⟩
  · rw [hs3]
    exact Os.dlopen_trace_of_library hl1
  · rw [hs4]
    simp [Os.dlopen, hl, Os.record]
  · simp only [PluginLoaderC.loadPlugin, hf, ho, hs1, hs2]
    rfl

end FlatLoaderLemmas

/-- C16: when the file exists and opens as a library with handle `dl` that does
not export at least one of the seven symbols `AlgoGetInfo`, `AlgoCreate`,
`AlgoInit`, `AlgoInferDetection`, `AlgoDeinit`, `AlgoDestroy`,
`AlgoFreeDetResult`, `loadPlugin` of `PluginLoaderC` returns false, the table
is unchanged (so on an empty loader `getLoadedPlugins()` stays empty), no
function of the plugin has run, and the library has been closed again: the
events of the call are the `dlopen` followed by the `dlclose` of `dl`, and the
open count of `dl` is what it was before the call. -/
theorem C16_missing_symbol_fails_load {σ : Type} (plugin_path : String)
    (self : PluginLoaderC σ) (host : CHost σ) (dl : Handle) (m : CModule σ)
    (hf : host.os.fileExists plugin_path = true)
    (hl : host.os.library plugin_path = some (dl, m))
    (hmiss : m.AlgoGetInfo = none ∨ m.AlgoCreate = none ∨ m.AlgoInit = none ∨
      m.AlgoInferDetection = none ∨ m.AlgoDeinit = none ∨ m.AlgoDestroy = none ∨
      m.AlgoFreeDetResult = none) :
    ∃ out : CLoaded σ Bool,
      PluginLoaderC.loadPlugin plugin_path self host = some out ∧
      out.ret = false ∧
      out.self = self ∧
      out.self.getLoadedPlugins = self.getLoadedPlugins ∧
      (self.getLoadedPlugins = [] → out.self.getLoadedPlugins = []) ∧
      out.host.plug = host.plug ∧
      out.host.os.trace =
        host.os.trace ++ [SysEvent.dlopen plugin_path (some dl), SysEvent.dlclose dl] ∧
      closes out.host.os.trace = closes host.os.trace ++ [dl] ∧
      out.host.os.openCount dl = host.os.openCount dl := by
  obtain ⟨b, g, hg1, hg2, hg3, hg4, hg5⟩ := PluginLoaderC.loadPlugin_opened_flat self hf hl
  have hb : b = false := by
    cases b with
    | false => rfl
    | true =>
      obtain ⟨a1, a2, a3, a4, a5, a6, a7⟩ := hg4 rfl
      rcases hmiss with h | h | h | h | h | h | h <;> contradiction
  subst hb
  rw [hg5]
  refine ⟨_, rfl, rfl, rfl, rfl, fun h => h, ?_, ?_, ?_, ?_⟩
  · simp [hg1]
  · simp [CHost.closeHandle, Os.dlclose_trace, hg2]
  · simp [CHost.closeHandle, Os.dlclose_trace, hg2, closes_append, closes]
  · simp [CHost.closeHandle, Os.dlclose, hg3, Os.record]

/-- C16 at a concrete input (Scenario C): the stub library without `AlgoDeinit`,
loaded on an empty loader, gives false, an empty list of loaded plugins, and
one `dlclose` of handle 1. -/
theorem C16_missing_symbol_fails_load_witness :
    ∃ out : CLoaded Unit Bool,
      PluginLoaderC.loadPlugin plugin_path PluginLoaderC.ctor
        (testCHost { stubCModule with AlgoDeinit := none }) = some out ∧
      out.ret = false ∧
      out.self.getLoadedPlugins = [] ∧
      out.host.os.trace = [SysEvent.dlopen plugin_path (some 1), SysEvent.dlclose 1] ∧
      closes out.host.os.trace = [1] ∧
      out.host.os.openCount 1 = 0 :=
  (C16_missing_symbol_fails_load plugin_path PluginLoaderC.ctor
      (testCHost { stubCModule with AlgoDeinit := none }) 1
      { stubCModule with AlgoDeinit := none }
      (by simp [testCHost]) (by simp [testCHost])
      (Or.inr (Or.inr (Or.inr (Or.inr (Or.inl rfl)))))).elim
    (fun out h => ⟨out, h.1, h.2.1, h.2.2.2.2.1 rfl, h.2.2.2.2.2.2.1, h.2.2.2.2.2.2.2.1,
      h.2.2.2.2.2.2.2.2⟩)

section FlatLoaderRuns

variable {σ : Type}

theorem mem_assignList {K : Type} {V : Type u} [LinearOrder K] (k : K) (v : V)
    (l : List (K × V)) (e : K × V) (he : e ∈ assignList k v l) : e = (k, v) ∨ e ∈ l := by
  induction l with
  | nil => simp [assignList] at he; exact Or.inl he
  | cons a rest ih =>
    simp only [assignList] at he
    split_ifs at he with h1 h2
    · simpa using he
    · simp only [List.mem_cons] at he ⊢
      rcases he with he | he
      · exact Or.inl he
      · exact Or.inr (Or.inr he)
    · simp only [List.mem_cons] at he ⊢
      rcases he with he | he
      · exact Or.inr (Or.inl he)
      · rcases ih he with h | h
        · exact Or.inl h
        · exact Or.inr (Or.inr h)

theorem mem_of_mem_eraseList {K : Type} {V : Type u} [LinearOrder K] (k : K)
    (l : List (K × V)) (e : K × V) (he : e ∈ eraseList k l) : e ∈ l := by
  induction l with
  | nil => simp [eraseList] at he
  | cons a rest ih =>
    simp only [eraseList] at he
    split_ifs at he with h1
    · exact List.mem_cons_of_mem _ he
    · simp only [List.mem_cons] at he ⊢
      rcases he with he | he
      · exact Or.inl he
      · exact Or.inr (ih he)

theorem mem_of_findList {K : Type} {V : Type u} [LinearOrder K] (k : K) (v : V)
    (l : List (K × V)) (h : findList k l = some v) : (k, v) ∈ l := by
  induction l with
  | nil => simp [findList] at h
  | cons a rest ih =>
    simp only [findList] at h
    split_ifs at h with h1
    · simp only [Option.some.injEq] at h
      simp [h1, ← h]
    · exact List.mem_cons_of_mem _ (ih h)

/-- Every call of `loadPlugin` returns; it either leaves the table as it was,
or it returns true after opening a library that exports all seven symbols and
whose `AlgoGetInfo`, called in the state of the plugin code at the time of the
call, reported `info`, and it has stored the seven symbols under `info.name`. -/
theorem PluginLoaderC.loadPlugin_total (plugin_path : String) (self : PluginLoaderC σ)
    (host : CHost σ) :
    ∃ out : CLoaded σ Bool,
      PluginLoaderC.loadPlugin plugin_path self host = some out ∧
      (out.self = self ∨
       ∃ (dl : Handle) (m : CModule σ) (g : σ → Option Abi.AlgoInfo × σ) (info : Abi.AlgoInfo),
         host.os.library plugin_path = some (dl, m) ∧
         (m.AlgoGetInfo ≠ none ∧ m.AlgoCreate ≠ none ∧ m.AlgoInit ≠ none ∧
          m.AlgoInferDetection ≠ none ∧ m.AlgoDeinit ≠ none ∧ m.AlgoDestroy ≠ none ∧
          m.AlgoFreeDetResult ≠ none) ∧
         m.AlgoGetInfo = some g ∧ (g host.plug).1 = some info ∧
         out.ret = true ∧
         out.self.loaded_plugins_ = self.loaded_plugins_.assign info.name
           { dl_handle := some dl, path := plugin_path, getInfo := m.AlgoGetInfo,
             create := m.AlgoCreate, init := m.AlgoInit,
             inferDetection := m.AlgoInferDetection, deinit := m.AlgoDeinit,
             destroy := m.AlgoDestroy, freeDetResult := m.AlgoFreeDetResult }) := by
  cases hf : host.os.fileExists plugin_path with
  | false => exact ⟨_, by simp only [PluginLoaderC.loadPlugin, hf]; rfl, Or.inl rfl⟩
  | true =>
    cases hl : host.os.library plugin_path with
    | none =>
      have ho : ((host.logMsg LogLevel.info ("Loading plugin from: " ++ plugin_path)).os.dlopen
          plugin_path).1 = none := by
        rw [Os.dlopen_fst]; simp [hl]
      exact ⟨_, by simp only [PluginLoaderC.loadPlugin, hf, ho]; rfl, Or.inl rfl⟩
    | some lib =>
      obtain ⟨dl, m⟩ := lib
      obtain ⟨b, g, hg1, hg2, hg3, hg4, hg5⟩ := PluginLoaderC.loadPlugin_opened_flat self hf hl
      rw [hg5]
      cases b with
      | false => exact ⟨_, rfl, Or.inl rfl⟩
      | true =>
        have hall := hg4 rfl
        cases hgi : m.AlgoGetInfo with
        | none => exact absurd hgi hall.1
        | some getInfo =>
          cases hinfo : (getInfo host.plug).1 with
          | none => exact ⟨_, by simp only [hinfo]; rfl, Or.inl rfl⟩
          | some info =>
            refine ⟨_, by simp only [hinfo]; rfl, Or.inr ⟨dl, m, getInfo, info, rfl, ?_, hgi,
              hinfo, rfl, ?_⟩⟩
            · exact hall
            · simp only [hgi]

theorem PluginLoaderC.run_snoc (ops : List PluginLoaderC.Op) (op : PluginLoaderC.Op)
    (s : PluginLoaderC σ × CHost σ) :
    PluginLoaderC.run (ops ++ [op]) s =
      match PluginLoaderC.run ops s with
      | none => none
      | some s1 => PluginLoaderC.step op s1 := by
  induction ops generalizing s with
  | nil =>
    simp only [List.nil_append, PluginLoaderC.run]
    cases PluginLoaderC.step op s <;> rfl
  | cons a rest ih =>
    simp only [List.cons_append, PluginLoaderC.run]
    cases PluginLoaderC.step a s with
    | none => rfl
    | some s1 => exact ih s1

/-- The invariant of the table of `PluginLoaderC`: after any sequence of
`loadPlugin`, `unloadPlugin` and `unloadAll` calls on an empty loader (every
such sequence runs to its end), each entry has a module handle and seven
function pointers that are not null, and it was stored by a `loadPlugin` call
of the sequence, on the path it records, under the name its `getInfo` reported
in the state of the plugin code at that call. -/
theorem PluginLoaderC.run_invariant (ops : List PluginLoaderC.Op) (host0 : CHost σ) :
    ∃ s : PluginLoaderC σ × CHost σ,
      PluginLoaderC.run ops (PluginLoaderC.ctor, host0) = some s ∧
      ∀ e ∈ s.1.loaded_plugins_.entries,
        e.2.dl_handle ≠ none ∧ e.2.getInfo ≠ none ∧ e.2.create ≠ none ∧ e.2.init ≠ none ∧
        e.2.inferDetection ≠ none ∧ e.2.deinit ≠ none ∧ e.2.destroy ≠ none ∧
        e.2.freeDetResult ≠ none ∧
        ∃ (pre : List PluginLoaderC.Op) (path : String) (rest : List PluginLoaderC.Op)
          (s1 : PluginLoaderC σ × CHost σ) (g : σ → Option Abi.AlgoInfo × σ)
          (info : Abi.AlgoInfo),
          ops = pre ++ PluginLoaderC.Op.load path :: rest ∧
          PluginLoaderC.run pre (PluginLoaderC.ctor, host0) = some s1 ∧
          e.2.path = path ∧ e.2.getInfo = some g ∧ (g s1.2.plug).1 = some info ∧
          info.name = e.1 := by
  induction ops using List.reverseRecOn with
  | nil =>
    refine ⟨_, rfl, ?_⟩
    intro e he
    simp [PluginLoaderC.ctor, StdMap.empty] at he
  | append_singleton ops op ih =>
    obtain ⟨s, hs, hinv⟩ := ih
    have hold : ∀ e ∈ s.1.loaded_plugins_.entries,
        e.2.dl_handle ≠ none ∧ e.2.getInfo ≠ none ∧ e.2.create ≠ none ∧ e.2.init ≠ none ∧
        e.2.inferDetection ≠ none ∧ e.2.deinit ≠ none ∧ e.2.destroy ≠ none ∧
        e.2.freeDetResult ≠ none ∧
        ∃ (pre : List PluginLoaderC.Op) (path : String) (rest : List PluginLoaderC.Op)
          (s1 : PluginLoaderC σ × CHost σ) (g : σ → Option Abi.AlgoInfo × σ)
          (info : Abi.AlgoInfo),
          ops ++ [op] = pre ++ PluginLoaderC.Op.load path :: rest ∧
          PluginLoaderC.run pre (PluginLoaderC.ctor, host0) = some s1 ∧
          e.2.path = path ∧ e.2.getInfo = some g ∧ (g s1.2.plug).1 = some info ∧
          info.name = e.1 := by
      intro e he
      obtain ⟨a0, a1, a2, a3, a4, a5, a6, a7, pre, path, rest, s1, g, info, h1, h2⟩ := hinv e he
      exact ⟨a0, a1, a2, a3, a4, a5, a6, a7, pre, path, rest ++ [op], s1, g, info,
        by simp [h1], h2⟩
    rw [PluginLoaderC.run_snoc, hs]
    cases op with
    | load plugin_path =>
      obtain ⟨out, hout, hcase⟩ := PluginLoaderC.loadPlugin_total plugin_path s.1 s.2
      simp only [PluginLoaderC.step, hout]
      refine ⟨_, rfl, ?_⟩
      intro e he
      rcases hcase with hself | ⟨dl, m, g, info, hl, hall, hgi, hinfo, hret, htab⟩
      · simp only [hself] at he
        exact hold e he
      · simp only [htab, StdMap.assign] at he
        rcases mem_assignList _ _ _ _ he with heq | hmem
        · subst heq
          exact ⟨by simp, hall.1, hall.2.1, hall.2.2.1, hall.2.2.2.1, hall.2.2.2.2.1,
            hall.2.2.2.2.2.1, hall.2.2.2.2.2.2, ops, plugin_path, [], s, g, info, rfl, hs, rfl,
            hgi, hinfo, rfl⟩
        · exact hold e hmem
    | unload plugin_name =>
      simp only [PluginLoaderC.step]
      refine ⟨_, rfl, ?_⟩
      intro e he
      simp only [PluginLoaderC.unloadPlugin] at he
      split at he
      · exact hold e he
      · exact hold e (mem_of_mem_eraseList _ _ _ he)
    | unloadAll =>
      simp only [PluginLoaderC.step]
      refine ⟨_, rfl, ?_⟩
      intro e he
      simp [PluginLoaderC.unloadAll, StdMap.clear, StdMap.empty] at he

end FlatLoaderRuns

/-- C18: the dispatchers of `PluginLoaderC`.  For a name whose entry is `hdl`,
`createAlgoInstance`, `initAlgo`, `inferDetection`, `deinitAlgo` and
`destroyAlgoInstance` are one call of the function pointer of that entry with
the arguments given: they return what it returns, the process changes only as
that call changes the state of the plugin code, and the loader is unchanged.
For a name without entry no plugin code runs and the loader is unchanged:
`createAlgoInstance` (after one error log line) and `getPluginInfo` return a
null pointer, `initAlgo`, `inferDetection` and `deinitAlgo` return
`ALGO_STATUS_ERROR_INVALID_PARAM`, and `destroyAlgoInstance` does nothing.  In
every table left by a sequence of `loadPlugin`, `unloadPlugin` and `unloadAll`
calls on an empty loader, the five pointers of every entry are not null. -/
theorem C18_loader_is_thin_dispatcher {σ : Type} (self : PluginLoaderC σ) (host : CHost σ)
    (n : String) :
    (∀ hdl : PluginLoaderC.PluginHandle σ, self.loaded_plugins_.find n = some hdl →
      (∀ f, hdl.create = some f →
        PluginLoaderC.createAlgoInstance n self host =
          some { ret := (f host.plug).1, self := self
                 host := { host with plug := (f host.plug).2 } }) ∧
      (∀ f, hdl.init = some f → ∀ (handle : Abi.AlgoHandle) (param : Abi.CPtr),
        PluginLoaderC.initAlgo handle n param self host =
          some { ret := (f handle param host.plug).1, self := self
                 host := { host with plug := (f handle param host.plug).2 } }) ∧
      (∀ f, hdl.inferDetection = some f →
        ∀ (handle : Abi.AlgoHandle) (input result : Abi.CPtr),
        PluginLoaderC.inferDetection handle n input result self host =
          some { ret := (f handle input result host.plug).1, self := self
                 host := { host with plug := (f handle input result host.plug).2 } }) ∧
      (∀ f, hdl.deinit = some f → ∀ handle : Abi.AlgoHandle,
        PluginLoaderC.deinitAlgo handle n self host =
          some { ret := (f handle host.plug).1, self := self
                 host := { host with plug := (f handle host.plug).2 } }) ∧
      (∀ f, hdl.destroy = some f → ∀ handle : Abi.AlgoHandle,
        PluginLoaderC.destroyAlgoInstance handle n self host =
          some { ret := (), self := self
                 host := { host with plug := f handle host.plug } })) ∧
    (self.loaded_plugins_.find n = none →
      PluginLoaderC.createAlgoInstance n self host =
        some { ret := none, self := self
               host := host.logMsg LogLevel.err ("Plugin not found: " ++ n) } ∧
      PluginLoaderC.getPluginInfo n self host = some { ret := none, self := self, host := host } ∧
      (∀ (handle : Abi.AlgoHandle) (param : Abi.CPtr),
        PluginLoaderC.initAlgo handle n param self host =
          some { ret := Abi.ALGO_STATUS_ERROR_INVALID_PARAM, self := self, host := host }) ∧
      (∀ (handle : Abi.AlgoHandle) (input result : Abi.CPtr),
        PluginLoaderC.inferDetection handle n input result self host =
          some { ret := Abi.ALGO_STATUS_ERROR_INVALID_PARAM, self := self, host := host }) ∧
      (∀ handle : Abi.AlgoHandle,
        PluginLoaderC.deinitAlgo handle n self host =
          some { ret := Abi.ALGO_STATUS_ERROR_INVALID_PARAM, self := self, host := host }) ∧
      (∀ handle : Abi.AlgoHandle,
        PluginLoaderC.destroyAlgoInstance handle n self host =
          some { ret := (), self := self, host := host })) ∧
    (∀ (ops : List PluginLoaderC.Op) (host0 : CHost σ) (s : PluginLoaderC σ × CHost σ),
      PluginLoaderC.run ops (PluginLoaderC.ctor, host0) = some s →
      ∀ hdl : PluginLoaderC.PluginHandle σ, s.1.loaded_plugins_.find n = some hdl →
        hdl.create ≠ none ∧ hdl.init ≠ none ∧ hdl.inferDetection ≠ none ∧
        hdl.deinit ≠ none ∧ hdl.destroy ≠ none) := by
  refine ⟨?_, ?_, ?_⟩
  · intro hdl hfind
    refine ⟨?_, ?_, ?_, ?_, ?_⟩
    · intro f hf
      simp only [PluginLoaderC.createAlgoInstance, hfind, hf]
    · intro f hf handle param
      simp only [PluginLoaderC.initAlgo, hfind, hf]
    · intro f hf handle input result
      simp only [PluginLoaderC.inferDetection, hfind, hf]
    · intro f hf handle
      simp only [PluginLoaderC.deinitAlgo, hfind, hf]
    · intro f hf handle
      simp only [PluginLoaderC.destroyAlgoInstance, hfind, hf]
  · intro hfind
    refine ⟨?_, ?_, ?_, ?_, ?_, ?_⟩
    · simp only [PluginLoaderC.createAlgoInstance, hfind]
    · simp only [PluginLoaderC.getPluginInfo, hfind]
    · intro handle param
      simp only [PluginLoaderC.initAlgo, hfind]
    · intro handle input result
      simp only [PluginLoaderC.inferDetection, hfind]
    · intro handle
      simp only [PluginLoaderC.deinitAlgo, hfind]
    · intro handle
      simp only [PluginLoaderC.destroyAlgoInstance, hfind]
  · intro ops host0 s hrun hdl hfind
    obtain ⟨s2, hrun2, hinv⟩ := PluginLoaderC.run_invariant ops host0
    rw [hrun] at hrun2
    cases hrun2
    obtain ⟨_, _, a2, a3, a4, a5, a6, _⟩ := hinv (n, hdl) (mem_of_findList n hdl _ hfind)
    exact ⟨a2, a3, a4, a5, a6⟩

/-- C18 at a concrete input: after loading the stub library on an empty loader,
`createAlgoInstance("YOLOv8")` returns the handle the stub returns and
`initAlgo` on "YOLOv8" returns the status the stub returns, with loader and
process unchanged (the stub has no state); on the name "other" the first returns
a null pointer and the second `ALGO_STATUS_ERROR_INVALID_PARAM`. -/
theorem C18_loader_is_thin_dispatcher_witness :
    ∃ out : CLoaded Unit Bool,
      PluginLoaderC.loadPlugin plugin_path PluginLoaderC.ctor (testCHost stubCModule) =
        some out ∧
      out.ret = true ∧
      PluginLoaderC.createAlgoInstance "YOLOv8" out.self out.host =
        some { ret := some 1, self := out.self, host := out.host } ∧
      PluginLoaderC.initAlgo (some 1) "YOLOv8" none out.self out.host =
        some { ret := Abi.ALGO_STATUS_SUCCESS, self := out.self, host := out.host } ∧
      PluginLoaderC.createAlgoInstance "other" out.self out.host =
        some { ret := none, self := out.self
               host := out.host.logMsg LogLevel.err "Plugin not found: other" } ∧
      PluginLoaderC.initAlgo (some 1) "other" none out.self out.host =
        some { ret := Abi.ALGO_STATUS_ERROR_INVALID_PARAM, self := out.self, host := out.host } := by
  have key : ∀ (self : PluginLoaderC Unit) (host : CHost Unit),
      self.loaded_plugins_.entries =
        [("YOLOv8", { dl_handle := some 1, path := plugin_path,
                      getInfo := stubCModule.AlgoGetInfo, create := stubCModule.AlgoCreate,
                      init := stubCModule.AlgoInit,
                      inferDetection := stubCModule.AlgoInferDetection,
                      deinit := stubCModule.AlgoDeinit, destroy := stubCModule.AlgoDestroy,
                      freeDetResult := stubCModule.AlgoFreeDetResult })] →
      PluginLoaderC.createAlgoInstance "YOLOv8" self host =
        some { ret := some 1, self := self, host := host } ∧
      PluginLoaderC.initAlgo (some 1) "YOLOv8" none self host =
        some { ret := Abi.ALGO_STATUS_SUCCESS, self := self, host := host } ∧
      PluginLoaderC.createAlgoInstance "other" self host =
        some { ret := none, self := self
               host := host.logMsg LogLevel.err "Plugin not found: other" } ∧
      PluginLoaderC.initAlgo (some 1) "other" none self host =
        some { ret := Abi.ALGO_STATUS_ERROR_INVALID_PARAM, self := self, host := host } := by
    intro self host he
    have hfind : self.loaded_plugins_.find "YOLOv8" =
        some { dl_handle := some 1, path := plugin_path,
               getInfo := stubCModule.AlgoGetInfo, create := stubCModule.AlgoCreate,
               init := stubCModule.AlgoInit,
               inferDetection := stubCModule.AlgoInferDetection,
               deinit := stubCModule.AlgoDeinit, destroy := stubCModule.AlgoDestroy,
               freeDetResult := stubCModule.AlgoFreeDetResult } := by
      simp [StdMap.find, he, findList]
    have h1 := (C18_loader_is_thin_dispatcher self host "YOLOv8").1 _ hfind
    have h2 := (C18_loader_is_thin_dispatcher self host "other").2.1
      (by simp [StdMap.find, he, findList])
    exact ⟨h1.1 _ rfl, h1.2.1 _ rfl (some 1) none, h2.1, h2.2.2.1 (some 1) none⟩
  refine ⟨_, rfl, rfl, ?_⟩
  exact key _ _ rfl

/-! ## The status value -/

/-- C23: a status built from kind `k` and message `m` reports `k` and `m`, and
its three success tests (`ok()`, `isOk()`, the conversion to `bool`) all say
whether `k` is `kSuccess`.  `Status()` and `Status::OK()` are ok; the statuses
of `InvalidParam`, `NotInitialized`, `ModelLoadError`, `InferenceError`,
`NotImplemented`, and of `Error(k, m)` with `k` other than `kSuccess`, are not. -/
theorem C23_status_reports_kind_and_message :
    (∀ (k : StatusCode) (m : String),
      (Status.mk k m).code = k ∧ (Status.mk k m).message = m ∧
      (Status.mk k m).ok = decide (k = StatusCode.kSuccess) ∧
      (Status.mk k m).isOk = decide (k = StatusCode.kSuccess) ∧
      (Status.mk k m).toBool = decide (k = StatusCode.kSuccess)) ∧
    (Status.ctor.ok = true ∧ Status.ctor.isOk = true ∧ Status.ctor.toBool = true) ∧
    (Status.OK.ok = true ∧ Status.OK.isOk = true ∧ Status.OK.toBool = true) ∧
    (∀ m : String,
      (Status.InvalidParam m).ok = false ∧ (Status.NotInitialized m).ok = false ∧
      (Status.ModelLoadError m).ok = false ∧ (Status.InferenceError m).ok = false ∧
      (Status.NotImplemented m).ok = false) ∧
    (∀ (k : StatusCode) (m : String), k ≠ StatusCode.kSuccess →
      (Status.Error k m).ok = false ∧ (Status.Error k m).isOk = false ∧
      (Status.Error k m).toBool = false ∧
      (Status.Error k m).code = k ∧ (Status.Error k m).message = m) := by
  refine ⟨fun k m => ⟨rfl, rfl, rfl, rfl, rfl⟩, ⟨rfl, rfl, rfl⟩, ⟨rfl, rfl, rfl⟩,
    fun m => ⟨rfl, rfl, rfl, rfl, rfl⟩, ?_⟩
  intro k m hk
  simp [Status.Error, Status.ok, Status.isOk, Status.toBool, Status.code, Status.message, hk]

/-- C23 at a concrete input: `Error(kErrorTimeout, "late")` is not ok and
reports its kind and message. -/
theorem C23_status_reports_kind_and_message_witness :
    (Status.Error StatusCode.kErrorTimeout "late").ok = false ∧
    (Status.Error StatusCode.kErrorTimeout "late").isOk = false ∧
    (Status.Error StatusCode.kErrorTimeout "late").toBool = false ∧
    (Status.Error StatusCode.kErrorTimeout "late").code = StatusCode.kErrorTimeout ∧
    (Status.Error StatusCode.kErrorTimeout "late").message = "late" :=
  C23_status_reports_kind_and_message.2.2.2.2 StatusCode.kErrorTimeout "late" (by decide)

theorem append_bracket_cancel (a b r1 r2 : List Char) (ha : ']' ∉ a) (hb : ']' ∉ b)
    (h : a ++ ']' :: r1 = b ++ ']' :: r2) : a = b ∧ r1 = r2 := by
  induction a generalizing b with
  | nil =>
    cases b with
    | nil => simpa using h
    | cons y ys =>
      simp only [List.nil_append, List.cons_append, List.cons.injEq] at h
      exact absurd h.1 (fun hc => hb (by simp [← hc]))
  | cons x xs ih =>
    cases b with
    | nil =>
      simp only [List.nil_append, List.cons_append, List.cons.injEq] at h
      exact absurd h.1 (fun hc => ha (by simp [hc]))
    | cons y ys =>
      simp only [List.cons_append, List.cons.injEq] at h
      obtain ⟨h1, h2⟩ := ih ys (fun hc => ha (List.mem_cons_of_mem _ hc))
        (fun hc => hb (List.mem_cons_of_mem _ hc)) h.2
      exact ⟨by rw [h.1, h1], h2⟩

theorem codeToString_no_bracket (k : StatusCode) : ']' ∉ (Status.codeToString k).data := by
  cases k <;> decide

theorem codeToString_injective (a b : StatusCode)
    (h : Status.codeToString a = Status.codeToString b) : a = b := by
  cases a <;> cases b <;> first | rfl | exact absurd h (by decide)

/-- C24: `toString()` of a status with kind `k` and message `m` is "[", the
name of `k`, "] " and `m`.  The names of the 13 kinds are the 13 listed ones;
they are pairwise distinct, and two statuses with the same rendering have the
same kind (and the same message). -/
theorem C24_toString_renders_kind_and_message :
    (∀ (k : StatusCode) (m : String),
      (Status.mk k m).toString = "[" ++ Status.codeToString k ++ "] " ++ m) ∧
    (Status.codeToString StatusCode.kSuccess = "Success" ∧
     Status.codeToString StatusCode.kErrorInvalidParam = "InvalidParam" ∧
     Status.codeToString StatusCode.kErrorNotInitialized = "NotInitialized" ∧
     Status.codeToString StatusCode.kErrorAlreadyInitialized = "AlreadyInitialized" ∧
     Status.codeToString StatusCode.kErrorOutOfMemory = "OutOfMemory" ∧
     Status.codeToString StatusCode.kErrorFileNotFound = "FileNotFound" ∧
     Status.codeToString StatusCode.kErrorModelLoad = "ModelLoadError" ∧
     Status.codeToString StatusCode.kErrorInference = "InferenceError" ∧
     Status.codeToString StatusCode.kErrorNotImplemented = "NotImplemented" ∧
     Status.codeToString StatusCode.kErrorBackendNotSupported = "BackendNotSupported" ∧
     Status.codeToString StatusCode.kErrorDeviceNotAvailable = "DeviceNotAvailable" ∧
     Status.codeToString StatusCode.kErrorTimeout = "Timeout" ∧
     Status.codeToString StatusCode.kErrorUnknown = "Unknown") ∧
    (∀ a b : StatusCode, Status.codeToString a = Status.codeToString b → a = b) ∧
    (∀ s1 s2 : Status, s1.toString = s2.toString →
      s1.code = s2.code ∧ s1.message = s2.message) := by
  refine ⟨fun k m => rfl, ⟨rfl, rfl, rfl, rfl, rfl, rfl, rfl, rfl, rfl, rfl, rfl, rfl, rfl⟩,
    codeToString_injective, ?_⟩
  intro s1 s2 h
  have hd := congrArg String.data h
  simp only [Status.toString, String.data_append] at hd
  have hd2 : (Status.codeToString s1.code_).data ++ ']' :: (' ' :: s1.message_.data) =
      (Status.codeToString s2.code_).data ++ ']' :: (' ' :: s2.message_.data) := by
    simpa using hd
  obtain ⟨h1, h2⟩ := append_bracket_cancel _ _ _ _ (codeToString_no_bracket _)
    (codeToString_no_bracket _) hd2
  refine ⟨codeToString_injective _ _ (String.ext h1), ?_⟩
  simp only [List.cons.injEq, true_and] at h2
  exact String.ext h2

/-- C24 at a concrete input: two statuses rendered as "[Timeout] late" have the
kind `kErrorTimeout`. -/
theorem C24_toString_renders_kind_and_message_witness :
    (Status.mk StatusCode.kErrorTimeout "late").toString = "[Timeout] late" ∧
    (Status.mk StatusCode.kErrorTimeout "late").code =
      (Status.Error StatusCode.kErrorTimeout "late").code ∧
    (Status.mk StatusCode.kErrorTimeout "late").message =
      (Status.Error StatusCode.kErrorTimeout "late").message :=
  ⟨by decide,
   C24_toString_renders_kind_and_message.2.2.2 (Status.mk StatusCode.kErrorTimeout "late")
     (Status.Error StatusCode.kErrorTimeout "late") rfl⟩

/-- C25: the enumerations `BackendType` (internal) and `AlgoBackendType` (flat
interface) give the same integers to TensorRT (0), ONNXRuntime (1), OpenVINO
(2), MNN (3) and Unknown (99), and different integers to TNN (4 and 5), NCNN
(5 and 4), CoreML (6 and 8), RKNN (7 and 6) and AscendCL (8 and 7).  So the
integer of `ALGO_BACKEND_TNN` cast to `BackendType` is `kNCNN`, not `kTNN`, and
the integer of `kRKNN` cast to `AlgoBackendType` is `ALGO_BACKEND_ASCENDCL`. -/
theorem C25_backend_enumerations_differ :
    (BackendType.kTensorRT.val = 0 ∧ Abi.ALGO_BACKEND_TENSORRT.val = 0 ∧
     BackendType.kONNXRuntime.val = 1 ∧ Abi.ALGO_BACKEND_ONNXRUNTIME.val = 1 ∧
     BackendType.kOpenVINO.val = 2 ∧ Abi.ALGO_BACKEND_OPENVINO.val = 2 ∧
     BackendType.kMNN.val = 3 ∧ Abi.ALGO_BACKEND_MNN.val = 3 ∧
     BackendType.kUnknown.val = 99 ∧ Abi.ALGO_BACKEND_UNKNOWN.val = 99) ∧
    (BackendType.kTNN.val = 4 ∧ Abi.ALGO_BACKEND_TNN.val = 5 ∧
     BackendType.kNCNN.val = 5 ∧ Abi.ALGO_BACKEND_NCNN.val = 4 ∧
     BackendType.kCoreML.val = 6 ∧ Abi.ALGO_BACKEND_COREML.val = 8 ∧
     BackendType.kRKNN.val = 7 ∧ Abi.ALGO_BACKEND_RKNN.val = 6 ∧
     BackendType.kAscendCL.val = 8 ∧ Abi.ALGO_BACKEND_ASCENDCL.val = 7) ∧
    (BackendType.mk Abi.ALGO_BACKEND_TNN.val = BackendType.kNCNN ∧
     BackendType.mk Abi.ALGO_BACKEND_TNN.val ≠ BackendType.kTNN ∧
     Abi.AlgoBackendType.mk BackendType.kRKNN.val = Abi.ALGO_BACKEND_ASCENDCL ∧
     Abi.AlgoBackendType.mk BackendType.kRKNN.val ≠ Abi.ALGO_BACKEND_RKNN) := by
  decide

/-! ## Failure paths of `YOLOv8Plugin::init` -/

theorem parse_param_result {α : Type} (x : Option String) (cur : α) (f : String → Ret α) :
    (∃ a, (match x with
           | none => Ret.value cur
           | some v => f v) = Ret.value a ∧
          (x = none ∨ ∃ v, x = some v ∧ f v = Ret.value a)) ∨
    (∃ v e, x = some v ∧ f v = Ret.threw e ∧
          (match x with
           | none => Ret.value cur
           | some v => f v) = Ret.threw e) := by
  cases x with
  | none => exact Or.inl ⟨cur, rfl, Or.inl rfl⟩
  | some v =>
    cases hf : f v with
    | value a => exact Or.inl ⟨a, hf, Or.inr ⟨v, rfl, hf⟩⟩
    | threw e => exact Or.inr ⟨v, e, rfl, hf, hf⟩

section TableLemmas

variable {K : Type} {V : Type u} [LinearOrder K]

theorem eraseList_assignList_of_find_none (k : K) (v : V) (l : List (K × V))
    (h : findList k l = none) : eraseList k (assignList k v l) = l := by
  induction l with
  | nil => simp [assignList, eraseList]
  | cons a rest ih =>
    simp only [findList] at h
    split_ifs at h with h1
    simp only [assignList]
    split_ifs with h2
    · simp [eraseList]
    · simp [eraseList, h1, ih h]

theorem StdMap.eq_of_entries {a b : StdMap K V} (h : a.entries = b.entries) : a = b := by
  cases a
  cases b
  simp only at h
  subst h
  rfl

theorem StdMap.erase_assign_of_find_none (m : StdMap K V) (k : K) (v : V)
    (h : m.find k = none) : (m.assign k v).erase k = m :=
  StdMap.eq_of_entries (eraseList_assignList_of_find_none k v m.entries h)

theorem perm_cons_eraseList (k : K) (v : V) (l : List (K × V)) (h : findList k l = some v) :
    l.Perm ((k, v) :: eraseList k l) := by
  induction l with
  | nil => simp [findList] at h
  | cons a rest ih =>
    simp only [findList] at h
    simp only [eraseList]
    split_ifs at h ⊢ with h1
    · simp only [Option.some.injEq] at h
      have : a = (k, v) := by
        cases a
        simp only at h1 h
        rw [h1, h]
      rw [this]
    · exact (List.Perm.cons a (ih h)).trans (List.Perm.swap _ _ _)

theorem assignList_perm (k : K) (v old : V) (l : List (K × V))
    (hs : (l.map Prod.fst).Pairwise (fun a b => a < b)) (h : findList k l = some old) :
    (assignList k v l).Perm ((k, v) :: eraseList k l) := by
  induction l with
  | nil => simp [findList] at h
  | cons a rest ih =>
    simp only [List.map_cons, List.pairwise_cons] at hs
    simp only [findList] at h
    simp only [assignList, eraseList]
    by_cases h2 : k = a.1
    · subst h2
      simp only [lt_irrefl, if_true, if_false]
      exact List.Perm.refl _
    · simp only [h2, if_false] at h ⊢
      have hmem : k ∈ rest.map Prod.fst :=
        List.mem_map.2 ⟨(k, old), mem_of_findList k old rest h, rfl⟩
      have hlt : ¬ k < a.1 := not_lt.2 (le_of_lt (hs.1 k hmem))
      simp only [hlt, if_false]
      exact (List.Perm.cons a (ih hs.2 h)).trans (List.Perm.swap _ _ _)

theorem count_handles_of_find (hd : V → Option Handle) (x : Handle) (k : K) (v : V)
    (l : List (K × V)) (h : findList k l = some v) :
    (l.filterMap (fun e => hd e.2)).count x =
      (if hd v = some x then 1 else 0) + ((eraseList k l).filterMap (fun e => hd e.2)).count x := by
  rw [((perm_cons_eraseList k v l h).filterMap _).count_eq]
  simp only [List.filterMap_cons]
  cases hv : hd v with
  | none => simp
  | some y =>
    simp only [List.count_cons, Option.some.injEq, beq_iff_eq]
    by_cases hy : y = x <;> simp [hy, add_comm]

theorem count_handles_assign (hd : V → Option Handle) (x : Handle) (k : K) (v old : V)
    (l : List (K × V)) (hs : (l.map Prod.fst).Pairwise (fun a b => a < b))
    (h : findList k l = some old) :
    ((assignList k v l).filterMap (fun e => hd e.2)).count x =
      (if hd v = some x then 1 else 0) + ((eraseList k l).filterMap (fun e => hd e.2)).count x := by
  rw [((assignList_perm k v old l hs h).filterMap _).count_eq]
  simp only [List.filterMap_cons]
  cases hv : hd v with
  | none => simp
  | some y =>
    simp only [List.count_cons, Option.some.injEq, beq_iff_eq]
    by_cases hy : y = x <;> simp [hy, add_comm]

theorem mem_handles_eraseList (hd : V → Option Handle) (x : Handle) (k : K)
    (l : List (K × V)) (h : x ∈ (eraseList k l).filterMap (fun e => hd e.2)) :
    x ∈ l.filterMap (fun e => hd e.2) := by
  obtain ⟨e, he, hx⟩ := List.mem_filterMap.1 h
  exact List.mem_filterMap.2 ⟨e, mem_of_mem_eraseList k l e he, hx⟩

end TableLemmas

section OpenCounts

theorem Os.dlclose_openCount {M : Type u} (h x : Handle) (os : Os M) :
    (os.dlclose h).openCount x = if x = h then os.openCount x - 1 else os.openCount x := by
  unfold Os.dlclose
  by_cases hx : x = h
  · subst hx
    split
    · rename_i h0
      simp [Os.record, h0]
    · simp [Os.record]
  · split
    · simp [Os.record, hx]
    · simp [Os.record, hx, Function.update]

@[simp] theorem Host.releasePtr_openCount (p : Option Addr) (host : Host) :
    (host.releasePtr p).os.openCount = host.os.openCount := by
  cases p with
  | none => rfl
  | some a =>
    simp only [Host.releasePtr, Host.release]
    split
    · rfl
    · split <;> rfl

@[simp] theorem Host.share_os (p : Addr) (host : Host) : (host.share p).os = host.os := by
  unfold Host.share
  split <;> rfl

theorem Host.closeHandle_openCount (d : Option Handle) (x : Handle) (host : Host) :
    (Host.closeHandle d host).os.openCount x =
      host.os.openCount x - (if d = some x then 1 else 0) := by
  cases d with
  | none => simp [Host.closeHandle]
  | some h =>
    simp only [Host.closeHandle, Os.dlclose_openCount, Option.some.injEq]
    by_cases hx : x = h
    · simp [hx]
    · simp [hx, Ne.symm hx]

theorem CHost.closeHandle_openCount_flat {σ : Type} (d : Option Handle) (x : Handle)
    (host : CHost σ) :
    (CHost.closeHandle d host).os.openCount x =
      host.os.openCount x - (if d = some x then 1 else 0) := by
  cases d with
  | none => simp [CHost.closeHandle]
  | some h =>
    simp only [CHost.closeHandle, Os.dlclose_openCount, Option.some.injEq]
    by_cases hx : x = h
    · simp [hx]
    · simp [hx, Ne.symm hx]

end OpenCounts

/-- What `unloadPlugin` of `PluginLoader` does on a name that has the entry
`e`. -/
theorem PluginLoader.unloadPlugin_found {plugin_name : String} {self : PluginLoader}
    (host : Host) {e : PluginLoader.PluginHandle}
    (hfind : self.loaded_plugins_.find plugin_name = some e) (x : Handle) :
    (PluginLoader.unloadPlugin plugin_name self host).ret = true ∧
    (PluginLoader.unloadPlugin plugin_name self host).self.loaded_plugins_ =
      self.loaded_plugins_.erase plugin_name ∧
    closes (PluginLoader.unloadPlugin plugin_name self host).host.os.trace =
      closes host.os.trace ++ e.dl_handle.toList ∧
    (PluginLoader.unloadPlugin plugin_name self host).host.os.openCount x =
      host.os.openCount x - (if e.dl_handle = some x then 1 else 0) := by
  refine ⟨?_, ?_, ?_, ?_⟩
  · simp only [PluginLoader.unloadPlugin, hfind]
  · simp only [PluginLoader.unloadPlugin, hfind]
  · simp [PluginLoader.unloadPlugin, hfind, Host.closes_closeHandle, Host.closes_releasePtr]
  · simp [PluginLoader.unloadPlugin, hfind, Host.closeHandle_openCount]

/-- What `unloadPlugin` of `PluginLoaderC` does on a name that has the entry
`e`. -/
theorem PluginLoaderC.unloadPlugin_found_flat {σ : Type} {plugin_name : String}
    {self : PluginLoaderC σ} (host : CHost σ) {e : PluginLoaderC.PluginHandle σ}
    (hfind : self.loaded_plugins_.find plugin_name = some e) (x : Handle) :
    (PluginLoaderC.unloadPlugin plugin_name self host).ret = true ∧
    (PluginLoaderC.unloadPlugin plugin_name self host).self.loaded_plugins_ =
      self.loaded_plugins_.erase plugin_name ∧
    (PluginLoaderC.unloadPlugin plugin_name self host).host.plug = host.plug ∧
    closes (PluginLoaderC.unloadPlugin plugin_name self host).host.os.trace =
      closes host.os.trace ++ e.dl_handle.toList ∧
    (PluginLoaderC.unloadPlugin plugin_name self host).host.os.openCount x =
      host.os.openCount x - (if e.dl_handle = some x then 1 else 0) := by
  refine ⟨?_, ?_, ?_, ?_, ?_⟩
  · simp only [PluginLoaderC.unloadPlugin, hfind]
  · simp only [PluginLoaderC.unloadPlugin, hfind]
  · simp [PluginLoaderC.unloadPlugin, hfind]
  · simp [PluginLoaderC.unloadPlugin, hfind, CHost.closes_closeHandle_flat]
  · simp [PluginLoaderC.unloadPlugin, hfind, CHost.closeHandle_openCount_flat]

theorem PluginLoader.eq_of_table {a b : PluginLoader}
    (h : a.loaded_plugins_ = b.loaded_plugins_) : a = b := by
  cases a
  cases b
  simp only at h
  subst h
  rfl

theorem PluginLoaderC.eq_of_table_flat {σ : Type} {a b : PluginLoaderC σ}
    (h : a.loaded_plugins_ = b.loaded_plugins_) : a = b := by
  cases a
  cases b
  simp only at h
  subst h
  rfl

/-- A load by `PluginLoader` that goes through: the result, the new table, the
`dlclose` calls so far and the open counts. -/
theorem PluginLoader.loadPlugin_success {plugin_path : String} (self : PluginLoader)
    {host : Host} {h : Handle} {m : PluginModule} {f : CreateAlgoPluginFunc} {p : Addr}
    {side1 : PluginSide} {obj : PluginObject} {info : AlgoInfo}
    (hl : host.os.library plugin_path = some (h, m))
    (hc : m.createAlgoPlugin = some f)
    (hf : f (host.logMsg LogLevel.info ("Loading plugin from: " ++ plugin_path)).side
      = (Ret.value (some p), side1))
    (hp : side1.plugins p = some obj)
    (hi : obj.cls.getInfo obj.st = Ret.value info) :
    ∃ out : Loaded (Option Addr),
      PluginLoader.loadPlugin plugin_path self host = some out ∧
      out.ret = Ret.value (some p) ∧
      out.self.loaded_plugins_ = self.loaded_plugins_.assign info.name
        { dl_handle := some h, instance_ := some p, path := plugin_path } ∧
      closes out.host.os.trace = closes host.os.trace ∧
      out.host.os.openCount = Function.update host.os.openCount h (host.os.openCount h + 1) := by
  obtain ⟨g, hg1, _, _, hgc, hg4, hg5⟩ := PluginLoader.loadPlugin_opened self hl
  have hcl : closes g.os.trace = closes host.os.trace := by rw [hg1, closes_dlopen_event]
  rw [hg5]
  rw [← hg4 (by simp [hc])] at hf
  simp only [hc, hf, Host.callGetInfo, hp, hi]
  refine ⟨_, rfl, rfl, rfl, ?_, ?_⟩
  · simp only []
    split
    · rw [Host.share_os]; exact hcl
    · rw [Host.closes_releasePtr, Host.share_os]; exact hcl
  · simp only []
    split
    · rw [Host.share_os]; exact hgc
    · rw [Host.releasePtr_openCount, Host.share_os]; exact hgc

/-- A load by `PluginLoaderC` that returns true: the name stored is the one
`AlgoGetInfo` reported, with the seven symbols of the library. -/
theorem PluginLoaderC.loadPlugin_success_flat {σ : Type} {plugin_path : String}
    {self : PluginLoaderC σ} {host : CHost σ} {dl : Handle} {m : CModule σ}
    {out : CLoaded σ Bool}
    (hf : host.os.fileExists plugin_path = true)
    (hl : host.os.library plugin_path = some (dl, m))
    (hload : PluginLoaderC.loadPlugin plugin_path self host = some out)
    (hret : out.ret = true) :
    ∃ (g : σ → Option Abi.AlgoInfo × σ) (info : Abi.AlgoInfo),
      m.AlgoGetInfo = some g ∧ (g host.plug).1 = some info ∧
      out.self.loaded_plugins_ = self.loaded_plugins_.assign info.name
        { dl_handle := some dl, path := plugin_path, getInfo := m.AlgoGetInfo,
          create := m.AlgoCreate, init := m.AlgoInit,
          inferDetection := m.AlgoInferDetection, deinit := m.AlgoDeinit,
          destroy := m.AlgoDestroy, freeDetResult := m.AlgoFreeDetResult } ∧
      out.host.plug = (g host.plug).2 ∧
      closes out.host.os.trace = closes host.os.trace ∧
      out.host.os.openCount =
        Function.update host.os.openCount dl (host.os.openCount dl + 1) := by
  obtain ⟨b, k, hg1, hg2, hg3, hg4, hg5⟩ := PluginLoaderC.loadPlugin_opened_flat self hf hl
  rw [hg5] at hload
  cases b with
  | false =>
    simp only [Bool.not_false, if_true, Option.some.injEq] at hload
    subst hload
    exact absurd hret (by simp)
  | true =>
    simp only [Bool.not_true, Bool.false_eq_true, if_false] at hload
    cases hgi : m.AlgoGetInfo with
    | none => exact absurd hgi (hg4 rfl).1
    | some g =>
      simp only [hgi] at hload
      cases hinfo : (g host.plug).1 with
      | none =>
        simp only [hinfo, Option.some.injEq] at hload
        subst hload
        exact absurd hret (by simp)
      | some info =>
        simp only [hinfo, Option.some.injEq] at hload
        subst hload
        refine ⟨g, info, rfl, hinfo, rfl, rfl, ?_, ?_⟩
        · simp [hg2, closes_dlopen_event]
        · simp [hg3]

/-- C27: for `PluginLoader`, when the library at the path opens with handle
`h`, its factory returns the live instance `p`, `getInfo()` on it returns
`info`, and the table has no entry under `info.name`: `loadPlugin` returns `p`,
and `unloadPlugin(info.name)` right after returns true, gives back exactly the
table before the load, and the `dlclose` calls of the two together are exactly
one, on `h` (the open count of `h` is what it was before the load).  For
`PluginLoaderC` the same holds of a `loadPlugin` that returns true on a
library whose `AlgoGetInfo` reported `info`; no plugin function runs during the
unload. -/
theorem C27_load_then_unload_restores_table :
    (∀ (plugin_path : String) (self : PluginLoader) (host : Host) (h : Handle)
        (m : PluginModule) (f : CreateAlgoPluginFunc) (p : Addr) (side1 : PluginSide)
        (obj : PluginObject) (info : AlgoInfo),
      host.os.library plugin_path = some (h, m) →
      m.createAlgoPlugin = some f →
      f (host.logMsg LogLevel.info ("Loading plugin from: " ++ plugin_path)).side
        = (Ret.value (some p), side1) →
      side1.plugins p = some obj →
      obj.cls.getInfo obj.st = Ret.value info →
      self.loaded_plugins_.find info.name = none →
      ∃ out : Loaded (Option Addr),
        PluginLoader.loadPlugin plugin_path self host = some out ∧
        out.ret = Ret.value (some p) ∧
        info.name ∈ out.self.getLoadedPlugins ∧
        (PluginLoader.unloadPlugin info.name out.self out.host).ret = true ∧
        (PluginLoader.unloadPlugin info.name out.self out.host).self = self ∧
        closes (PluginLoader.unloadPlugin info.name out.self out.host).host.os.trace =
          closes host.os.trace ++ [h] ∧
        (PluginLoader.unloadPlugin info.name out.self out.host).host.os.openCount h =
          host.os.openCount h) ∧
    (∀ (σ : Type) (plugin_path : String) (self : PluginLoaderC σ) (host : CHost σ)
        (dl : Handle) (m : CModule σ) (g : σ → Option Abi.AlgoInfo × σ) (info : Abi.AlgoInfo)
        (out : CLoaded σ Bool),
      host.os.fileExists plugin_path = true →
      host.os.library plugin_path = some (dl, m) →
      m.AlgoGetInfo = some g → (g host.plug).1 = some info →
      PluginLoaderC.loadPlugin plugin_path self host = some out →
      out.ret = true →
      self.loaded_plugins_.find info.name = none →
      info.name ∈ out.self.getLoadedPlugins ∧
      (PluginLoaderC.unloadPlugin info.name out.self out.host).ret = true ∧
      (PluginLoaderC.unloadPlugin info.name out.self out.host).self = self ∧
      (PluginLoaderC.unloadPlugin info.name out.self out.host).host.plug = out.host.plug ∧
      closes (PluginLoaderC.unloadPlugin info.name out.self out.host).host.os.trace =
        closes host.os.trace ++ [dl] ∧
      (PluginLoaderC.unloadPlugin info.name out.self out.host).host.os.openCount dl =
        host.os.openCount dl) := by
  constructor
  · intro plugin_path self host h m f p side1 obj info hl hc hf hp hi hn
    obtain ⟨out, h1, h2, h3, h4, h5⟩ := PluginLoader.loadPlugin_success self hl hc hf hp hi
    have hfind : out.self.loaded_plugins_.find info.name =
        some { dl_handle := some h, instance_ := some p, path := plugin_path } := by
      rw [h3]; exact StdMap.find_assign_self _ _ _
    obtain ⟨u1, u2, u3, u4⟩ := PluginLoader.unloadPlugin_found out.host hfind h
    refine ⟨out, h1, h2, ?_, u1, ?_, ?_, ?_⟩
    · exact (StdMap.mem_keys_iff _ _).2 (by rw [hfind]; simp)
    · apply PluginLoader.eq_of_table
      rw [u2, h3]
      exact StdMap.erase_assign_of_find_none _ _ _ hn
    · rw [u3, h4]; rfl
    · rw [u4, h5]; simp
  · intro σ plugin_path self host dl m g info out hf hl hg hinfo hload hret hn
    obtain ⟨g2, info2, e1, e2, e3, e4, e5, e6⟩ :=
      PluginLoaderC.loadPlugin_success_flat hf hl hload hret
    rw [hg] at e1
    cases e1
    rw [hinfo] at e2
    cases e2
    have hfind := StdMap.find_assign_self self.loaded_plugins_ info.name
      ({ dl_handle := some dl, path := plugin_path, getInfo := m.AlgoGetInfo,
         create := m.AlgoCreate, init := m.AlgoInit,
         inferDetection := m.AlgoInferDetection, deinit := m.AlgoDeinit,
         destroy := m.AlgoDestroy, freeDetResult := m.AlgoFreeDetResult } :
        PluginLoaderC.PluginHandle σ)
    rw [← e3] at hfind
    obtain ⟨u1, u2, u3, u4, u5⟩ := PluginLoaderC.unloadPlugin_found_flat out.host hfind dl
    refine ⟨?_, u1, ?_, u3, ?_, ?_⟩
    · exact (StdMap.mem_keys_iff _ _).2 (by rw [hfind]; simp)
    · apply PluginLoaderC.eq_of_table_flat
      rw [u2, e3]
      exact StdMap.erase_assign_of_find_none _ _ _ hn
    · rw [u4, e5]; rfl
    · rw [u5, e6]; simp

/-- C27 at concrete inputs: in the two test processes, loading the library on
an empty loader and unloading "YOLOv8" gives back the empty loader, with one
`dlclose` of handle 1. -/
theorem C27_load_then_unload_restores_table_witness :
    (∃ out : Loaded (Option Addr),
      PluginLoader.loadPlugin plugin_path PluginLoader.ctor
        (testHost (yolov8PluginModule (fun _ => ""))) = some out ∧
      out.ret = Ret.value (some 0) ∧
      (PluginLoader.unloadPlugin "YOLOv8" out.self out.host).ret = true ∧
      (PluginLoader.unloadPlugin "YOLOv8" out.self out.host).self = PluginLoader.ctor ∧
      closes (PluginLoader.unloadPlugin "YOLOv8" out.self out.host).host.os.trace = [1]) ∧
    (∃ out : CLoaded Unit Bool,
      PluginLoaderC.loadPlugin plugin_path PluginLoaderC.ctor (testCHost stubCModule) =
        some out ∧
      (PluginLoaderC.unloadPlugin "YOLOv8" out.self out.host).ret = true ∧
      (PluginLoaderC.unloadPlugin "YOLOv8" out.self out.host).self = PluginLoaderC.ctor ∧
      closes (PluginLoaderC.unloadPlugin "YOLOv8" out.self out.host).host.os.trace = [1]) := by
  constructor
  · obtain ⟨out, h1, h2, _, h4, h5, h6, _⟩ :=
      C27_load_then_unload_restores_table.1 plugin_path PluginLoader.ctor
        (testHost (yolov8PluginModule (fun _ => ""))) 1 (yolov8PluginModule (fun _ => ""))
        (makeSharedPlugin (YOLOv8Plugin.cls (fun _ => "")) YOLOv8Plugin.ctor) 0
        ((makeSharedPlugin (YOLOv8Plugin.cls (fun _ => "")) YOLOv8Plugin.ctor)
          ((testHost (yolov8PluginModule (fun _ => ""))).logMsg LogLevel.info
            ("Loading plugin from: " ++ plugin_path)).side).2
        { cls := YOLOv8Plugin.cls (fun _ => ""), st := YOLOv8Plugin.ctor.1, refs := 1 }
        (YOLOv8Plugin.getInfo YOLOv8Plugin.ctor.1)
        (by simp [testHost, testOs]) rfl rfl
        (by simp [makeSharedPlugin, testHost, Host.logMsg]) rfl rfl
    exact ⟨out, h1, h2, h4, h5, h6⟩
  · refine ⟨_, rfl, ?_⟩
    obtain ⟨_, h2, h3, _, h5, _⟩ :=
      C27_load_then_unload_restores_table.2 Unit plugin_path PluginLoaderC.ctor
        (testCHost stubCModule) 1 stubCModule _ _ _
        (by simp [testCHost]) (by simp [testCHost]) rfl rfl rfl rfl rfl
    exact ⟨h2, h3, h5⟩

theorem PluginLoader.openCount_unloadEntries (es : List (String × PluginLoader.PluginHandle))
    (host : Host) (x : Handle) :
    (PluginLoader.unloadEntries es host).os.openCount x =
      host.os.openCount x - (es.filterMap (fun e => e.2.dl_handle)).count x := by
  induction es generalizing host with
  | nil => simp [PluginLoader.unloadEntries]
  | cons e rest ih =>
    simp only [PluginLoader.unloadEntries, ih, Host.closeHandle_openCount,
      Host.releasePtr_openCount, List.filterMap_cons]
    cases hd : e.2.dl_handle with
    | none => simp
    | some y =>
      simp only [Option.some.injEq, List.count_cons, beq_iff_eq]
      by_cases hy : y = x
      · simp [hy]; omega
      · simp [hy]

theorem PluginLoaderC.openCount_unloadEntries_flat {σ : Type}
    (es : List (String × PluginLoaderC.PluginHandle σ)) (host : CHost σ) (x : Handle) :
    (PluginLoaderC.unloadEntries es host).os.openCount x =
      host.os.openCount x - (es.filterMap (fun e => e.2.dl_handle)).count x := by
  induction es generalizing host with
  | nil => simp [PluginLoaderC.unloadEntries]
  | cons e rest ih =>
    simp only [PluginLoaderC.unloadEntries, ih, CHost.closeHandle_openCount_flat,
      List.filterMap_cons]
    cases hd : e.2.dl_handle with
    | none => simp
    | some y =>
      simp only [Option.some.injEq, List.count_cons, beq_iff_eq]
      by_cases hy : y = x
      · simp [hy]; omega
      · simp [hy]

/-- The handles a sequence of unloading calls passes to `dlclose` are handles
stored in the table it starts from. -/
theorem PluginLoader.closes_runUnloads (us : List UnloadCall) (s : PluginLoader × Host) :
    ∃ extra : List Handle,
      closes (PluginLoader.runUnloads us s).2.os.trace = closes s.2.os.trace ++ extra ∧
      ∀ y ∈ extra, y ∈ s.1.loaded_plugins_.entries.filterMap (fun e => e.2.dl_handle) := by
  induction us generalizing s with
  | nil => exact ⟨[], by simp [PluginLoader.runUnloads], by simp⟩
  | cons u rest ih =>
    cases u with
    | unloadPlugin n =>
      simp only [PluginLoader.runUnloads]
      obtain ⟨extra, h1, h2⟩ := ih ((PluginLoader.unloadPlugin n s.1 s.2).self,
        (PluginLoader.unloadPlugin n s.1 s.2).host)
      cases hfind : s.1.loaded_plugins_.find n with
      | none =>
        have hs : (PluginLoader.unloadPlugin n s.1 s.2).self = s.1 := by
          simp [PluginLoader.unloadPlugin, hfind]
        have hh : (PluginLoader.unloadPlugin n s.1 s.2).host.os = s.2.os := by
          simp [PluginLoader.unloadPlugin, hfind]
        refine ⟨extra, ?_, ?_⟩
        · rw [h1]; simp only [hh]
        · intro y hy
          have := h2 y hy
          simp only [hs] at this
          exact this
      | some e =>
        obtain ⟨_, u2, u3, _⟩ := PluginLoader.unloadPlugin_found s.2 hfind 0
        refine ⟨e.dl_handle.toList ++ extra, ?_, ?_⟩
        · rw [h1]; simp only [u3, List.append_assoc]
        · intro y hy
          rcases List.mem_append.1 hy with hy | hy
          · exact List.mem_filterMap.2 ⟨(n, e), mem_of_findList n e _ hfind,
              by simpa using hy⟩
          · have := h2 y hy
            simp only [u2, StdMap.erase] at this
            exact mem_handles_eraseList PluginLoader.PluginHandle.dl_handle y n _ this
    | unloadAll =>
      simp only [PluginLoader.runUnloads]
      obtain ⟨extra, h1, h2⟩ := ih (PluginLoader.unloadAll s.1 s.2)
      refine ⟨s.1.loaded_plugins_.entries.filterMap (fun e => e.2.dl_handle) ++ extra, ?_, ?_⟩
      · rw [h1]
        simp only [PluginLoader.unloadAll, Host.logMsg_os, PluginLoader.closes_unloadEntries,
          List.append_assoc]
      · intro y hy
        rcases List.mem_append.1 hy with hy | hy
        · exact hy
        · have := h2 y hy
          simp [PluginLoader.unloadAll, StdMap.clear, StdMap.empty] at this

/-- A handle that is open more often than it is stored in the table stays open
through every sequence of unloading calls. -/
theorem PluginLoader.openCount_runUnloads (us : List UnloadCall) (s : PluginLoader × Host)
    (x : Handle) (c : Nat)
    (h : (s.1.loaded_plugins_.entries.filterMap (fun e => e.2.dl_handle)).count x + c ≤
      s.2.os.openCount x) :
    c ≤ (PluginLoader.runUnloads us s).2.os.openCount x := by
  induction us generalizing s with
  | nil =>
    simp only [PluginLoader.runUnloads]
    omega
  | cons u rest ih =>
    cases u with
    | unloadPlugin n =>
      simp only [PluginLoader.runUnloads]
      apply ih
      cases hfind : s.1.loaded_plugins_.find n with
      | none =>
        have hs : (PluginLoader.unloadPlugin n s.1 s.2).self = s.1 := by
          simp [PluginLoader.unloadPlugin, hfind]
        have hh : (PluginLoader.unloadPlugin n s.1 s.2).host.os = s.2.os := by
          simp [PluginLoader.unloadPlugin, hfind]
        simp only [hs, hh]
        exact h
      | some e =>
        obtain ⟨_, u2, _, u4⟩ := PluginLoader.unloadPlugin_found s.2 hfind x
        have hc := count_handles_of_find PluginLoader.PluginHandle.dl_handle x n e
          s.1.loaded_plugins_.entries hfind
        simp only [u2, u4, StdMap.erase]
        omega
    | unloadAll =>
      simp only [PluginLoader.runUnloads]
      apply ih
      simp only [PluginLoader.unloadAll, Host.logMsg_os, PluginLoader.openCount_unloadEntries,
        StdMap.clear, StdMap.empty, List.filterMap_nil, List.count_nil]
      omega

theorem PluginLoaderC.closes_runUnloads_flat {σ : Type} (us : List UnloadCall)
    (s : PluginLoaderC σ × CHost σ) :
    ∃ extra : List Handle,
      closes (PluginLoaderC.runUnloads us s).2.os.trace = closes s.2.os.trace ++ extra ∧
      ∀ y ∈ extra, y ∈ s.1.loaded_plugins_.entries.filterMap (fun e => e.2.dl_handle) := by
  induction us generalizing s with
  | nil => exact ⟨[], by simp [PluginLoaderC.runUnloads], by simp⟩
  | cons u rest ih =>
    cases u with
    | unloadPlugin n =>
      simp only [PluginLoaderC.runUnloads]
      obtain ⟨extra, h1, h2⟩ := ih ((PluginLoaderC.unloadPlugin n s.1 s.2).self,
        (PluginLoaderC.unloadPlugin n s.1 s.2).host)
      cases hfind : s.1.loaded_plugins_.find n with
      | none =>
        have hs : (PluginLoaderC.unloadPlugin n s.1 s.2).self = s.1 := by
          simp [PluginLoaderC.unloadPlugin, hfind]
        have hh : (PluginLoaderC.unloadPlugin n s.1 s.2).host = s.2 := by
          simp [PluginLoaderC.unloadPlugin, hfind]
        refine ⟨extra, ?_, ?_⟩
        · rw [h1]; simp only [hh]
        · intro y hy
          have := h2 y hy
          simp only [hs] at this
          exact this
      | some e =>
        obtain ⟨_, u2, _, u3, _⟩ := PluginLoaderC.unloadPlugin_found_flat s.2 hfind 0
        refine ⟨e.dl_handle.toList ++ extra, ?_, ?_⟩
        · rw [h1]; simp only [u3, List.append_assoc]
        · intro y hy
          rcases List.mem_append.1 hy with hy | hy
          · exact List.mem_filterMap.2 ⟨(n, e), mem_of_findList n e _ hfind,
              by simpa using hy⟩
          · have := h2 y hy
            simp only [u2, StdMap.erase] at this
            exact mem_handles_eraseList PluginLoaderC.PluginHandle.dl_handle y n _ this
    | unloadAll =>
      simp only [PluginLoaderC.runUnloads]
      obtain ⟨extra, h1, h2⟩ := ih ((PluginLoaderC.unloadAll s.1 s.2).self,
        (PluginLoaderC.unloadAll s.1 s.2).host)
      refine ⟨s.1.loaded_plugins_.entries.filterMap (fun e => e.2.dl_handle) ++ extra, ?_, ?_⟩
      · rw [h1]
        simp only [PluginLoaderC.unloadAll, CHost.logMsg_os_flat,
          PluginLoaderC.closes_unloadEntries_flat, List.append_assoc]
      · intro y hy
        rcases List.mem_append.1 hy with hy | hy
        · exact hy
        · have := h2 y hy
          simp [PluginLoaderC.unloadAll, StdMap.clear, StdMap.empty] at this

theorem PluginLoaderC.openCount_runUnloads_flat {σ : Type} (us : List UnloadCall)
    (s : PluginLoaderC σ × CHost σ) (x : Handle) (c : Nat)
    (h : (s.1.loaded_plugins_.entries.filterMap (fun e => e.2.dl_handle)).count x + c ≤
      s.2.os.openCount x) :
    c ≤ (PluginLoaderC.runUnloads us s).2.os.openCount x := by
  induction us generalizing s with
  | nil =>
    simp only [PluginLoaderC.runUnloads]
    omega
  | cons u rest ih =>
    cases u with
    | unloadPlugin n =>
      simp only [PluginLoaderC.runUnloads]
      apply ih
      cases hfind : s.1.loaded_plugins_.find n with
      | none =>
        have hs : (PluginLoaderC.unloadPlugin n s.1 s.2).self = s.1 := by
          simp [PluginLoaderC.unloadPlugin, hfind]
        have hh : (PluginLoaderC.unloadPlugin n s.1 s.2).host = s.2 := by
          simp [PluginLoaderC.unloadPlugin, hfind]
        simp only [hs, hh]
        exact h
      | some e =>
        obtain ⟨_, u2, _, _, u4⟩ := PluginLoaderC.unloadPlugin_found_flat s.2 hfind x
        have hc := count_handles_of_find PluginLoaderC.PluginHandle.dl_handle x n e
          s.1.loaded_plugins_.entries hfind
        simp only [u2, u4, StdMap.erase]
        omega
    | unloadAll =>
      simp only [PluginLoaderC.runUnloads]
      apply ih
      simp only [PluginLoaderC.unloadAll, CHost.logMsg_os_flat,
        PluginLoaderC.openCount_unloadEntries_flat, StdMap.clear, StdMap.empty,
        List.filterMap_nil, List.count_nil]
      omega

theorem count_handles_overwrite {V : Type u} (hd : V → Option Handle) (m : StdMap String V)
    (k : String) (new old : V) (h1 : Handle) (hfind : m.find k = some old)
    (hold : hd old = some h1) :
    ((m.assign k new).entries.filterMap (fun e => hd e.2)).count h1 + 1 =
      (m.entries.filterMap (fun e => hd e.2)).count h1 +
        (if hd new = some h1 then 1 else 0) := by
  have a := count_handles_assign hd h1 k new old m.entries m.sorted hfind
  have b := count_handles_of_find hd h1 k old m.entries hfind
  simp only [hold, if_true] at b
  simp only [StdMap.assign]
  omega

/-- C28: for `PluginLoader`, when a load goes through (the library opens with
handle `h`, its factory returns the live instance `p`, `getInfo()` returns
`info`) and the table already has an entry under `info.name`, holding the
handle `h1`: the keys of the table, so its size, are unchanged, the entry under
`info.name` is the new one (handle `h`, instance `p`, the path), and the load
calls no `dlclose`.  If `h` is another handle than `h1` and `h1` was stored in
that one entry only, no later sequence of `unloadPlugin` and `unloadAll` calls
passes `h1` to `dlclose`.  In every case, also when `h` is `h1`, if `h1` was
open at least as often as it was stored, it is still open after every later
sequence of such calls.  The same holds for a `loadPlugin` of `PluginLoaderC`
that returns true. -/
theorem C28_load_over_existing_name_leaks_first_module :
    (∀ (plugin_path : String) (self : PluginLoader) (host : Host) (h : Handle)
        (m : PluginModule) (f : CreateAlgoPluginFunc) (p : Addr) (side1 : PluginSide)
        (obj : PluginObject) (info : AlgoInfo) (old : PluginLoader.PluginHandle)
        (h1 : Handle),
      host.os.library plugin_path = some (h, m) →
      m.createAlgoPlugin = some f →
      f (host.logMsg LogLevel.info ("Loading plugin from: " ++ plugin_path)).side
        = (Ret.value (some p), side1) →
      side1.plugins p = some obj →
      obj.cls.getInfo obj.st = Ret.value info →
      self.loaded_plugins_.find info.name = some old →
      old.dl_handle = some h1 →
      ∃ out : Loaded (Option Addr),
        PluginLoader.loadPlugin plugin_path self host = some out ∧
        out.ret = Ret.value (some p) ∧
        out.self.getLoadedPlugins = self.getLoadedPlugins ∧
        out.self.loaded_plugins_.size = self.loaded_plugins_.size ∧
        out.self.loaded_plugins_.find info.name =
          some { dl_handle := some h, instance_ := some p, path := plugin_path } ∧
        (PluginLoader.getPlugin info.name out.self out.host).1 = some p ∧
        closes out.host.os.trace = closes host.os.trace ∧
        (h ≠ h1 →
          (self.loaded_plugins_.entries.filterMap (fun e => e.2.dl_handle)).count h1 = 1 →
          ∀ us : List UnloadCall, ∃ extra : List Handle,
            closes (PluginLoader.runUnloads us (out.self, out.host)).2.os.trace =
              closes host.os.trace ++ extra ∧ h1 ∉ extra) ∧
        ((self.loaded_plugins_.entries.filterMap (fun e => e.2.dl_handle)).count h1 ≤
            host.os.openCount h1 →
          ∀ us : List UnloadCall,
            1 ≤ (PluginLoader.runUnloads us (out.self, out.host)).2.os.openCount h1)) ∧
    (∀ (σ : Type) (plugin_path : String) (self : PluginLoaderC σ) (host : CHost σ)
        (dl : Handle) (m : CModule σ) (g : σ → Option Abi.AlgoInfo × σ) (info : Abi.AlgoInfo)
        (out : CLoaded σ Bool) (old : PluginLoaderC.PluginHandle σ) (h1 : Handle),
      host.os.fileExists plugin_path = true →
      host.os.library plugin_path = some (dl, m) →
      m.AlgoGetInfo = some g → (g host.plug).1 = some info →
      PluginLoaderC.loadPlugin plugin_path self host = some out →
      out.ret = true →
      self.loaded_plugins_.find info.name = some old →
      old.dl_handle = some h1 →
      out.self.getLoadedPlugins = self.getLoadedPlugins ∧
      out.self.loaded_plugins_.size = self.loaded_plugins_.size ∧
      out.self.loaded_plugins_.find info.name =
        some { dl_handle := some dl, path := plugin_path, getInfo := m.AlgoGetInfo,
               create := m.AlgoCreate, init := m.AlgoInit,
               inferDetection := m.AlgoInferDetection, deinit := m.AlgoDeinit,
               destroy := m.AlgoDestroy, freeDetResult := m.AlgoFreeDetResult } ∧
      closes out.host.os.trace = closes host.os.trace ∧
      (dl ≠ h1 →
        (self.loaded_plugins_.entries.filterMap (fun e => e.2.dl_handle)).count h1 = 1 →
        ∀ us : List UnloadCall, ∃ extra : List Handle,
          closes (PluginLoaderC.runUnloads us (out.self, out.host)).2.os.trace =
            closes host.os.trace ++ extra ∧ h1 ∉ extra) ∧
      ((self.loaded_plugins_.entries.filterMap (fun e => e.2.dl_handle)).count h1 ≤
          host.os.openCount h1 →
        ∀ us : List UnloadCall,
          1 ≤ (PluginLoaderC.runUnloads us (out.self, out.host)).2.os.openCount h1)) := by
  constructor
  · intro plugin_path self host h m f p side1 obj info old h1 hl hc hf hp hi hfind hold
    obtain ⟨out, e1, e2, e3, e4, e5⟩ := PluginLoader.loadPlugin_success self hl hc hf hp hi
    have hne : self.loaded_plugins_.find info.name ≠ none := by rw [hfind]; simp
    have hcount := count_handles_overwrite PluginLoader.PluginHandle.dl_handle
      self.loaded_plugins_ info.name
      { dl_handle := some h, instance_ := some p, path := plugin_path } old h1 hfind hold
    rw [← e3] at hcount
    simp only [Option.some.injEq] at hcount
    have hkeys : out.self.getLoadedPlugins = self.getLoadedPlugins := by
      simp only [PluginLoader.getLoadedPlugins, e3]
      exact StdMap.keys_assign_of_find _ _ _ hne
    have hnew : out.self.loaded_plugins_.find info.name =
        some { dl_handle := some h, instance_ := some p, path := plugin_path } := by
      rw [e3]; exact StdMap.find_assign_self _ _ _
    refine ⟨out, e1, e2, hkeys, ?_, hnew, ?_, e4, ?_, ?_⟩
    · have := congrArg List.length hkeys
      simpa [PluginLoader.getLoadedPlugins, StdMap.keys, StdMap.size] using this
    · simp [PluginLoader.getPlugin, hnew]
    · intro hh hone us
      obtain ⟨extra, x1, x2⟩ := PluginLoader.closes_runUnloads us (out.self, out.host)
      refine ⟨extra, by rw [x1, e4], fun hmem => ?_⟩
      have hz : (out.self.loaded_plugins_.entries.filterMap (fun e => e.2.dl_handle)).count h1
          = 0 := by
        simp only [hh, if_false] at hcount
        omega
      exact (List.count_eq_zero.1 hz) (x2 h1 hmem)
    · intro hle us
      apply PluginLoader.openCount_runUnloads
      simp only [e5]
      by_cases hh : h = h1
      · subst hh
        simp only [if_true, Function.update_same] at hcount ⊢
        omega
      · simp only [hh, if_false] at hcount
        rw [Function.update_noteq (Ne.symm hh)]
        omega
  · intro σ plugin_path self host dl m g info out old h1 hf hl hg hinfo hload hret hfind hold
    obtain ⟨g2, info2, e1, e2, e3, _, e4, e5⟩ :=
      PluginLoaderC.loadPlugin_success_flat hf hl hload hret
    rw [hg] at e1
    cases e1
    rw [hinfo] at e2
    cases e2
    have hne : self.loaded_plugins_.find info.name ≠ none := by rw [hfind]; simp
    have hcount := count_handles_overwrite PluginLoaderC.PluginHandle.dl_handle
      self.loaded_plugins_ info.name
      ({ dl_handle := some dl, path := plugin_path, getInfo := m.AlgoGetInfo,
         create := m.AlgoCreate, init := m.AlgoInit,
         inferDetection := m.AlgoInferDetection, deinit := m.AlgoDeinit,
         destroy := m.AlgoDestroy, freeDetResult := m.AlgoFreeDetResult } :
        PluginLoaderC.PluginHandle σ) old h1 hfind hold
    rw [← e3] at hcount
    simp only [Option.some.injEq] at hcount
    have hkeys : out.self.getLoadedPlugins = self.getLoadedPlugins := by
      simp only [PluginLoaderC.getLoadedPlugins, e3]
      exact StdMap.keys_assign_of_find _ _ _ hne
    refine ⟨hkeys, ?_, ?_, e4, ?_, ?_⟩
    · have := congrArg List.length hkeys
      simpa [PluginLoaderC.getLoadedPlugins, StdMap.keys, StdMap.size] using this
    · rw [e3]; exact StdMap.find_assign_self _ _ _
    · intro hh hone us
      obtain ⟨extra, x1, x2⟩ := PluginLoaderC.closes_runUnloads_flat us (out.self, out.host)
      refine ⟨extra, by rw [x1, e4], fun hmem => ?_⟩
      have hz : (out.self.loaded_plugins_.entries.filterMap (fun e => e.2.dl_handle)).count h1
          = 0 := by
        simp only [hh, if_false] at hcount
        omega
      exact (List.count_eq_zero.1 hz) (x2 h1 hmem)
    · intro hle us
      apply PluginLoaderC.openCount_runUnloads_flat
      simp only [e5]
      by_cases hh : dl = h1
      · subst hh
        simp only [if_true, Function.update_same] at hcount ⊢
        omega
      · simp only [hh, if_false] at hcount
        rw [Function.update_noteq (Ne.symm hh)]
        omega

/-- C28 at concrete inputs: in the processes with two libraries that report
the name "YOLOv8", load the first (handle 1) on an empty loader, then the
second (handle 2).  The table still has the single key "YOLOv8", and after the
calls `unloadPlugin("YOLOv8")` and `unloadAll()` handle 1 was passed to no
`dlclose` and is still open. -/
theorem C28_load_over_existing_name_leaks_first_module_witness :
    (∃ first second : Loaded (Option Addr),
      PluginLoader.loadPlugin plugin_path PluginLoader.ctor
        (twoLibraryHost (yolov8PluginModule (fun _ => ""))) = some first ∧
      PluginLoader.loadPlugin other_plugin_path first.self first.host = some second ∧
      second.self.getLoadedPlugins = ["YOLOv8"] ∧
      (∃ extra : List Handle,
        closes (PluginLoader.runUnloads [UnloadCall.unloadPlugin "YOLOv8", UnloadCall.unloadAll]
          (second.self, second.host)).2.os.trace = closes first.host.os.trace ++ extra ∧
        1 ∉ extra) ∧
      1 ≤ (PluginLoader.runUnloads [UnloadCall.unloadPlugin "YOLOv8", UnloadCall.unloadAll]
          (second.self, second.host)).2.os.openCount 1) ∧
    (∃ first second : CLoaded Unit Bool,
      PluginLoaderC.loadPlugin plugin_path PluginLoaderC.ctor (twoLibraryCHost stubCModule) =
        some first ∧
      PluginLoaderC.loadPlugin other_plugin_path first.self first.host = some second ∧
      second.self.getLoadedPlugins = ["YOLOv8"] ∧
      (∃ extra : List Handle,
        closes (PluginLoaderC.runUnloads [UnloadCall.unloadPlugin "YOLOv8", UnloadCall.unloadAll]
          (second.self, second.host)).2.os.trace = closes first.host.os.trace ++ extra ∧
        1 ∉ extra) ∧
      1 ≤ (PluginLoaderC.runUnloads [UnloadCall.unloadPlugin "YOLOv8", UnloadCall.unloadAll]
          (second.self, second.host)).2.os.openCount 1) := by
  constructor
  · have key : ∀ (self : PluginLoader) (host : Host),
        self.loaded_plugins_.entries =
          [("YOLOv8", { dl_handle := some 1, instance_ := some 0, path := plugin_path })] →
        host.os.library other_plugin_path = some (2, yolov8PluginModule (fun _ => "")) →
        host.os.openCount 1 = 1 →
        ∃ second : Loaded (Option Addr),
          PluginLoader.loadPlugin other_plugin_path self host = some second ∧
          second.self.getLoadedPlugins = ["YOLOv8"] ∧
          (∃ extra : List Handle,
            closes (PluginLoader.runUnloads
              [UnloadCall.unloadPlugin "YOLOv8", UnloadCall.unloadAll]
              (second.self, second.host)).2.os.trace = closes host.os.trace ++ extra ∧
            1 ∉ extra) ∧
          1 ≤ (PluginLoader.runUnloads [UnloadCall.unloadPlugin "YOLOv8", UnloadCall.unloadAll]
              (second.self, second.host)).2.os.openCount 1 := by
      intro self host he hl hoc
      have hfind : self.loaded_plugins_.find "YOLOv8" =
          some { dl_handle := some 1, instance_ := some 0, path := plugin_path } := by
        simp [StdMap.find, he, findList]
      obtain ⟨out, a1, _, a3, _, _, _, _, a8, a9⟩ :=
        C28_load_over_existing_name_leaks_first_module.1 other_plugin_path self host 2
          (yolov8PluginModule (fun _ => ""))
          (makeSharedPlugin (YOLOv8Plugin.cls (fun _ => "")) YOLOv8Plugin.ctor)
          (host.logMsg LogLevel.info ("Loading plugin from: " ++ other_plugin_path)).side.pnext
          ((makeSharedPlugin (YOLOv8Plugin.cls (fun _ => "")) YOLOv8Plugin.ctor)
            (host.logMsg LogLevel.info ("Loading plugin from: " ++ other_plugin_path)).side).2
          { cls := YOLOv8Plugin.cls (fun _ => ""), st := YOLOv8Plugin.ctor.1, refs := 1 }
          (YOLOv8Plugin.getInfo YOLOv8Plugin.ctor.1)
          { dl_handle := some 1, instance_ := some 0, path := plugin_path } 1
          hl rfl rfl (by simp [makeSharedPlugin]) rfl hfind rfl
      refine ⟨out, a1, ?_, a8 (by decide) (by simp [he]) _, a9 (by simp [he, hoc]) _⟩
      rw [a3]
      simp [PluginLoader.getLoadedPlugins, StdMap.keys, he]
    have hfirst : ∃ first : Loaded (Option Addr),
        PluginLoader.loadPlugin plugin_path PluginLoader.ctor
          (twoLibraryHost (yolov8PluginModule (fun _ => ""))) = some first ∧
        first.self.loaded_plugins_.entries =
          [("YOLOv8", { dl_handle := some 1, instance_ := some 0, path := plugin_path })] ∧
        first.host.os.library other_plugin_path =
          some (2, yolov8PluginModule (fun _ => "")) ∧
        first.host.os.openCount 1 = 1 := ⟨_, rfl, rfl, rfl, rfl⟩
    obtain ⟨first, f1, f2, f3, f4⟩ := hfirst
    obtain ⟨second, b1, b2, b3, b4⟩ := key first.self first.host f2 f3 f4
    exact ⟨first, second, f1, b1, b2, b3, b4⟩
  · have key : ∀ (self : PluginLoaderC Unit) (host : CHost Unit) (second : CLoaded Unit Bool),
        self.loaded_plugins_.entries =
          [("YOLOv8", { dl_handle := some 1, path := plugin_path,
                        getInfo := stubCModule.AlgoGetInfo, create := stubCModule.AlgoCreate,
                        init := stubCModule.AlgoInit,
                        inferDetection := stubCModule.AlgoInferDetection,
                        deinit := stubCModule.AlgoDeinit, destroy := stubCModule.AlgoDestroy,
                        freeDetResult := stubCModule.AlgoFreeDetResult })] →
        host.os.fileExists other_plugin_path = true →
        host.os.library other_plugin_path = some (2, stubCModule) →
        host.os.openCount 1 = 1 →
        PluginLoaderC.loadPlugin other_plugin_path self host = some second →
        second.ret = true →
        second.self.getLoadedPlugins = ["YOLOv8"] ∧
        (∃ extra : List Handle,
          closes (PluginLoaderC.runUnloads
            [UnloadCall.unloadPlugin "YOLOv8", UnloadCall.unloadAll]
            (second.self, second.host)).2.os.trace = closes host.os.trace ++ extra ∧
          1 ∉ extra) ∧
        1 ≤ (PluginLoaderC.runUnloads [UnloadCall.unloadPlugin "YOLOv8", UnloadCall.unloadAll]
            (second.self, second.host)).2.os.openCount 1 := by
      intro self host second he hf hl hoc hload hret
      have hfind : self.loaded_plugins_.find "YOLOv8" =
          some { dl_handle := some 1, path := plugin_path,
                 getInfo := stubCModule.AlgoGetInfo, create := stubCModule.AlgoCreate,
                 init := stubCModule.AlgoInit,
                 inferDetection := stubCModule.AlgoInferDetection,
                 deinit := stubCModule.AlgoDeinit, destroy := stubCModule.AlgoDestroy,
                 freeDetResult := stubCModule.AlgoFreeDetResult } := by
        simp [StdMap.find, he, findList]
      obtain ⟨a1, _, _, _, a5, a6⟩ :=
        C28_load_over_existing_name_leaks_first_module.2 Unit other_plugin_path self host 2
          stubCModule _ _ second _ 1 hf hl rfl rfl hload hret hfind rfl
      refine ⟨?_, a5 (by decide) (by simp [he]) _, a6 (by simp [he, hoc]) _⟩
      rw [a1]
      simp [PluginLoaderC.getLoadedPlugins, StdMap.keys, he]
    refine ⟨_, _, rfl, rfl, ?_⟩
    exact key _ _ _ rfl rfl rfl rfl rfl rfl

/-! ## The flat-interface YOLOv8 plugin -/

theorem YOLOv8Impl.init_initialized_iff {showF32 : Option F32 → String} {param : Abi.CPtr}
    {self : YOLOv8Impl} {p : CProcess} {r : Abi.AlgoStatus × YOLOv8Impl × CProcess}
    (h : self.init showF32 param p = some r) :
    r.2.1.initialized_ = true ↔
      (self.initialized_ = true ∨ r.1 = Abi.ALGO_STATUS_SUCCESS) := by
  unfold YOLOv8Impl.init at h
  cases hi : self.initialized_ with
  | true =>
    simp only [hi, if_true, Option.some.injEq] at h
    subst h
    simp [hi]
  | false =>
    simp only [hi, Bool.false_eq_true, if_false] at h
    split at h
    · simp only [Option.some.injEq] at h
      subst h
      simp only [hi]
      decide
    · split at h
      · exact absurd h (by simp)
      · split at h
        · simp only [Option.some.injEq] at h
          subst h
          simp only [hi]
          decide
        · split_ifs at h
          all_goals
            simp only [Option.some.injEq] at h
            subst h
            first
              | exact ⟨fun _ => Or.inr rfl, fun _ => rfl⟩
              | exact ⟨fun hc => absurd hc (by simp), fun hc => hc.elim
                  (fun x => absurd x (by simp))
                  (fun x => absurd (show Abi.ALGO_STATUS_ERROR_BACKEND_NOT_SUPPORTED =
                    Abi.ALGO_STATUS_SUCCESS from x) (by decide))⟩

/-- C29: `AlgoInit` of the flat-interface YOLOv8 plugin.  With a null handle it
returns `ALGO_STATUS_ERROR_INVALID_PARAM` and changes nothing.  With a handle
to the live instance `impl`: if `impl` is initialised the result is
`ALGO_STATUS_ERROR_ALREADY_INITIALIZED` (the parameter is not looked at);
otherwise, if `param` is null or its `model_path` is null, it is
`ALGO_STATUS_ERROR_INVALID_PARAM`; otherwise, if the backend is neither
`ALGO_BACKEND_TENSORRT` nor `ALGO_BACKEND_ONNXRUNTIME`, it is
`ALGO_STATUS_ERROR_BACKEND_NOT_SUPPORTED`; otherwise it is
`ALGO_STATUS_SUCCESS`.  Whenever `AlgoInit` returns, the instance is
initialised afterwards exactly if it was before or the result is
`ALGO_STATUS_SUCCESS`.  `AlgoDeinit` on a handle to a live instance returns
`ALGO_STATUS_SUCCESS` and leaves it uninitialised. -/
theorem C29_flat_init_decision_order (showF32 : Option F32 → String) (p : CProcess)
    (param : Abi.CPtr) :
    AlgoInit showF32 none param p = some (Abi.ALGO_STATUS_ERROR_INVALID_PARAM, p) ∧
    (∀ (h : Nat) (impl : YOLOv8Impl), p.impls h = some impl →
      (impl.isInitialized = true →
        ∃ p1, AlgoInit showF32 (some h) param p =
            some (Abi.ALGO_STATUS_ERROR_ALREADY_INITIALIZED, p1) ∧
          p1.impls h = some impl) ∧
      (impl.isInitialized = false → param = none →
        ∃ p1, AlgoInit showF32 (some h) param p =
            some (Abi.ALGO_STATUS_ERROR_INVALID_PARAM, p1) ∧
          p1.impls h = some impl) ∧
      (∀ (a : Nat) (prm : Abi.AlgoInitParam),
        impl.isInitialized = false → param = some a → p.params a = some prm →
        (prm.model_path = none →
          ∃ p1, AlgoInit showF32 (some h) param p =
              some (Abi.ALGO_STATUS_ERROR_INVALID_PARAM, p1) ∧
            p1.impls h = some impl) ∧
        (prm.model_path ≠ none → prm.backend ≠ Abi.ALGO_BACKEND_TENSORRT →
          prm.backend ≠ Abi.ALGO_BACKEND_ONNXRUNTIME →
          ∃ p1 impl1, AlgoInit showF32 (some h) param p =
              some (Abi.ALGO_STATUS_ERROR_BACKEND_NOT_SUPPORTED, p1) ∧
            p1.impls h = some impl1 ∧ impl1.isInitialized = false) ∧
        (prm.model_path ≠ none →
          (prm.backend = Abi.ALGO_BACKEND_TENSORRT ∨
            prm.backend = Abi.ALGO_BACKEND_ONNXRUNTIME) →
          ∃ p1 impl1, AlgoInit showF32 (some h) param p =
              some (Abi.ALGO_STATUS_SUCCESS, p1) ∧
            p1.impls h = some impl1 ∧ impl1.isInitialized = true)) ∧
      (∀ (st : Abi.AlgoStatus) (p1 : CProcess),
        AlgoInit showF32 (some h) param p = some (st, p1) →
        ∃ impl1, p1.impls h = some impl1 ∧
          (impl1.isInitialized = true ↔
            (impl.isInitialized = true ∨ st = Abi.ALGO_STATUS_SUCCESS))) ∧
      (∃ p1 impl1, AlgoDeinit (some h) p = some (Abi.ALGO_STATUS_SUCCESS, p1) ∧
        p1.impls h = some impl1 ∧ impl1.isInitialized = false)) := by
  refine ⟨rfl, ?_⟩
  intro h impl himpl
  refine ⟨?_, ?_, ?_, ?_, ?_⟩
  · intro hi
    simp only [YOLOv8Impl.isInitialized] at hi
    simp only [AlgoInit, himpl, YOLOv8Impl.init, hi, if_true]
    exact ⟨_, rfl, Function.update_same _ _ _⟩
  · intro hi hp
    simp only [YOLOv8Impl.isInitialized] at hi
    subst hp
    simp only [AlgoInit, himpl, YOLOv8Impl.init, hi, Bool.false_eq_true, if_false]
    exact ⟨_, rfl, Function.update_same _ _ _⟩
  · intro a prm hi hp hprm
    simp only [YOLOv8Impl.isInitialized] at hi
    subst hp
    refine ⟨?_, ?_, ?_⟩
    · intro hm
      simp only [AlgoInit, himpl, YOLOv8Impl.init, hi, Bool.false_eq_true, if_false, hprm, hm]
      exact ⟨_, rfl, Function.update_same _ _ _⟩
    · intro hm hb1 hb2
      obtain ⟨path, hpath⟩ := Option.ne_none_iff_exists'.1 hm
      simp only [AlgoInit, himpl, YOLOv8Impl.init, hi, Bool.false_eq_true, if_false, hprm,
        hpath, hb1, hb2]
      refine ⟨_, _, rfl, Function.update_same _ _ _, ?_⟩
      simp only [YOLOv8Impl.isInitialized]
      split <;> rfl
    · intro hm hb
      obtain ⟨path, hpath⟩ := Option.ne_none_iff_exists'.1 hm
      have hne : Abi.ALGO_BACKEND_ONNXRUNTIME ≠ Abi.ALGO_BACKEND_TENSORRT := by decide
      rcases hb with hb | hb
      · simp only [AlgoInit, himpl, YOLOv8Impl.init, hi, Bool.false_eq_true, if_false, hprm,
          hpath, hb, if_true, YOLOv8Impl.initDone]
        exact ⟨_, _, rfl, Function.update_same _ _ _, rfl⟩
      · simp only [AlgoInit, himpl, YOLOv8Impl.init, hi, Bool.false_eq_true, if_false, hprm,
          hpath, hb, hne, if_true, YOLOv8Impl.initDone]
        exact ⟨_, _, rfl, Function.update_same _ _ _, rfl⟩
  · intro st p1 hrun
    simp only [AlgoInit, himpl] at hrun
    cases hinit : impl.init showF32 param p with
    | none => simp [hinit] at hrun
    | some r =>
      simp only [hinit, Option.some.injEq, Prod.mk.injEq] at hrun
      obtain ⟨hst, hp1⟩ := hrun
      subst hp1
      refine ⟨r.2.1, by simp, ?_⟩
      subst hst
      exact YOLOv8Impl.init_initialized_iff hinit
  · cases hi : impl.initialized_ with
    | true =>
      simp only [AlgoDeinit, himpl, YOLOv8Impl.deinit, hi, Bool.not_true, Bool.false_eq_true,
        if_false]
      exact ⟨_, _, rfl, Function.update_same _ _ _, rfl⟩
    | false =>
      simp only [AlgoDeinit, himpl, YOLOv8Impl.deinit, hi, Bool.not_false, if_true]
      exact ⟨_, _, rfl, Function.update_same _ _ _, hi⟩

/-- C29 at a concrete input: Test 3, 4 and 6 of `plugin_test_c.cc`: on the
instance `AlgoCreate` returns, `AlgoInit` with `init_param` returns
`ALGO_STATUS_SUCCESS` and leaves it initialised. -/
theorem C29_flat_init_decision_order_witness :
    (AlgoCreate testCProcess).1 = some 1 ∧
    ∃ p1 impl1, AlgoInit (fun _ => "") (some 1) (some 0) (AlgoCreate testCProcess).2 =
        some (Abi.ALGO_STATUS_SUCCESS, p1) ∧
      p1.impls 1 = some impl1 ∧ impl1.isInitialized = true :=
  ⟨rfl,
   ((C29_flat_init_decision_order (fun _ => "") (AlgoCreate testCProcess).2 (some 0)).2
      1 YOLOv8Impl.ctor rfl).2.2.1 0 init_param rfl rfl rfl |>.2.2 (by decide)
      (Or.inl rfl)⟩

/-- C30: `AlgoInferDetection` of the flat-interface YOLOv8 plugin.  With a null
handle it returns `ALGO_STATUS_ERROR_INVALID_PARAM` and changes nothing.  With
a handle to the live instance `impl`: if `impl` is not initialised the result
is `ALGO_STATUS_ERROR_NOT_INITIALIZED`, whatever the arguments; if it is
initialised and `input` or `result` is null the result is
`ALGO_STATUS_ERROR_INVALID_PARAM`; in both cases every result object and every
array of boxes is as before.  If it is initialised, `input` points to a tensor
of at most 8 dimensions and `result` points to a result object, the call
returns `ALGO_STATUS_SUCCESS`, `*result` has `num_boxes` 2 and `boxes` pointing
to an array of 2 boxes at the next unused address; then
`AlgoFreeDetResult(result)` frees that array and sets `boxes` to null and
`num_boxes` to 0, and a second `AlgoFreeDetResult(result)` changes nothing. -/
theorem C30_flat_infer_and_free (p : CProcess) (input result : Abi.CPtr) :
    AlgoInferDetection none input result p = some (Abi.ALGO_STATUS_ERROR_INVALID_PARAM, p) ∧
    (∀ (h : Nat) (impl : YOLOv8Impl), p.impls h = some impl →
      (impl.isInitialized = false →
        ∃ p1, AlgoInferDetection (some h) input result p =
            some (Abi.ALGO_STATUS_ERROR_NOT_INITIALIZED, p1) ∧
          p1.results = p.results ∧ p1.boxArrays = p.boxArrays ∧ p1.impls h = some impl) ∧
      (impl.isInitialized = true → (input = none ∨ result = none) →
        ∃ p1, AlgoInferDetection (some h) input result p =
            some (Abi.ALGO_STATUS_ERROR_INVALID_PARAM, p1) ∧
          p1.results = p.results ∧ p1.boxArrays = p.boxArrays ∧ p1.impls h = some impl) ∧
      (∀ (i r : Nat) (t : Abi.AlgoTensor) (res : Abi.AlgoDetResult),
        impl.isInitialized = true → input = some i → result = some r →
        p.tensors i = some t → t.ndim ≤ 8 → p.results r = some res →
        ∃ p1, AlgoInferDetection (some h) input result p =
            some (Abi.ALGO_STATUS_SUCCESS, p1) ∧
          p1.results r = some { boxes := some p.nextArray, num_boxes := 2, timestamp := 0 } ∧
          (∀ r2, r2 ≠ r → p1.results r2 = p.results r2) ∧
          (∃ boxes, p1.boxArrays p.nextArray = some boxes ∧ boxes.length = 2) ∧
          p1.nextArray = p.nextArray + 1 ∧
          ∃ p2, AlgoFreeDetResult result p1 = some p2 ∧
            p2.results r = some { boxes := none, num_boxes := 0, timestamp := 0 } ∧
            p2.boxArrays p.nextArray = none ∧
            AlgoFreeDetResult result p2 = some p2)) := by
  refine ⟨rfl, ?_⟩
  intro h impl himpl
  refine ⟨?_, ?_, ?_⟩
  · intro hi
    simp only [YOLOv8Impl.isInitialized] at hi
    simp only [AlgoInferDetection, himpl, YOLOv8Impl.infer, hi, Bool.not_false, if_true]
    exact ⟨_, rfl, rfl, rfl, Function.update_same _ _ _⟩
  · intro hi hnull
    simp only [YOLOv8Impl.isInitialized] at hi
    rcases hnull with hn | hn
    · subst hn
      simp only [AlgoInferDetection, himpl, YOLOv8Impl.infer, hi, Bool.not_true,
        Bool.false_eq_true, if_false]
      exact ⟨_, rfl, rfl, rfl, Function.update_same _ _ _⟩
    · subst hn
      cases input with
      | none =>
        simp only [AlgoInferDetection, himpl, YOLOv8Impl.infer, hi, Bool.not_true,
          Bool.false_eq_true, if_false]
        exact ⟨_, rfl, rfl, rfl, Function.update_same _ _ _⟩
      | some i =>
        simp only [AlgoInferDetection, himpl, YOLOv8Impl.infer, hi, Bool.not_true,
          Bool.false_eq_true, if_false]
        exact ⟨_, rfl, rfl, rfl, Function.update_same _ _ _⟩
  · intro i r t res hi hin hres ht hdim hr
    simp only [YOLOv8Impl.isInitialized] at hi
    subst hin
    subst hres
    have hnd : ¬ (8 < t.ndim) := not_lt.2 hdim
    simp only [AlgoInferDetection, himpl, YOLOv8Impl.infer, hi, Bool.not_true,
      Bool.false_eq_true, if_false, ht, hnd, hr]
    refine ⟨_, rfl, ?_, ?_, ?_, rfl, ?_⟩
    · simp [CProcess.print]
    · intro r2 hne
      simp [CProcess.print, Function.update, hne]
    · exact ⟨YOLOv8Impl.simulatedBoxes, by simp [CProcess.print], rfl⟩
    · simp only [AlgoFreeDetResult, CProcess.print, Function.update_same]
      refine ⟨_, rfl, ?_, ?_, ?_⟩
      · simp
      · simp
      · simp

/-- C30 at a concrete input: Test 3 to 5 of `plugin_test_c.cc`: after
`AlgoCreate` and a successful `AlgoInit`, `AlgoInferDetection` on `input` and
`result` returns `ALGO_STATUS_SUCCESS` with 2 boxes in the array at address 1;
`AlgoFreeDetResult` then resets `result`, and a second call changes nothing. -/
theorem C30_flat_infer_and_free_witness :
    ∃ p0 p1 p2 : CProcess,
      AlgoInit (fun _ => "") (some 1) (some 0) (AlgoCreate testCProcess).2 =
        some (Abi.ALGO_STATUS_SUCCESS, p0) ∧
      AlgoInferDetection (some 1) (some 0) (some 0) p0 = some (Abi.ALGO_STATUS_SUCCESS, p1) ∧
      p1.results 0 = some { boxes := some 1, num_boxes := 2, timestamp := 0 } ∧
      (∃ boxes, p1.boxArrays 1 = some boxes ∧ boxes.length = 2) ∧
      AlgoFreeDetResult (some 0) p1 = some p2 ∧
      p2.results 0 = some { boxes := none, num_boxes := 0, timestamp := 0 } ∧
      AlgoFreeDetResult (some 0) p2 = some p2 := by
  have h0 : ∃ (p0 : CProcess) (impl : YOLOv8Impl),
      AlgoInit (fun _ => "") (some 1) (some 0) (AlgoCreate testCProcess).2 =
        some (Abi.ALGO_STATUS_SUCCESS, p0) ∧
      p0.impls 1 = some impl ∧ impl.isInitialized = true ∧
      p0.tensors 0 = some test_input ∧
      p0.results 0 = some { boxes := none, num_boxes := 0, timestamp := 0 } ∧
      p0.nextArray = 1 := ⟨_, _, rfl, rfl, rfl, rfl, rfl, rfl⟩
  obtain ⟨p0, impl, a1, a2, a3, a4, a5, a6⟩ := h0
  obtain ⟨p1, b1, b2, _, b4, _, p2, c1, c2, _, c4⟩ :=
    ((C30_flat_infer_and_free p0 (some 0) (some 0)).2 1 impl a2).2.2 0 0 test_input _
      a3 rfl rfl a4 (by decide) a5
  rw [a6] at b2 b4
  exact ⟨p0, p1, p2, a1, b1, b2, b4, c1, c2, c4⟩

end InferFrame
